import Mathlib

/-!
Supersonic flat plate: boundary enforcement, grid steps, convergence check,
initialization, constructor and driver loop, and the Dirichlet boundary.

A shallow embedding of `src/SupersonicFlatPlate/supersonic_plate.cpp` and of
`DirichletBoundary::calcState` (`src/SupersonicFlow/Boundary.cpp`, `State.h`).
C++ `double` arithmetic is modelled exactly, in an arbitrary field `K`
(`ℚ` for evaluation, `ℝ` where `sqrt` is the real square root); C++ `int`
indices are `Int`.  The convergence check is modelled a second time on
doubles with infinities and NaN (`Double`, `CheckConvergenceDouble`).
-/

namespace supersonic_plate

/-! ## Control flow -/

/-- The C++ loop `for (int i = lo; ...; i++) body`, run for a given number
of iterations starting at index `i`. -/
def forLoop {σ : Type} (body : Int → σ → σ) : Nat → Int → σ → σ
  | 0, _, s => s
  | n + 1, i, s => forLoop body n (i + 1) (body i s)

/-- The C++ loop `for (int i = lo; i < hi; i++) body`. -/
def forRange {σ : Type} (lo hi : Int) (body : Int → σ → σ) (s : σ) : σ :=
  forLoop body (hi - lo).toNat lo s

/-! ## Data model -/

/-- Modelled from the spec: `Array2D<double>` (its header is not among the
sources): a dense 2-D array of scalars addressed by integer grid indices
`(i, j)`, with value semantics (the assignment `rho_old_ = rho_` takes a
snapshot).  Only `Get` and `Set` are used by the code.  The index plane is
unbounded here; the statements below speak of the nodes `0 ≤ i < imax`,
`0 ≤ j < jmax` of the grid. -/
def Array2D (K : Type) : Type := Int → Int → K

/-- Read of `a.Get(i, j)`. -/
def Array2D.Get {K : Type} (a : Array2D K) (i j : Int) : K := a i j

/-- Effect of `a.Set(i, j, x)`: the cell `(i, j)` holds `x`, every other
cell is as before. -/
def Array2D.Set {K : Type} (a : Array2D K) (i j : Int) (x : K) : Array2D K :=
  fun i' j' => if i' = i ∧ j' = j then x else a i' j'

/-- Modelled from the spec: `FlowParameters` (declared in a header that is
not among the sources); the members are those the constructor of
`SupersonicPlate` assigns. -/
structure FlowParameters (K : Type) where
  mu : K
  T_0 : K
  M_inf : K
  plate_length : K
  a_inf : K
  P_inf : K
  T_inf : K
  T_wall : K
  gamma : K
  R : K
  Pr : K
  cv : K
  cp : K

/-- The six arrays `BoundaryConditions` receives by reference. -/
@[ext]
structure Fields (K : Type) where
  u : Array2D K
  v : Array2D K
  rho : Array2D K
  P : Array2D K
  T : Array2D K
  e : Array2D K

/-! ## `SupersonicPlate::BoundaryConditions` -/

section Boundary

variable {K : Type} [Field K]

/-- Lines 151-156: the leading-edge node `(0, 0)`. -/
def leadingEdge (params : FlowParameters K) (s : Fields K) : Fields K :=
  { u := s.u.Set 0 0 0
    v := s.v.Set 0 0 0
    P := s.P.Set 0 0 params.P_inf
    T := s.T.Set 0 0 params.T_inf
    rho := s.rho.Set 0 0 (params.P_inf / params.R / params.T_inf)
    e := s.e.Set 0 0 (params.T_inf * params.cv) }

/-- Lines 159-164: body of the inflow loop over `j`. -/
def inflowBody (params : FlowParameters K) (j : Int) (s : Fields K) : Fields K :=
  { u := s.u.Set 0 j (params.a_inf * params.M_inf)
    v := s.v.Set 0 j 0
    P := s.P.Set 0 j params.P_inf
    T := s.T.Set 0 j params.T_inf
    rho := s.rho.Set 0 j (params.P_inf / params.R / params.T_inf)
    e := s.e.Set 0 j (params.T_inf * params.cv) }

/-- Lines 168-173: body of the far-field loop over `i`. -/
def farFieldBody (jmax : Int) (params : FlowParameters K) (i : Int) (s : Fields K) :
    Fields K :=
  { u := s.u.Set i (jmax - 1) (params.a_inf * params.M_inf)
    v := s.v.Set i (jmax - 1) 0
    P := s.P.Set i (jmax - 1) params.P_inf
    T := s.T.Set i (jmax - 1) params.T_inf
    rho := s.rho.Set i (jmax - 1) (params.P_inf / params.R / params.T_inf)
    e := s.e.Set i (jmax - 1) (params.T_inf * params.cv) }

/-- Lines 179-186: body of the wall loop over `i`; `p_ij` is read from `P`
before `P` is written. -/
def wallBody (params : FlowParameters K) (i : Int) (s : Fields K) : Fields K :=
  let p_ij := 2 * s.P.Get i 1 - s.P.Get i 2
  { u := s.u.Set i 0 0
    v := s.v.Set i 0 0
    P := s.P.Set i 0 p_ij
    T := s.T.Set i 0 params.T_wall
    rho := s.rho.Set i 0 (p_ij / params.R / params.T_wall)
    e := s.e.Set i 0 (params.T_wall * params.cv) }

/-- Lines 190-195: body of the outflow loop over `j`. -/
def outflowBody (imax : Int) (j : Int) (s : Fields K) : Fields K :=
  { u := s.u.Set (imax - 1) j (2 * s.u.Get (imax - 2) j - s.u.Get (imax - 3) j)
    v := s.v.Set (imax - 1) j (2 * s.v.Get (imax - 2) j - s.v.Get (imax - 3) j)
    P := s.P.Set (imax - 1) j (2 * s.P.Get (imax - 2) j - s.P.Get (imax - 3) j)
    T := s.T.Set (imax - 1) j (2 * s.T.Get (imax - 2) j - s.T.Get (imax - 3) j)
    rho := s.rho.Set (imax - 1) j (2 * s.rho.Get (imax - 2) j - s.rho.Get (imax - 3) j)
    e := s.e.Set (imax - 1) j (2 * s.e.Get (imax - 2) j - s.e.Get (imax - 3) j) }

/-- State after the leading-edge node and the inflow loop (lines 151-165). -/
def afterInflow (jmax : Int) (params : FlowParameters K) (s : Fields K) : Fields K :=
  forRange 1 jmax (inflowBody params) (leadingEdge params s)

/-- State after the far-field loop (lines 151-174). -/
def afterFarField (imax jmax : Int) (params : FlowParameters K) (s : Fields K) :
    Fields K :=
  forRange 0 imax (farFieldBody jmax params) (afterInflow jmax params s)

/-- State after the wall loop (lines 151-187). -/
def afterWall (imax jmax : Int) (params : FlowParameters K) (s : Fields K) : Fields K :=
  forRange 1 imax (wallBody params) (afterFarField imax jmax params s)

/-- `SupersonicPlate::BoundaryConditions` (lines 147-198): leading edge,
inflow, far field, wall and outflow, in that order. -/
def BoundaryConditions (imax jmax : Int) (params : FlowParameters K) (s : Fields K) :
    Fields K :=
  forRange 0 jmax (outflowBody imax) (afterWall imax jmax params s)

end Boundary

/-! ## Index accesses of `BoundaryConditions` -/

/-- The six arrays `BoundaryConditions` works on. -/
inductive FieldName where
  | u
  | v
  | rho
  | P
  | T
  | e

/-- One call of `Get` or `Set`: the array and the index pair it addresses. -/
structure Access where
  arr : FieldName
  i : Int
  j : Int

/-- Lines 151-156: the calls at the leading-edge node. -/
def leadingEdgeAccesses : List Access :=
  [⟨FieldName.u, 0, 0⟩,
   ⟨FieldName.v, 0, 0⟩,
   ⟨FieldName.P, 0, 0⟩,
   ⟨FieldName.T, 0, 0⟩,
   ⟨FieldName.rho, 0, 0⟩,
   ⟨FieldName.e, 0, 0⟩]

/-- Lines 159-164: the calls of one iteration of the inflow loop. -/
def inflowAccesses (j : Int) : List Access :=
  [⟨FieldName.u, 0, j⟩,
   ⟨FieldName.v, 0, j⟩,
   ⟨FieldName.P, 0, j⟩,
   ⟨FieldName.T, 0, j⟩,
   ⟨FieldName.rho, 0, j⟩,
   ⟨FieldName.e, 0, j⟩]

/-- Lines 168-173: the calls of one iteration of the far-field loop. -/
def farFieldAccesses (jmax : Int) (i : Int) : List Access :=
  [⟨FieldName.u, i, jmax - 1⟩,
   ⟨FieldName.v, i, jmax - 1⟩,
   ⟨FieldName.P, i, jmax - 1⟩,
   ⟨FieldName.T, i, jmax - 1⟩,
   ⟨FieldName.rho, i, jmax - 1⟩,
   ⟨FieldName.e, i, jmax - 1⟩]

/-- Lines 179-186: the calls of one iteration of the wall loop, the two reads
of `P` first. -/
def wallAccesses (i : Int) : List Access :=
  [⟨FieldName.P, i, 1⟩,
   ⟨FieldName.P, i, 2⟩,
   ⟨FieldName.u, i, 0⟩,
   ⟨FieldName.v, i, 0⟩,
   ⟨FieldName.P, i, 0⟩,
   ⟨FieldName.T, i, 0⟩,
   ⟨FieldName.rho, i, 0⟩,
   ⟨FieldName.e, i, 0⟩]

/-- Lines 190-195: the calls of one iteration of the outflow loop; each `Set`
comes after the two `Get` of its argument. -/
def outflowAccesses (imax : Int) (j : Int) : List Access :=
  [⟨FieldName.u, imax - 2, j⟩,
   ⟨FieldName.u, imax - 3, j⟩,
   ⟨FieldName.u, imax - 1, j⟩,
   ⟨FieldName.v, imax - 2, j⟩,
   ⟨FieldName.v, imax - 3, j⟩,
   ⟨FieldName.v, imax - 1, j⟩,
   ⟨FieldName.P, imax - 2, j⟩,
   ⟨FieldName.P, imax - 3, j⟩,
   ⟨FieldName.P, imax - 1, j⟩,
   ⟨FieldName.T, imax - 2, j⟩,
   ⟨FieldName.T, imax - 3, j⟩,
   ⟨FieldName.T, imax - 1, j⟩,
   ⟨FieldName.rho, imax - 2, j⟩,
   ⟨FieldName.rho, imax - 3, j⟩,
   ⟨FieldName.rho, imax - 1, j⟩,
   ⟨FieldName.e, imax - 2, j⟩,
   ⟨FieldName.e, imax - 3, j⟩,
   ⟨FieldName.e, imax - 1, j⟩]

/-- Every `Get` and `Set` call performed by `BoundaryConditions` (lines
151-196), in the order of the five passes; the calls do not depend on the
contents of the arrays. -/
def BoundaryConditionsAccesses (imax jmax : Int) : List Access :=
  let tr := leadingEdgeAccesses
  let tr := forRange 1 jmax (fun j tr => tr ++ inflowAccesses j) tr
  let tr := forRange 0 imax (fun i tr => tr ++ farFieldAccesses jmax i) tr
  let tr := forRange 1 imax (fun i tr => tr ++ wallAccesses i) tr
  forRange 0 jmax (fun j tr => tr ++ outflowAccesses imax j) tr

/-! ## `NodeState`, `State` and `DirichletBoundary::calcState` -/

/-- `NodeState` (`State.h`, lines 9-120): the inline array `vals[4]`, the flag
`done`, the count `size_`, the shared list `boundary_` and `boundaryType_`.
The types `B` of `boundary_` and `BT` of `boundaryType_` come from
`Boundary.h`, which is not among the sources. -/
structure NodeState (K B BT : Type) where
  vals : Fin 4 → K
  done : Bool
  size_ : Int
  boundary_ : B
  boundaryType_ : BT

/-- `NodeState::size` (line 102). -/
def NodeState.size {K B BT : Type} (n : NodeState K B BT) : Int := n.size_

/-- `State` (`State.h`, lines 122-157): the rows of node states and the mesh
pointer, of a type `M` that is not among the sources. -/
structure State (K B BT M : Type) where
  state_ : List (List (NodeState K B BT))
  mesh_ : M

/-- The read `state[y][x]` through `State::operator[]` (line 134) and the
indexing of the row; `none` when `y` or `x` is out of range. -/
def State.index {K B BT M : Type} (s : State K B BT M) (y x : Int) :
    Option (NodeState K B BT) :=
  if 0 ≤ y ∧ 0 ≤ x then
    (s.state_[y.toNat]?).bind (fun row => row[x.toNat]?)
  else none

/-- `DirichletBoundary::calcState` (`Boundary.cpp`, lines 13-17): the copy
`NodeState state = last_state[y][x]`, the write `state.done = true`, and the
return by value.  The result comes with the final values of the arguments
passed by reference (`last_state`, `solver`, `cur_state`); `none` stands for an
out-of-range read. -/
def DirichletBoundary.calcState {K B BT M Sol : Type} (x y : Int)
    (last_state : State K B BT M) (solver : Sol) (cur_state : State K B BT M)
    (_delta_t : K) :
    Option (NodeState K B BT × State K B BT M × Sol × State K B BT M) :=
  match last_state.index y x with
  | none => none
  | some state =>
    let state := { state with done := true }
    some (state, last_state, solver, cur_state)

/-! ## Grid steps -/

section Steps

variable {K : Type} [Field K]

/-- `SupersonicPlate::CalcXStep` (lines 62-64); the `int` size is converted
to a scalar by the division. -/
def CalcXStep (params : FlowParameters K) (size : Int) : K :=
  params.plate_length / (size : K)

/-- `SupersonicPlate::CalcYStep` (lines 66-74).  `sqrt` is the square root of
the C library, taken as a parameter. -/
def CalcYStep (sqrt : K → K) (params : FlowParameters K) (size : Int) : K :=
  let rho := params.P_inf / (params.T_inf * params.R)
  let u := params.M_inf * params.a_inf
  let Re := rho * u * params.plate_length / params.mu
  let delta := 5 * params.plate_length / sqrt Re
  let lvert := 5 * delta
  lvert / (size : K)

end Steps

/-! ## The solver object, convergence check and driver loop -/

section Driver

variable {K S : Type} [LinearOrderedField K]

/-- The members of `SupersonicPlate` that `Run` and the functions it calls
use.  `fields` groups `u_`, `v_`, `rho_`, `P_`, `T_` and `e_`; `solver` stands
for the state of `maccormack_solver_` together with `outside_`, whose types
are not among the sources. -/
structure SupersonicPlate (K S : Type) where
  imax_ : Int
  jmax_ : Int
  maxit : Int
  flow_parameters_ : FlowParameters K
  deltax_ : K
  deltay_ : K
  fields : Fields K
  M_ : Array2D K
  rho_old_ : Array2D K
  solver : S

/-- Modelled from the spec: the time-step calculator and the MacCormack
solver, declared in headers that are not among the sources.  `CalcTStep`
returns the time step from the grid state; `UpdatePredictor` and
`UpdateCorrector` mutate the six arrays they receive (and their own state).
All three are arbitrary functions here. -/
structure Collaborators (K S : Type) where
  CalcTStep : Int → Int → K → K → FlowParameters K →
    Array2D K → Array2D K → Array2D K → Array2D K → Array2D K → K → K
  UpdatePredictor : S → K → K → K → Int → Int → FlowParameters K → Fields K → S × Fields K
  UpdateCorrector : S → K → K → K → Int → Int → FlowParameters K → Fields K → S × Fields K

/-- `SupersonicPlate::CheckConvergence` (lines 200-210) on finite values in
exact arithmetic: the returned pair is the boolean result and the value left
in the in/out argument `diff`.  The call `abs` on a `double` is the absolute
value.  `CheckConvergenceDouble` is the same code on doubles with infinities
and NaN, and agrees with this one on finite values. -/
def CheckConvergence (imax_ jmax_ : Int) (rho_ rho_old_ : Array2D K) (diff : K) :
    Bool × K :=
  let diff := forRange 0 imax_ (fun i diff =>
    forRange 0 jmax_ (fun j diff =>
      let tmp := |rho_.Get i j - rho_old_.Get i j|
      max diff tmp) diff) diff
  (decide (diff < 1.0e-8), diff)

/-- `SupersonicPlate::InitializeFlowFliedVariables` (lines 116-145); an
assignment through the reference `a.Get(i, j)` is a `Set`. -/
def InitializeFlowFliedVariables (p : SupersonicPlate K S) : SupersonicPlate K S :=
  let fp := p.flow_parameters_
  let p := forRange 0 p.imax_ (fun i p =>
    forRange 0 p.jmax_ (fun j p =>
      { p with
        fields :=
          { T := p.fields.T.Set i j fp.T_inf
            P := p.fields.P.Set i j fp.P_inf
            rho := p.fields.rho.Set i j (fp.P_inf / fp.T_inf / fp.R)
            u := p.fields.u.Set i j (fp.M_inf * fp.a_inf)
            v := p.fields.v.Set i j 0
            e := p.fields.e.Set i j (fp.cv * fp.T_inf) }
        M_ := p.M_.Set i j fp.M_inf }) p) p
  let p := forRange 1 p.imax_ (fun i p =>
    let T := p.fields.T.Set i 0 fp.T_wall
    { p with
      fields :=
        { T := T
          u := p.fields.u.Set i 0 0
          v := p.fields.v.Set i 0 0
          rho := p.fields.rho.Set i 0 (fp.P_inf / T.Get i 0 / fp.R)
          e := p.fields.e.Set i 0 (fp.cv * fp.T_wall)
          P := p.fields.P }
      M_ := p.M_.Set i 0 0 }) p
  { p with
    fields := { p.fields with u := p.fields.u.Set 0 0 0, v := p.fields.v.Set 0 0 0 }
    M_ := p.M_.Set 0 0 0 }

/-- Lines 120-126: body of the inner loop of `InitializeFlowFliedVariables`
at node `(i, j)`. -/
def initNodeBody (fp : FlowParameters K) (i j : Int) (p : SupersonicPlate K S) :
    SupersonicPlate K S :=
  { p with
    fields :=
      { T := p.fields.T.Set i j fp.T_inf
        P := p.fields.P.Set i j fp.P_inf
        rho := p.fields.rho.Set i j (fp.P_inf / fp.T_inf / fp.R)
        u := p.fields.u.Set i j (fp.M_inf * fp.a_inf)
        v := p.fields.v.Set i j 0
        e := p.fields.e.Set i j (fp.cv * fp.T_inf) }
    M_ := p.M_.Set i j fp.M_inf }

/-- Lines 132-137: body of the wall loop of `InitializeFlowFliedVariables`. -/
def initWallBody (fp : FlowParameters K) (i : Int) (p : SupersonicPlate K S) :
    SupersonicPlate K S :=
  let T := p.fields.T.Set i 0 fp.T_wall
  { p with
    fields :=
      { T := T
        u := p.fields.u.Set i 0 0
        v := p.fields.v.Set i 0 0
        rho := p.fields.rho.Set i 0 (fp.P_inf / T.Get i 0 / fp.R)
        e := p.fields.e.Set i 0 (fp.cv * fp.T_wall)
        P := p.fields.P }
    M_ := p.M_.Set i 0 0 }

/-- Lines 141-143: the leading-edge writes of `InitializeFlowFliedVariables`. -/
def initLeadingEdge (p : SupersonicPlate K S) : SupersonicPlate K S :=
  { p with
    fields := { p.fields with u := p.fields.u.Set 0 0 0, v := p.fields.v.Set 0 0 0 }
    M_ := p.M_.Set 0 0 0 }

/-- What `Run` prints: `"Iteration " << it` at the start of an iteration and
`diff` at the end of an iteration that did not converge. -/
inductive ConsoleEvent (K : Type) where
  | iteration (it : Int)
  | diff (d : K)

/-- Lines 88-101 of `Run`: the time step, the snapshot `rho_old_ = rho_`,
predictor, `BoundaryConditions`, corrector, `BoundaryConditions`, and
`CheckConvergence` on `diff = 0.0`.  Returns the object, the result of the
check and the final `diff`. -/
def RunIteration (env : Collaborators K S) (p : SupersonicPlate K S) :
    SupersonicPlate K S × Bool × K :=
  let delta_t := env.CalcTStep p.imax_ p.jmax_ p.deltax_ p.deltay_ p.flow_parameters_
    p.fields.u p.fields.v p.fields.rho p.fields.P p.fields.T 0.6
  let p := { p with rho_old_ := p.fields.rho }
  let r := env.UpdatePredictor p.solver delta_t p.deltax_ p.deltay_ p.imax_ p.jmax_
    p.flow_parameters_ p.fields
  let p := { p with solver := r.1, fields := r.2 }
  let p := { p with
    fields := BoundaryConditions p.imax_ p.jmax_ p.flow_parameters_ p.fields }
  let r := env.UpdateCorrector p.solver delta_t p.deltax_ p.deltay_ p.imax_ p.jmax_
    p.flow_parameters_ p.fields
  let p := { p with solver := r.1, fields := r.2 }
  let p := { p with
    fields := BoundaryConditions p.imax_ p.jmax_ p.flow_parameters_ p.fields }
  let diff : K := 0.0
  let c := CheckConvergence p.imax_ p.jmax_ p.fields.rho p.rho_old_ diff
  (p, c.1, c.2)

/-- State of `Run` when the `for` loop is left. -/
structure LoopExit (K S : Type) where
  plate : SupersonicPlate K S
  console : List (ConsoleEvent K)
  it : Int
  converged : Bool

/-- The loop `for (int it = 0; it < maxit; it++)` of `Run` (lines 83-107),
with the given number of iterations still allowed and the loop counter at
`it`; `break` leaves the loop with `converged = true`. -/
def RunLoop (env : Collaborators K S) (mod : Int) :
    Nat → Int → SupersonicPlate K S → List (ConsoleEvent K) → LoopExit K S
  | 0, it, p, out => { plate := p, console := out, it := it, converged := false }
  | n + 1, it, p, out =>
    let out := if it.tmod mod = 0 then out ++ [ConsoleEvent.iteration it] else out
    let r := RunIteration env p
    if r.2.1 then
      { plate := r.1, console := out, it := it, converged := true }
    else
      let out := if it.tmod mod = 0 then out ++ [ConsoleEvent.diff r.2.2] else out
      RunLoop env mod n (it + 1) r.1 out

/-- `SupersonicPlate::Run` (lines 76-114): the state at loop exit and the
five fields handed to `WriteInFile`, in order. -/
def Run (env : Collaborators K S) (p : SupersonicPlate K S) :
    LoopExit K S × List (String × Array2D K) :=
  let p := InitializeFlowFliedVariables p
  let mod : Int := 1
  let r := RunLoop env mod (p.maxit - 0).toNat 0 p []
  (r, [("Pressure", r.plate.fields.P), ("Density", r.plate.fields.rho),
       ("Temperature", r.plate.fields.T), ("VelocityX", r.plate.fields.u),
       ("VelocityY", r.plate.fields.v)])

end Driver

/-! ## The constructor -/

section Constructor

variable {K S : Type} [LinearOrderedField K]

/-- Line 10. -/
def IMAX : Int := 70

/-- Line 11. -/
def JMAX : Int := 70

/-- Lines 15-41 of the constructor `SupersonicPlate::SupersonicPlate`, with
the six local constants `M_inf`, `a_inf`, `plate_length`, `R`, `P_inf` and
`T_inf` as arguments.  `fp0` is the default-constructed `flow_parameters_`;
`sqrt` is the square root of the C library and `ViscositySutherlandLaw` is
declared in a header that is not among the sources: both are parameters. -/
def constructFlowParameters (sqrt : K → K)
    (ViscositySutherlandLaw : FlowParameters K → K → K) (fp0 : FlowParameters K)
    (M_inf a_inf plate_length R P_inf T_inf : K) : FlowParameters K :=
  let fp := { fp0 with mu := 1.7894e-5 }
  let fp := { fp with T_0 := 288.16 }
  let u_inf := a_inf * M_inf
  let rho_inf := P_inf / T_inf / R
  let mu_inf := ViscositySutherlandLaw fp T_inf
  let L := sqrt (mu_inf * plate_length / rho_inf / u_inf)
  let fp := { fp with M_inf := M_inf }
  let fp := { fp with plate_length := 0.00001 / L }
  let fp := { fp with a_inf := a_inf / u_inf }
  let fp := { fp with P_inf := P_inf / P_inf }
  let fp := { fp with T_inf := T_inf / T_inf }
  let fp := { fp with T_wall := fp.T_inf }
  let fp := { fp with gamma := 1.4 }
  let fp := { fp with R := 287 / u_inf / u_inf * T_inf }
  let fp := { fp with Pr := 0.71 }
  let fp := { fp with cv := 0.718 }
  let fp := { fp with cp := 1.01 }
  let fp := { fp with mu := fp.mu / (P_inf * (L / u_inf)) }
  { fp with T_0 := fp.T_0 / T_inf }

/-- The constructor `SupersonicPlate::SupersonicPlate` (lines 13-55).
`newArray imax jmax` stands for `Array2D<double>(imax, jmax)`, `solver0` for
the freshly built `maccormack_solver_(IMAX, JMAX)` and `outside_`, and
`rho_old0` for the default-constructed `rho_old_`. -/
def SupersonicPlate.construct (sqrt : K → K)
    (ViscositySutherlandLaw : FlowParameters K → K → K) (fp0 : FlowParameters K)
    (newArray : Int → Int → Array2D K) (solver0 : S) (rho_old0 : Array2D K) :
    SupersonicPlate K S :=
  let imax_ := IMAX
  let jmax_ := JMAX
  let flow_parameters_ := constructFlowParameters sqrt ViscositySutherlandLaw fp0
    4 340.28 0.00001 287 101325 288.16
  { imax_ := imax_
    jmax_ := jmax_
    maxit := 100000
    flow_parameters_ := flow_parameters_
    deltax_ := CalcXStep flow_parameters_ imax_
    deltay_ := CalcYStep sqrt flow_parameters_ jmax_
    fields :=
      { T := newArray imax_ jmax_
        u := newArray imax_ jmax_
        v := newArray imax_ jmax_
        P := newArray imax_ jmax_
        rho := newArray imax_ jmax_
        e := newArray imax_ jmax_ }
    M_ := newArray imax_ jmax_
    rho_old_ := rho_old0
    solver := solver0 }

end Constructor

/-! ## The convergence check on doubles with special values -/

section Doubles

variable {K : Type} [LinearOrderedField K]

/-- A C++ `double` with its special values: a finite value, of exact value
in `K`, one of the two infinities, or NaN.  Rounding and overflow of an
operation on finite values are left out; the special values behave as in
IEEE 754. -/
inductive Double (K : Type) where
  | fin (x : K)
  | posInf
  | negInf
  | nan

/-- The test `std::isnan`. -/
def Double.isNaN : Double K → Bool
  | Double.nan => true
  | _ => false

/-- `a - b` on doubles: NaN if an operand is NaN or for `inf - inf` of equal
sign. -/
def Double.sub : Double K → Double K → Double K
  | Double.fin x, Double.fin y => Double.fin (x - y)
  | Double.fin _, Double.posInf => Double.negInf
  | Double.fin _, Double.negInf => Double.posInf
  | Double.posInf, Double.fin _ => Double.posInf
  | Double.posInf, Double.negInf => Double.posInf
  | Double.negInf, Double.fin _ => Double.negInf
  | Double.negInf, Double.posInf => Double.negInf
  | _, _ => Double.nan

/-- `abs` on a double: the absolute value, `+inf` for an infinity, NaN for
NaN. -/
def Double.abs : Double K → Double K
  | Double.fin x => Double.fin |x|
  | Double.posInf => Double.posInf
  | Double.negInf => Double.posInf
  | Double.nan => Double.nan

/-- `a < b` on doubles: false whenever an operand is NaN. -/
def Double.lt : Double K → Double K → Bool
  | Double.fin x, Double.fin y => decide (x < y)
  | Double.fin _, Double.posInf => true
  | Double.negInf, Double.fin _ => true
  | Double.negInf, Double.posInf => true
  | _, _ => false

/-- `std::max(a, b)`, that is `(a < b) ? b : a`: it keeps `a` when `b` is
NaN. -/
def Double.max (a b : Double K) : Double K :=
  if Double.lt a b then b else a

/-- `SupersonicPlate::CheckConvergence` (lines 200-210) on doubles with
special values, the same code as `CheckConvergence`: the returned pair is the
boolean result and the value left in the in/out argument `diff`. -/
def CheckConvergenceDouble (imax_ jmax_ : Int) (rho_ rho_old_ : Array2D (Double K))
    (diff : Double K) : Bool × Double K :=
  let diff := forRange 0 imax_ (fun i diff =>
    forRange 0 jmax_ (fun j diff =>
      let tmp := Double.abs (Double.sub (rho_.Get i j) (rho_old_.Get i j))
      Double.max diff tmp) diff) diff
  (Double.lt diff (Double.fin 1.0e-8), diff)

end Doubles

/-! ## Sample inputs -/

/-- A flow-parameter set in the non-dimensional units of the constructor
(`M_inf = 4`, `P_inf = T_inf = T_wall = 1`). -/
def sampleParams (K : Type) [Field K] : FlowParameters K :=
  { mu := 1 / 1000, T_0 := 1, M_inf := 4, plate_length := 30, a_inf := 1 / 4,
    P_inf := 1, T_inf := 1, T_wall := 1, gamma := 7 / 5, R := 1 / 20, Pr := 71 / 100,
    cv := 718 / 1000, cp := 101 / 100 }

/-- Six non-constant fields. -/
def sampleFields : Fields ℚ :=
  { u := fun i j => (i : ℚ) + 2 * j
    v := fun i j => (i : ℚ) - j
    rho := fun i j => 1 + (i : ℚ) * j
    P := fun i j => 1 + (i : ℚ) * i + j
    T := fun _ j => 1 + (j : ℚ)
    e := fun i _ => (i : ℚ) }

/-- The uniform free-stream state of `sampleParams`. -/
def uniformFields : Fields ℚ :=
  { u := fun _ _ => 1
    v := fun _ _ => 0
    rho := fun _ _ => 20
    P := fun _ _ => 1
    T := fun _ _ => 1
    e := fun _ _ => 718 / 1000 }

/-- Collaborators that leave the grid as it is. -/
def idleCollaborators : Collaborators ℚ Unit :=
  { CalcTStep := fun _ _ _ _ _ _ _ _ _ _ _ => 0
    UpdatePredictor := fun sol _ _ _ _ _ _ f => (sol, f)
    UpdateCorrector := fun sol _ _ _ _ _ _ f => (sol, f) }

/-- A `4 x 3` solver object in the uniform free-stream state. -/
def samplePlate : SupersonicPlate ℚ Unit :=
  { imax_ := 4, jmax_ := 3, maxit := 100000, flow_parameters_ := sampleParams ℚ,
    deltax_ := 15 / 2, deltay_ := 1, fields := uniformFields, M_ := fun _ _ => 4,
    rho_old_ := fun _ _ => 0, solver := () }

/-- Fields that agree with `sampleFields` on row `j = 1` and are zero
elsewhere. -/
def sampleFieldsInterior : Fields ℚ :=
  { u := fun i j => if j = 1 then (i : ℚ) + 2 * j else 0
    v := fun i j => if j = 1 then (i : ℚ) - j else 0
    rho := fun i j => if j = 1 then 1 + (i : ℚ) * j else 0
    P := fun i j => if j = 1 then 1 + (i : ℚ) * i + j else 0
    T := fun _ j => if j = 1 then 1 + (j : ℚ) else 0
    e := fun i j => if j = 1 then (i : ℚ) else 0 }

/-- A node state with four stored values, not yet done. -/
def sampleNode : NodeState ℚ Unit Unit :=
  { vals := fun k => (k : ℚ) + 1, done := false, size_ := 4, boundary_ := (),
    boundaryType_ := () }

/-- A state of one row and two nodes. -/
def sampleState : State ℚ Unit Unit Unit :=
  { state_ := [[sampleNode, { sampleNode with size_ := 2 }]], mesh_ := () }

/-- A density field on a `2 x 2` grid that is NaN at node `(1, 1)` and `1`
elsewhere. -/
def nanDensity : Array2D (Double ℚ) :=
  fun i j => if i = 1 ∧ j = 1 then Double.nan else Double.fin 1

/-- The density field that is `1` everywhere. -/
def unitDensity : Array2D (Double ℚ) :=
  fun _ _ => Double.fin 1

/-- A density field that is infinite at node `(0, 0)` and `3 / 2` elsewhere. -/
def infDensity : Array2D (Double ℚ) :=
  fun i j => if i = 0 ∧ j = 0 then Double.posInf else Double.fin (3 / 2)

/-! ## Lemmas on loops and arrays -/

theorem Array2D.Get_apply {K : Type} (a : Array2D K) (i j : Int) : a.Get i j = a i j := rfl

theorem Array2D.Set_apply {K : Type} (a : Array2D K) (i j : Int) (x : K) (i' j' : Int) :
    a.Set i j x i' j' = if i' = i ∧ j' = j then x else a i' j' := rfl

section BoundaryLemmas

variable {K : Type} [Field K]

/-- Closed form of the inflow loop run from `lo` for `n` iterations. -/
theorem inflow_loop (params : FlowParameters K) (n : Nat) (lo : Int) (s : Fields K) :
    forLoop (inflowBody params) n lo s =
      { u := fun i j => if i = 0 ∧ lo ≤ j ∧ j < lo + n then params.a_inf * params.M_inf
                        else s.u i j
        v := fun i j => if i = 0 ∧ lo ≤ j ∧ j < lo + n then 0 else s.v i j
        P := fun i j => if i = 0 ∧ lo ≤ j ∧ j < lo + n then params.P_inf else s.P i j
        T := fun i j => if i = 0 ∧ lo ≤ j ∧ j < lo + n then params.T_inf else s.T i j
        rho := fun i j => if i = 0 ∧ lo ≤ j ∧ j < lo + n
                          then params.P_inf / params.R / params.T_inf else s.rho i j
        e := fun i j => if i = 0 ∧ lo ≤ j ∧ j < lo + n then params.T_inf * params.cv
                        else s.e i j } := by
  induction n generalizing lo s with
  | zero =>
    simp only [forLoop]
    ext : 1 <;> funext i j <;> simp only [Nat.cast_zero, add_zero] <;>
      split_ifs <;> first | rfl | omega
  | succ n ih =>
    simp only [forLoop, ih, inflowBody]
    ext : 1 <;> funext i j <;> simp only [Array2D.Set_apply, Nat.cast_add, Nat.cast_one] <;>
      split_ifs <;> first | rfl | omega

/-- Closed form of the far-field loop run from `lo` for `n` iterations. -/
theorem farField_loop (jmax : Int) (params : FlowParameters K) (n : Nat) (lo : Int)
    (s : Fields K) :
    forLoop (farFieldBody jmax params) n lo s =
      { u := fun i j => if j = jmax - 1 ∧ lo ≤ i ∧ i < lo + n
                        then params.a_inf * params.M_inf else s.u i j
        v := fun i j => if j = jmax - 1 ∧ lo ≤ i ∧ i < lo + n then 0 else s.v i j
        P := fun i j => if j = jmax - 1 ∧ lo ≤ i ∧ i < lo + n then params.P_inf
                        else s.P i j
        T := fun i j => if j = jmax - 1 ∧ lo ≤ i ∧ i < lo + n then params.T_inf
                        else s.T i j
        rho := fun i j => if j = jmax - 1 ∧ lo ≤ i ∧ i < lo + n
                          then params.P_inf / params.R / params.T_inf else s.rho i j
        e := fun i j => if j = jmax - 1 ∧ lo ≤ i ∧ i < lo + n
                        then params.T_inf * params.cv else s.e i j } := by
  induction n generalizing lo s with
  | zero =>
    simp only [forLoop]
    ext : 1 <;> funext i j <;> simp only [Nat.cast_zero, add_zero] <;>
      split_ifs <;> first | rfl | omega
  | succ n ih =>
    simp only [forLoop, ih, farFieldBody]
    ext : 1 <;> funext i j <;> simp only [Array2D.Set_apply, Nat.cast_add, Nat.cast_one] <;>
      split_ifs <;> first | rfl | omega

/-- Closed form of the wall loop run from `lo` for `n` iterations: the
pressure is extrapolated from rows 1 and 2 of the state the loop starts
from, which the loop never writes. -/
theorem wall_loop (params : FlowParameters K) (n : Nat) (lo : Int) (s : Fields K) :
    forLoop (wallBody params) n lo s =
      { u := fun i j => if j = 0 ∧ lo ≤ i ∧ i < lo + n then 0 else s.u i j
        v := fun i j => if j = 0 ∧ lo ≤ i ∧ i < lo + n then 0 else s.v i j
        P := fun i j => if j = 0 ∧ lo ≤ i ∧ i < lo + n then 2 * s.P i 1 - s.P i 2
                        else s.P i j
        T := fun i j => if j = 0 ∧ lo ≤ i ∧ i < lo + n then params.T_wall else s.T i j
        rho := fun i j => if j = 0 ∧ lo ≤ i ∧ i < lo + n
                          then (2 * s.P i 1 - s.P i 2) / params.R / params.T_wall
                          else s.rho i j
        e := fun i j => if j = 0 ∧ lo ≤ i ∧ i < lo + n then params.T_wall * params.cv
                        else s.e i j } := by
  induction n generalizing lo s with
  | zero =>
    simp only [forLoop]
    ext : 1 <;> funext i j <;> simp only [Nat.cast_zero, add_zero] <;>
      split_ifs <;> first | rfl | omega
  | succ n ih =>
    simp only [forLoop, ih, wallBody]
    ext : 1 <;> funext i j <;>
      simp only [Array2D.Set_apply, Array2D.Get_apply, Nat.cast_add, Nat.cast_one] <;>
      split_ifs <;> first | rfl | omega | (simp_all)

/-- Closed form of the outflow loop run from `lo` for `n` iterations: column
`imax - 1` is extrapolated from columns `imax - 2` and `imax - 3` of the state
the loop starts from, which the loop never writes. -/
theorem outflow_loop (imax : Int) (n : Nat) (lo : Int) (s : Fields K) :
    forLoop (outflowBody imax) n lo s =
      { u := fun i j => if i = imax - 1 ∧ lo ≤ j ∧ j < lo + n
                        then 2 * s.u (imax - 2) j - s.u (imax - 3) j else s.u i j
        v := fun i j => if i = imax - 1 ∧ lo ≤ j ∧ j < lo + n
                        then 2 * s.v (imax - 2) j - s.v (imax - 3) j else s.v i j
        P := fun i j => if i = imax - 1 ∧ lo ≤ j ∧ j < lo + n
                        then 2 * s.P (imax - 2) j - s.P (imax - 3) j else s.P i j
        T := fun i j => if i = imax - 1 ∧ lo ≤ j ∧ j < lo + n
                        then 2 * s.T (imax - 2) j - s.T (imax - 3) j else s.T i j
        rho := fun i j => if i = imax - 1 ∧ lo ≤ j ∧ j < lo + n
                          then 2 * s.rho (imax - 2) j - s.rho (imax - 3) j else s.rho i j
        e := fun i j => if i = imax - 1 ∧ lo ≤ j ∧ j < lo + n
                        then 2 * s.e (imax - 2) j - s.e (imax - 3) j else s.e i j } := by
  induction n generalizing lo s with
  | zero =>
    simp only [forLoop]
    ext : 1 <;> funext i j <;> simp only [Nat.cast_zero, add_zero] <;>
      split_ifs <;> first | rfl | omega
  | succ n ih =>
    simp only [forLoop, ih, outflowBody]
    ext : 1 <;> funext i j <;>
      simp only [Array2D.Set_apply, Array2D.Get_apply, Nat.cast_add, Nat.cast_one] <;>
      split_ifs <;> first | rfl | omega | (simp_all)

/-- Closed form of the inflow loop `for (int j = 1; j < jmax; j++)`. -/
theorem inflow_range (jmax : Int) (params : FlowParameters K) (s : Fields K) :
    forRange 1 jmax (inflowBody params) s =
      { u := fun i j => if i = 0 ∧ 1 ≤ j ∧ j < jmax then params.a_inf * params.M_inf
                        else s.u i j
        v := fun i j => if i = 0 ∧ 1 ≤ j ∧ j < jmax then 0 else s.v i j
        P := fun i j => if i = 0 ∧ 1 ≤ j ∧ j < jmax then params.P_inf else s.P i j
        T := fun i j => if i = 0 ∧ 1 ≤ j ∧ j < jmax then params.T_inf else s.T i j
        rho := fun i j => if i = 0 ∧ 1 ≤ j ∧ j < jmax
                          then params.P_inf / params.R / params.T_inf else s.rho i j
        e := fun i j => if i = 0 ∧ 1 ≤ j ∧ j < jmax then params.T_inf * params.cv
                        else s.e i j } := by
  rw [forRange, inflow_loop]
  ext : 1 <;> funext i j <;> simp only <;> split_ifs <;> first | rfl | omega

/-- Closed form of the far-field loop `for (int i = 0; i < imax; i++)`. -/
theorem farField_range (imax jmax : Int) (params : FlowParameters K) (s : Fields K) :
    forRange 0 imax (farFieldBody jmax params) s =
      { u := fun i j => if j = jmax - 1 ∧ 0 ≤ i ∧ i < imax
                        then params.a_inf * params.M_inf else s.u i j
        v := fun i j => if j = jmax - 1 ∧ 0 ≤ i ∧ i < imax then 0 else s.v i j
        P := fun i j => if j = jmax - 1 ∧ 0 ≤ i ∧ i < imax then params.P_inf
                        else s.P i j
        T := fun i j => if j = jmax - 1 ∧ 0 ≤ i ∧ i < imax then params.T_inf
                        else s.T i j
        rho := fun i j => if j = jmax - 1 ∧ 0 ≤ i ∧ i < imax
                          then params.P_inf / params.R / params.T_inf else s.rho i j
        e := fun i j => if j = jmax - 1 ∧ 0 ≤ i ∧ i < imax
                        then params.T_inf * params.cv else s.e i j } := by
  rw [forRange, farField_loop]
  ext : 1 <;> funext i j <;> simp only <;> split_ifs <;> first | rfl | omega

/-- Closed form of the wall loop `for (int i = 1; i < imax; i++)`. -/
theorem wall_range (imax : Int) (params : FlowParameters K) (s : Fields K) :
    forRange 1 imax (wallBody params) s =
      { u := fun i j => if j = 0 ∧ 1 ≤ i ∧ i < imax then 0 else s.u i j
        v := fun i j => if j = 0 ∧ 1 ≤ i ∧ i < imax then 0 else s.v i j
        P := fun i j => if j = 0 ∧ 1 ≤ i ∧ i < imax then 2 * s.P i 1 - s.P i 2
                        else s.P i j
        T := fun i j => if j = 0 ∧ 1 ≤ i ∧ i < imax then params.T_wall else s.T i j
        rho := fun i j => if j = 0 ∧ 1 ≤ i ∧ i < imax
                          then (2 * s.P i 1 - s.P i 2) / params.R / params.T_wall
                          else s.rho i j
        e := fun i j => if j = 0 ∧ 1 ≤ i ∧ i < imax then params.T_wall * params.cv
                        else s.e i j } := by
  rw [forRange, wall_loop]
  ext : 1 <;> funext i j <;> simp only <;> split_ifs <;> first | rfl | omega

/-- Closed form of the outflow loop `for (int j = 0; j < jmax; j++)`. -/
theorem outflow_range (imax jmax : Int) (s : Fields K) :
    forRange 0 jmax (outflowBody imax) s =
      { u := fun i j => if i = imax - 1 ∧ 0 ≤ j ∧ j < jmax
                        then 2 * s.u (imax - 2) j - s.u (imax - 3) j else s.u i j
        v := fun i j => if i = imax - 1 ∧ 0 ≤ j ∧ j < jmax
                        then 2 * s.v (imax - 2) j - s.v (imax - 3) j else s.v i j
        P := fun i j => if i = imax - 1 ∧ 0 ≤ j ∧ j < jmax
                        then 2 * s.P (imax - 2) j - s.P (imax - 3) j else s.P i j
        T := fun i j => if i = imax - 1 ∧ 0 ≤ j ∧ j < jmax
                        then 2 * s.T (imax - 2) j - s.T (imax - 3) j else s.T i j
        rho := fun i j => if i = imax - 1 ∧ 0 ≤ j ∧ j < jmax
                          then 2 * s.rho (imax - 2) j - s.rho (imax - 3) j else s.rho i j
        e := fun i j => if i = imax - 1 ∧ 0 ≤ j ∧ j < jmax
                        then 2 * s.e (imax - 2) j - s.e (imax - 3) j else s.e i j } := by
  rw [forRange, outflow_loop]
  ext : 1 <;> funext i j <;> simp only <;> split_ifs <;> first | rfl | omega

/-! ### Pass by pass: what each pass writes and what it leaves -/

/-- The outflow pass changes nothing outside column `imax - 1`, rows
`0 .. jmax - 1`. -/
theorem BoundaryConditions_frame (imax jmax : Int) (params : FlowParameters K)
    (s : Fields K) (i j : Int) (h : i ≠ imax - 1 ∨ j < 0 ∨ jmax ≤ j) :
    (BoundaryConditions imax jmax params s).u i j = (afterWall imax jmax params s).u i j ∧
    (BoundaryConditions imax jmax params s).v i j = (afterWall imax jmax params s).v i j ∧
    (BoundaryConditions imax jmax params s).rho i j = (afterWall imax jmax params s).rho i j ∧
    (BoundaryConditions imax jmax params s).P i j = (afterWall imax jmax params s).P i j ∧
    (BoundaryConditions imax jmax params s).T i j = (afterWall imax jmax params s).T i j ∧
    (BoundaryConditions imax jmax params s).e i j = (afterWall imax jmax params s).e i j := by
  simp only [BoundaryConditions, outflow_range]
  refine ⟨?_, ?_, ?_, ?_, ?_, ?_⟩ <;> split_ifs <;> first | rfl | omega

/-- The outflow pass extrapolates column `imax - 1` from columns `imax - 2`
and `imax - 3` of the state left by the wall pass. -/
theorem BoundaryConditions_outflow (imax jmax : Int) (params : FlowParameters K)
    (s : Fields K) (j : Int) (hj : 0 ≤ j ∧ j < jmax) :
    (BoundaryConditions imax jmax params s).u (imax - 1) j =
      2 * (afterWall imax jmax params s).u (imax - 2) j - (afterWall imax jmax params s).u (imax - 3) j ∧
    (BoundaryConditions imax jmax params s).v (imax - 1) j =
      2 * (afterWall imax jmax params s).v (imax - 2) j - (afterWall imax jmax params s).v (imax - 3) j ∧
    (BoundaryConditions imax jmax params s).rho (imax - 1) j =
      2 * (afterWall imax jmax params s).rho (imax - 2) j - (afterWall imax jmax params s).rho (imax - 3) j ∧
    (BoundaryConditions imax jmax params s).P (imax - 1) j =
      2 * (afterWall imax jmax params s).P (imax - 2) j - (afterWall imax jmax params s).P (imax - 3) j ∧
    (BoundaryConditions imax jmax params s).T (imax - 1) j =
      2 * (afterWall imax jmax params s).T (imax - 2) j - (afterWall imax jmax params s).T (imax - 3) j ∧
    (BoundaryConditions imax jmax params s).e (imax - 1) j =
      2 * (afterWall imax jmax params s).e (imax - 2) j - (afterWall imax jmax params s).e (imax - 3) j := by
  simp only [BoundaryConditions, outflow_range]
  refine ⟨?_, ?_, ?_, ?_, ?_, ?_⟩ <;> split_ifs <;> first | rfl | omega | simp_all

/-- The wall pass changes nothing outside row `0`, columns `1 .. imax - 1`. -/
theorem afterWall_frame (imax jmax : Int) (params : FlowParameters K)
    (s : Fields K) (i j : Int) (h : j ≠ 0 ∨ i < 1 ∨ imax ≤ i) :
    (afterWall imax jmax params s).u i j = (afterFarField imax jmax params s).u i j ∧
    (afterWall imax jmax params s).v i j = (afterFarField imax jmax params s).v i j ∧
    (afterWall imax jmax params s).rho i j = (afterFarField imax jmax params s).rho i j ∧
    (afterWall imax jmax params s).P i j = (afterFarField imax jmax params s).P i j ∧
    (afterWall imax jmax params s).T i j = (afterFarField imax jmax params s).T i j ∧
    (afterWall imax jmax params s).e i j = (afterFarField imax jmax params s).e i j := by
  simp only [afterWall, wall_range]
  refine ⟨?_, ?_, ?_, ?_, ?_, ?_⟩ <;> split_ifs <;> first | rfl | omega

/-- The wall pass at a wall node `(i, 0)`, `1 ≤ i < imax`. -/
theorem afterWall_wall (imax jmax : Int) (params : FlowParameters K)
    (s : Fields K) (i : Int) (hi : 1 ≤ i ∧ i < imax) :
    (afterWall imax jmax params s).u i 0 = 0 ∧
    (afterWall imax jmax params s).v i 0 = 0 ∧
    (afterWall imax jmax params s).rho i 0 =
      (2 * (afterFarField imax jmax params s).P i 1 - (afterFarField imax jmax params s).P i 2) / params.R / params.T_wall ∧
    (afterWall imax jmax params s).P i 0 =
      2 * (afterFarField imax jmax params s).P i 1 - (afterFarField imax jmax params s).P i 2 ∧
    (afterWall imax jmax params s).T i 0 = params.T_wall ∧
    (afterWall imax jmax params s).e i 0 = params.T_wall * params.cv := by
  simp only [afterWall, wall_range]
  refine ⟨?_, ?_, ?_, ?_, ?_, ?_⟩ <;> split_ifs <;> first | rfl | omega | simp_all

/-- The far-field pass changes nothing outside row `jmax - 1`, columns
`0 .. imax - 1`. -/
theorem afterFarField_frame (imax jmax : Int) (params : FlowParameters K)
    (s : Fields K) (i j : Int) (h : j ≠ jmax - 1 ∨ i < 0 ∨ imax ≤ i) :
    (afterFarField imax jmax params s).u i j = (afterInflow jmax params s).u i j ∧
    (afterFarField imax jmax params s).v i j = (afterInflow jmax params s).v i j ∧
    (afterFarField imax jmax params s).rho i j = (afterInflow jmax params s).rho i j ∧
    (afterFarField imax jmax params s).P i j = (afterInflow jmax params s).P i j ∧
    (afterFarField imax jmax params s).T i j = (afterInflow jmax params s).T i j ∧
    (afterFarField imax jmax params s).e i j = (afterInflow jmax params s).e i j := by
  simp only [afterFarField, farField_range]
  refine ⟨?_, ?_, ?_, ?_, ?_, ?_⟩ <;> split_ifs <;> first | rfl | omega

/-- The far-field pass at a far-field node `(i, jmax - 1)`, `0 ≤ i < imax`. -/
theorem afterFarField_far (imax jmax : Int) (params : FlowParameters K)
    (s : Fields K) (i : Int) (hi : 0 ≤ i ∧ i < imax) :
    (afterFarField imax jmax params s).u i (jmax - 1) = params.a_inf * params.M_inf ∧
    (afterFarField imax jmax params s).v i (jmax - 1) = 0 ∧
    (afterFarField imax jmax params s).rho i (jmax - 1) = params.P_inf / params.R / params.T_inf ∧
    (afterFarField imax jmax params s).P i (jmax - 1) = params.P_inf ∧
    (afterFarField imax jmax params s).T i (jmax - 1) = params.T_inf ∧
    (afterFarField imax jmax params s).e i (jmax - 1) = params.T_inf * params.cv := by
  simp only [afterFarField, farField_range]
  refine ⟨?_, ?_, ?_, ?_, ?_, ?_⟩ <;> split_ifs <;> first | rfl | omega | simp_all

/-- The leading-edge and inflow writes change nothing outside column `0`,
rows `0 .. jmax - 1`. -/
theorem afterInflow_frame (jmax : Int) (params : FlowParameters K)
    (s : Fields K) (i j : Int) (h : i ≠ 0 ∨ j < 0 ∨ (1 ≤ j ∧ jmax ≤ j)) :
    (afterInflow jmax params s).u i j = (s).u i j ∧
    (afterInflow jmax params s).v i j = (s).v i j ∧
    (afterInflow jmax params s).rho i j = (s).rho i j ∧
    (afterInflow jmax params s).P i j = (s).P i j ∧
    (afterInflow jmax params s).T i j = (s).T i j ∧
    (afterInflow jmax params s).e i j = (s).e i j := by
  simp only [afterInflow, inflow_range, leadingEdge, Array2D.Set_apply]
  refine ⟨?_, ?_, ?_, ?_, ?_, ?_⟩ <;> split_ifs <;> first | rfl | omega

/-- The inflow loop at an inflow node `(0, j)`, `1 ≤ j < jmax`. -/
theorem afterInflow_inflow (jmax : Int) (params : FlowParameters K)
    (s : Fields K) (j : Int) (hj : 1 ≤ j ∧ j < jmax) :
    (afterInflow jmax params s).u 0 j = params.a_inf * params.M_inf ∧
    (afterInflow jmax params s).v 0 j = 0 ∧
    (afterInflow jmax params s).rho 0 j = params.P_inf / params.R / params.T_inf ∧
    (afterInflow jmax params s).P 0 j = params.P_inf ∧
    (afterInflow jmax params s).T 0 j = params.T_inf ∧
    (afterInflow jmax params s).e 0 j = params.T_inf * params.cv := by
  simp only [afterInflow, inflow_range]
  refine ⟨?_, ?_, ?_, ?_, ?_, ?_⟩ <;> split_ifs <;> first | rfl | omega | simp_all

/-- The leading-edge node `(0, 0)` after the inflow loop. -/
theorem afterInflow_leadingEdge (jmax : Int) (params : FlowParameters K)
    (s : Fields K) :
    (afterInflow jmax params s).u 0 0 = 0 ∧
    (afterInflow jmax params s).v 0 0 = 0 ∧
    (afterInflow jmax params s).rho 0 0 = params.P_inf / params.R / params.T_inf ∧
    (afterInflow jmax params s).P 0 0 = params.P_inf ∧
    (afterInflow jmax params s).T 0 0 = params.T_inf ∧
    (afterInflow jmax params s).e 0 0 = params.T_inf * params.cv := by
  simp only [afterInflow, inflow_range, leadingEdge, Array2D.Set_apply]
  refine ⟨?_, ?_, ?_, ?_, ?_, ?_⟩ <;> split_ifs <;> first | rfl | omega | simp_all

/-- The leading-edge node `(0, 0)` after the wall pass (`jmax ≠ 1`, so that
the far-field row is not row `0`). -/
theorem afterWall_leadingEdge (imax jmax : Int) (params : FlowParameters K)
    (s : Fields K) (hjmax : jmax ≠ 1) :
    (afterWall imax jmax params s).u 0 0 = 0 ∧
    (afterWall imax jmax params s).v 0 0 = 0 ∧
    (afterWall imax jmax params s).rho 0 0 = params.P_inf / params.R / params.T_inf ∧
    (afterWall imax jmax params s).P 0 0 = params.P_inf ∧
    (afterWall imax jmax params s).T 0 0 = params.T_inf ∧
    (afterWall imax jmax params s).e 0 0 = params.T_inf * params.cv := by
  obtain ⟨a1, a2, a3, a4, a5, a6⟩ :=
    afterWall_frame imax jmax params s 0 0 (Or.inr (Or.inl (by omega)))
  obtain ⟨b1, b2, b3, b4, b5, b6⟩ :=
    afterFarField_frame imax jmax params s 0 0 (Or.inl (by omega))
  obtain ⟨c1, c2, c3, c4, c5, c6⟩ := afterInflow_leadingEdge jmax params s
  exact ⟨a1.trans (b1.trans c1), a2.trans (b2.trans c2), a3.trans (b3.trans c3),
    a4.trans (b4.trans c4), a5.trans (b5.trans c5), a6.trans (b6.trans c6)⟩

/-- An inflow node `(0, j)`, `1 ≤ j < jmax`, after the wall pass: the
free-stream state, whether last written by the inflow or the far-field loop. -/
theorem afterWall_inflow (imax jmax : Int) (params : FlowParameters K)
    (s : Fields K) (j : Int) (hj : 1 ≤ j ∧ j < jmax) :
    (afterWall imax jmax params s).u 0 j = params.a_inf * params.M_inf ∧
    (afterWall imax jmax params s).v 0 j = 0 ∧
    (afterWall imax jmax params s).rho 0 j = params.P_inf / params.R / params.T_inf ∧
    (afterWall imax jmax params s).P 0 j = params.P_inf ∧
    (afterWall imax jmax params s).T 0 j = params.T_inf ∧
    (afterWall imax jmax params s).e 0 j = params.T_inf * params.cv := by
  obtain ⟨a1, a2, a3, a4, a5, a6⟩ :=
    afterWall_frame imax jmax params s 0 j (Or.inl (by omega))
  obtain ⟨c1, c2, c3, c4, c5, c6⟩ := afterInflow_inflow jmax params s j hj
  by_cases hfar : j = jmax - 1 ∧ 0 < imax
  · obtain ⟨hjm, him⟩ := hfar
    subst hjm
    obtain ⟨b1, b2, b3, b4, b5, b6⟩ :=
      afterFarField_far imax jmax params s 0 ⟨le_refl 0, him⟩
    exact ⟨a1.trans b1, a2.trans b2, a3.trans b3, a4.trans b4, a5.trans b5, a6.trans b6⟩
  · obtain ⟨b1, b2, b3, b4, b5, b6⟩ :=
      afterFarField_frame imax jmax params s 0 j (by omega)
    exact ⟨a1.trans (b1.trans c1), a2.trans (b2.trans c2), a3.trans (b3.trans c3),
      a4.trans (b4.trans c4), a5.trans (b5.trans c5), a6.trans (b6.trans c6)⟩

/-- A far-field node `(i, jmax - 1)`, `0 ≤ i < imax`, after the wall pass
(`jmax ≠ 1`, so that the far-field row is not row `0`). -/
theorem afterWall_far (imax jmax : Int) (params : FlowParameters K)
    (s : Fields K) (i : Int) (hi : 0 ≤ i ∧ i < imax) (hjmax : jmax ≠ 1) :
    (afterWall imax jmax params s).u i (jmax - 1) = params.a_inf * params.M_inf ∧
    (afterWall imax jmax params s).v i (jmax - 1) = 0 ∧
    (afterWall imax jmax params s).rho i (jmax - 1) = params.P_inf / params.R / params.T_inf ∧
    (afterWall imax jmax params s).P i (jmax - 1) = params.P_inf ∧
    (afterWall imax jmax params s).T i (jmax - 1) = params.T_inf ∧
    (afterWall imax jmax params s).e i (jmax - 1) = params.T_inf * params.cv := by
  obtain ⟨a1, a2, a3, a4, a5, a6⟩ :=
    afterWall_frame imax jmax params s i (jmax - 1) (Or.inl (by omega))
  obtain ⟨b1, b2, b3, b4, b5, b6⟩ := afterFarField_far imax jmax params s i hi
  exact ⟨a1.trans b1, a2.trans b2, a3.trans b3, a4.trans b4, a5.trans b5, a6.trans b6⟩

/-- The wall pressure relation holds after the wall pass at every column
`0 ≤ i < imax` (at column `0` all three nodes hold `P_inf`). -/
theorem afterWall_pressure (imax jmax : Int) (params : FlowParameters K)
    (s : Fields K) (hjmax : 3 ≤ jmax) (i : Int) (hi : 0 ≤ i ∧ i < imax) :
    (afterWall imax jmax params s).P i 0 =
      2 * (afterWall imax jmax params s).P i 1 - (afterWall imax jmax params s).P i 2 := by
  by_cases h0 : i = 0
  · subst h0
    rw [(afterWall_leadingEdge imax jmax params s (by omega)).2.2.2.1,
      (afterWall_inflow imax jmax params s 1 (by omega)).2.2.2.1,
      (afterWall_inflow imax jmax params s 2 (by omega)).2.2.2.1]
    ring
  · rw [(afterWall_wall imax jmax params s i (by omega)).2.2.2.1,
      (afterWall_frame imax jmax params s i 1 (Or.inl (by omega))).2.2.2.1,
      (afterWall_frame imax jmax params s i 2 (Or.inl (by omega))).2.2.2.1]

end BoundaryLemmas

/-! ## Lemmas on the convergence check and the driver loop -/

section DriverLemmas

variable {K S : Type} [LinearOrderedField K]

/-- A loop whose body only ever raises an accumulator to one of the
candidate values `A i` of its index computes an upper bound of all
candidates, which is the initial value or one of the candidates. -/
theorem forLoop_max_spec (A : Int → K → Prop) (body : Int → K → K)
    (hbody : ∀ i d, d ≤ body i d ∧ (∀ x, A i x → x ≤ body i d) ∧
      (body i d = d ∨ A i (body i d)))
    (n : Nat) (lo : Int) (d : K) :
    d ≤ forLoop body n lo d ∧
    (∀ i x, lo ≤ i → i < lo + n → A i x → x ≤ forLoop body n lo d) ∧
    (forLoop body n lo d = d ∨ ∃ i, lo ≤ i ∧ i < lo + n ∧ A i (forLoop body n lo d)) := by
  induction n generalizing lo d with
  | zero =>
    refine ⟨le_refl d, fun i x h1 h2 _ => ?_, Or.inl rfl⟩
    simp only [Nat.cast_zero, add_zero] at h2
    omega
  | succ n ih =>
    obtain ⟨b1, b2, b3⟩ := hbody lo d
    obtain ⟨r1, r2, r3⟩ := ih (lo + 1) (body lo d)
    simp only [forLoop, Nat.cast_add, Nat.cast_one]
    refine ⟨le_trans b1 r1, fun i x h1 h2 hx => ?_, ?_⟩
    · by_cases hlo : i = lo
      · subst hlo
        exact le_trans (b2 x hx) r1
      · exact r2 i x (by omega) (by omega) hx
    · rcases r3 with r3 | ⟨i, h1, h2, hA⟩
      · rcases b3 with b3 | b3
        · exact Or.inl (r3.trans b3)
        · refine Or.inr ⟨lo, le_refl lo, by omega, ?_⟩
          rw [r3]
          exact b3
      · exact Or.inr ⟨i, by omega, by omega, hA⟩

/-- The value `CheckConvergence` leaves in `diff`, for any incoming `diff`:
at least the incoming value, at least every node's absolute density change,
and equal to the incoming value or to the change at some node. -/
theorem CheckConvergence_diff_spec (imax_ jmax_ : Int) (rho_ rho_old_ : Array2D K)
    (d : K) :
    d ≤ (CheckConvergence imax_ jmax_ rho_ rho_old_ d).2 ∧
    (∀ i j : Int, 0 ≤ i → i < imax_ → 0 ≤ j → j < jmax_ →
      |rho_.Get i j - rho_old_.Get i j| ≤ (CheckConvergence imax_ jmax_ rho_ rho_old_ d).2) ∧
    ((CheckConvergence imax_ jmax_ rho_ rho_old_ d).2 = d ∨
      ∃ i j : Int, 0 ≤ i ∧ i < imax_ ∧ 0 ≤ j ∧ j < jmax_ ∧
        (CheckConvergence imax_ jmax_ rho_ rho_old_ d).2 =
          |rho_.Get i j - rho_old_.Get i j|) := by
  have inner : ∀ (i : Int) (d : K),
      d ≤ forRange 0 jmax_ (fun j diff => max diff |rho_.Get i j - rho_old_.Get i j|) d ∧
      (∀ x, (∃ j : Int, 0 ≤ j ∧ j < jmax_ ∧ x = |rho_.Get i j - rho_old_.Get i j|) →
        x ≤ forRange 0 jmax_
          (fun j diff => max diff |rho_.Get i j - rho_old_.Get i j|) d) ∧
      (forRange 0 jmax_ (fun j diff => max diff |rho_.Get i j - rho_old_.Get i j|) d = d ∨
        ∃ j : Int, 0 ≤ j ∧ j < jmax_ ∧
          forRange 0 jmax_ (fun j diff => max diff |rho_.Get i j - rho_old_.Get i j|) d =
            |rho_.Get i j - rho_old_.Get i j|) := by
    intro i d
    obtain ⟨h1, h2, h3⟩ := forLoop_max_spec
      (fun j x => x = |rho_.Get i j - rho_old_.Get i j|)
      (fun j diff => max diff |rho_.Get i j - rho_old_.Get i j|)
      (fun j d => ⟨le_max_left _ _, fun x hx => hx ▸ le_max_right _ _, max_choice _ _⟩)
      (jmax_ - 0).toNat 0 d
    refine ⟨h1, ?_, ?_⟩
    · rintro x ⟨j, hj0, hj1, hx⟩
      exact h2 j x hj0 (by omega) hx
    · rcases h3 with h3 | ⟨j, hj0, hj1, hx⟩
      · exact Or.inl h3
      · exact Or.inr ⟨j, hj0, by omega, hx⟩
  obtain ⟨h1, h2, h3⟩ := forLoop_max_spec
    (fun i x => ∃ j : Int, 0 ≤ j ∧ j < jmax_ ∧ x = |rho_.Get i j - rho_old_.Get i j|)
    (fun i diff =>
      forRange 0 jmax_ (fun j diff => max diff |rho_.Get i j - rho_old_.Get i j|) diff)
    inner (imax_ - 0).toNat 0 d
  refine ⟨h1, ?_, ?_⟩
  · intro i j hi0 hi1 hj0 hj1
    exact h2 i _ hi0 (by omega) ⟨j, hj0, hj1, rfl⟩
  · rcases h3 with h3 | ⟨i, hi0, hi1, j, hj0, hj1, hx⟩
    · exact Or.inl h3
    · exact Or.inr ⟨i, j, hi0, by omega, hj0, hj1, hx⟩

/-- The boolean returned by `CheckConvergence` tests the final `diff`. -/
theorem CheckConvergence_result (imax_ jmax_ : Int) (rho_ rho_old_ : Array2D K) (d : K) :
    ((CheckConvergence imax_ jmax_ rho_ rho_old_ d).1 = true ↔
      (CheckConvergence imax_ jmax_ rho_ rho_old_ d).2 < 1.0e-8) := by
  simp only [CheckConvergence, decide_eq_true_eq]

/-- A loop whose body preserves a projection of the state preserves it. -/
theorem forLoop_preserves {σ α : Type} (f : σ → α) (body : Int → σ → σ)
    (h : ∀ i s, f (body i s) = f s) (n : Nat) (lo : Int) (s : σ) :
    f (forLoop body n lo s) = f s := by
  induction n generalizing lo s with
  | zero => rfl
  | succ n ih => rw [forLoop, ih, h]

/-- `InitializeFlowFliedVariables` changes neither the grid size nor the
flow parameters nor the iteration cap. -/
theorem InitializeFlowFliedVariables_config (p : SupersonicPlate K S) :
    (InitializeFlowFliedVariables p).imax_ = p.imax_ ∧
    (InitializeFlowFliedVariables p).jmax_ = p.jmax_ ∧
    (InitializeFlowFliedVariables p).flow_parameters_ = p.flow_parameters_ ∧
    (InitializeFlowFliedVariables p).maxit = p.maxit := by
  have key : ∀ f : SupersonicPlate K S → Int × Int × FlowParameters K × Int,
      (∀ (q : SupersonicPlate K S) (g : Fields K) (m : Array2D K),
        f { q with fields := g, M_ := m } = f q) →
      f (InitializeFlowFliedVariables p) = f p := by
    intro f hf
    simp only [InitializeFlowFliedVariables, forRange]
    rw [hf, forLoop_preserves f _ (fun i s => hf s _ _),
      forLoop_preserves f _ (fun i s => forLoop_preserves f _ (fun j s => hf s _ _) _ _ _)]
  have h := key (fun q => (q.imax_, q.jmax_, q.flow_parameters_, q.maxit))
    (fun _ _ _ => rfl)
  simp only [Prod.mk.injEq] at h
  exact h

/-- One iteration changes neither the grid size nor the flow parameters,
snapshots the incoming density into `rho_old_`, and ends with
`BoundaryConditions` followed by `CheckConvergence` on `diff = 0`. -/
theorem RunIteration_spec (env : Collaborators K S) (p : SupersonicPlate K S) :
    (RunIteration env p).1.imax_ = p.imax_ ∧
    (RunIteration env p).1.jmax_ = p.jmax_ ∧
    (RunIteration env p).1.flow_parameters_ = p.flow_parameters_ ∧
    (RunIteration env p).1.rho_old_ = p.fields.rho ∧
    (∃ s : Fields K, (RunIteration env p).1.fields =
      BoundaryConditions p.imax_ p.jmax_ p.flow_parameters_ s) ∧
    (RunIteration env p).2 =
      CheckConvergence p.imax_ p.jmax_ (RunIteration env p).1.fields.rho p.fields.rho 0 := by
  refine ⟨rfl, rfl, rfl, rfl, ⟨_, rfl⟩, ?_⟩
  simp only [RunIteration]
  norm_num

/-- The loop of `Run` when the convergence check of the current iteration
succeeds: `break`. -/
theorem RunLoop_break (env : Collaborators K S) (mod : Int) (n : Nat) (it : Int)
    (p : SupersonicPlate K S) (out : List (ConsoleEvent K))
    (hc : (RunIteration env p).2.1 = true) :
    RunLoop env mod (n + 1) it p out =
      { plate := (RunIteration env p).1
        console := if it.tmod mod = 0 then out ++ [ConsoleEvent.iteration it] else out
        it := it
        converged := true } := by
  rw [RunLoop]
  simp only [hc, if_true]

/-- The loop of `Run` when the convergence check of the current iteration
fails: `diff` is printed and the next iteration starts. -/
theorem RunLoop_continue (env : Collaborators K S) (mod : Int) (n : Nat) (it : Int)
    (p : SupersonicPlate K S) (out : List (ConsoleEvent K))
    (hc : (RunIteration env p).2.1 = false) :
    RunLoop env mod (n + 1) it p out =
      RunLoop env mod n (it + 1) (RunIteration env p).1
        (if it.tmod mod = 0 then
          (if it.tmod mod = 0 then out ++ [ConsoleEvent.iteration it] else out) ++
            [ConsoleEvent.diff (RunIteration env p).2.2]
         else if it.tmod mod = 0 then out ++ [ConsoleEvent.iteration it] else out) := by
  rw [RunLoop]
  simp only [hc, Bool.false_eq_true, if_false]

/-- After at least one iteration the loop of `Run` is left in a state whose
fields are an output of `BoundaryConditions`. -/
theorem RunLoop_exit_fields (env : Collaborators K S) (mod : Int) (n : Nat) (it : Int)
    (p : SupersonicPlate K S) (out : List (ConsoleEvent K)) :
    ∃ s : Fields K, (RunLoop env mod (n + 1) it p out).plate.fields =
      BoundaryConditions p.imax_ p.jmax_ p.flow_parameters_ s := by
  induction n generalizing it p out with
  | zero =>
    obtain ⟨-, -, -, -, ⟨s, hs⟩, -⟩ := RunIteration_spec env p
    refine ⟨s, ?_⟩
    cases hc : (RunIteration env p).2.1
    · rw [RunLoop_continue env mod 0 it p out hc, RunLoop]
      exact hs
    · rw [RunLoop_break env mod 0 it p out hc]
      exact hs
  | succ n ih =>
    cases hc : (RunIteration env p).2.1
    · rw [RunLoop_continue env mod (n + 1) it p out hc]
      exact ih _ _ _
    · rw [RunLoop_break env mod (n + 1) it p out hc]
      exact (RunIteration_spec env p).2.2.2.2.1

end DriverLemmas

/-! ## Claims on `BoundaryConditions` -/

section BoundaryClaims

variable {K : Type} [Field K]

/-- C1: for `imax ≥ 3` and `jmax ≥ 3`, `BoundaryConditions` leaves every
interior node `(i, j)`, `1 ≤ i ≤ imax - 2`, `1 ≤ j ≤ jmax - 2`, untouched in
each of `u`, `v`, `rho`, `P`, `T` and `e`. -/
theorem BoundaryConditions_interior (imax jmax : Int) (params : FlowParameters K)
    (s : Fields K) (_himax : 3 ≤ imax) (_hjmax : 3 ≤ jmax) (i j : Int)
    (hi : 1 ≤ i ∧ i ≤ imax - 2) (hj : 1 ≤ j ∧ j ≤ jmax - 2) :
    (BoundaryConditions imax jmax params s).u.Get i j = s.u.Get i j ∧
    (BoundaryConditions imax jmax params s).v.Get i j = s.v.Get i j ∧
    (BoundaryConditions imax jmax params s).rho.Get i j = s.rho.Get i j ∧
    (BoundaryConditions imax jmax params s).P.Get i j = s.P.Get i j ∧
    (BoundaryConditions imax jmax params s).T.Get i j = s.T.Get i j ∧
    (BoundaryConditions imax jmax params s).e.Get i j = s.e.Get i j := by
  obtain ⟨a1, a2, a3, a4, a5, a6⟩ :=
    BoundaryConditions_frame imax jmax params s i j (Or.inl (by omega))
  obtain ⟨b1, b2, b3, b4, b5, b6⟩ :=
    afterWall_frame imax jmax params s i j (Or.inl (by omega))
  obtain ⟨c1, c2, c3, c4, c5, c6⟩ :=
    afterFarField_frame imax jmax params s i j (Or.inl (by omega))
  obtain ⟨d1, d2, d3, d4, d5, d6⟩ :=
    afterInflow_frame jmax params s i j (Or.inl (by omega))
  simp only [Array2D.Get_apply]
  exact ⟨a1.trans (b1.trans (c1.trans d1)), a2.trans (b2.trans (c2.trans d2)),
    a3.trans (b3.trans (c3.trans d3)), a4.trans (b4.trans (c4.trans d4)),
    a5.trans (b5.trans (c5.trans d5)), a6.trans (b6.trans (c6.trans d6))⟩

/-- C2: for `imax ≥ 3` and `jmax ≥ 3`, in the grid returned by
`BoundaryConditions` the wall pressure is `P(i,0) = 2*P(i,1) - P(i,2)` for
every `i` in `1 .. imax-1`, the last column `i = imax-1` included. -/
theorem BoundaryConditions_wall_pressure (imax jmax : Int) (params : FlowParameters K)
    (s : Fields K) (himax : 3 ≤ imax) (hjmax : 3 ≤ jmax) (i : Int)
    (hi : 1 ≤ i ∧ i ≤ imax - 1) :
    (BoundaryConditions imax jmax params s).P.Get i 0 =
      2 * (BoundaryConditions imax jmax params s).P.Get i 1 -
        (BoundaryConditions imax jmax params s).P.Get i 2 := by
  simp only [Array2D.Get_apply]
  by_cases hlast : i = imax - 1
  · subst hlast
    rw [(BoundaryConditions_outflow imax jmax params s 0 (by omega)).2.2.2.1,
      (BoundaryConditions_outflow imax jmax params s 1 (by omega)).2.2.2.1,
      (BoundaryConditions_outflow imax jmax params s 2 (by omega)).2.2.2.1,
      afterWall_pressure imax jmax params s hjmax (imax - 2) (by omega),
      afterWall_pressure imax jmax params s hjmax (imax - 3) (by omega)]
    ring
  · rw [(BoundaryConditions_frame imax jmax params s i 0 (Or.inl hlast)).2.2.2.1,
      (BoundaryConditions_frame imax jmax params s i 1 (Or.inl hlast)).2.2.2.1,
      (BoundaryConditions_frame imax jmax params s i 2 (Or.inl hlast)).2.2.2.1]
    exact afterWall_pressure imax jmax params s hjmax i (by omega)

/-- C4: for `imax ≥ 4` and `jmax ≥ 3`, after `BoundaryConditions` every wall
node `(i, 0)`, `1 ≤ i ≤ imax-1`, has `rho = P / R / T_wall` with the wall
pressure of the returned grid, and `e = T_wall * cv`. -/
theorem BoundaryConditions_wall_density (imax jmax : Int) (params : FlowParameters K)
    (s : Fields K) (himax : 4 ≤ imax) (hjmax : 3 ≤ jmax) (i : Int)
    (hi : 1 ≤ i ∧ i ≤ imax - 1) :
    (BoundaryConditions imax jmax params s).rho.Get i 0 =
      (BoundaryConditions imax jmax params s).P.Get i 0 / params.R / params.T_wall ∧
    (BoundaryConditions imax jmax params s).e.Get i 0 = params.T_wall * params.cv := by
  simp only [Array2D.Get_apply]
  by_cases hlast : i = imax - 1
  · subst hlast
    obtain ⟨-, -, o3, o4, -, o6⟩ := BoundaryConditions_outflow imax jmax params s 0 (by omega)
    obtain ⟨-, -, a3, a4, -, a6⟩ := afterWall_wall imax jmax params s (imax - 2) (by omega)
    obtain ⟨-, -, b3, b4, -, b6⟩ := afterWall_wall imax jmax params s (imax - 3) (by omega)
    rw [o3, o4, o6, a3, a4, a6, b3, b4, b6]
    constructor <;> ring
  · obtain ⟨-, -, o3, o4, -, o6⟩ :=
      BoundaryConditions_frame imax jmax params s i 0 (Or.inl hlast)
    obtain ⟨-, -, a3, a4, -, a6⟩ := afterWall_wall imax jmax params s i (by omega)
    rw [o3, o4, o6, a3, a4, a6]
    exact ⟨rfl, rfl⟩

/-- C5: for `imax ≥ 3` and `jmax ≥ 3`, in the grid returned by
`BoundaryConditions` each of `u`, `v`, `P`, `T`, `rho` and `e` satisfies
`value(imax-1, j) = 2*value(imax-2, j) - value(imax-3, j)` for every `j` in
`0 .. jmax-1`, all three values read from the returned grid. -/
theorem BoundaryConditions_outflow_extrapolation (imax jmax : Int)
    (params : FlowParameters K) (s : Fields K) (_himax : 3 ≤ imax) (_hjmax : 3 ≤ jmax)
    (j : Int) (hj : 0 ≤ j ∧ j ≤ jmax - 1) :
    (BoundaryConditions imax jmax params s).u.Get (imax - 1) j =
      2 * (BoundaryConditions imax jmax params s).u.Get (imax - 2) j -
        (BoundaryConditions imax jmax params s).u.Get (imax - 3) j ∧
    (BoundaryConditions imax jmax params s).v.Get (imax - 1) j =
      2 * (BoundaryConditions imax jmax params s).v.Get (imax - 2) j -
        (BoundaryConditions imax jmax params s).v.Get (imax - 3) j ∧
    (BoundaryConditions imax jmax params s).P.Get (imax - 1) j =
      2 * (BoundaryConditions imax jmax params s).P.Get (imax - 2) j -
        (BoundaryConditions imax jmax params s).P.Get (imax - 3) j ∧
    (BoundaryConditions imax jmax params s).T.Get (imax - 1) j =
      2 * (BoundaryConditions imax jmax params s).T.Get (imax - 2) j -
        (BoundaryConditions imax jmax params s).T.Get (imax - 3) j ∧
    (BoundaryConditions imax jmax params s).rho.Get (imax - 1) j =
      2 * (BoundaryConditions imax jmax params s).rho.Get (imax - 2) j -
        (BoundaryConditions imax jmax params s).rho.Get (imax - 3) j ∧
    (BoundaryConditions imax jmax params s).e.Get (imax - 1) j =
      2 * (BoundaryConditions imax jmax params s).e.Get (imax - 2) j -
        (BoundaryConditions imax jmax params s).e.Get (imax - 3) j := by
  obtain ⟨o1, o2, o3, o4, o5, o6⟩ :=
    BoundaryConditions_outflow imax jmax params s j (by omega)
  obtain ⟨a1, a2, a3, a4, a5, a6⟩ :=
    BoundaryConditions_frame imax jmax params s (imax - 2) j (Or.inl (by omega))
  obtain ⟨b1, b2, b3, b4, b5, b6⟩ :=
    BoundaryConditions_frame imax jmax params s (imax - 3) j (Or.inl (by omega))
  simp only [Array2D.Get_apply]
  rw [o1, o2, o3, o4, o5, o6, a1, a2, a3, a4, a5, a6, b1, b2, b3, b4, b5, b6]
  exact ⟨rfl, rfl, rfl, rfl, rfl, rfl⟩

/-- C6: for `imax ≥ 3` and `jmax ≥ 3`, after `BoundaryConditions` every
far-field node `(i, jmax-1)`, `0 ≤ i ≤ imax-1`, the outflow corner included,
holds the free-stream state `u = a_inf*M_inf`, `v = 0`, `P = P_inf`,
`T = T_inf`, `rho = P_inf/R/T_inf`, `e = T_inf*cv`. -/
theorem BoundaryConditions_far_field (imax jmax : Int) (params : FlowParameters K)
    (s : Fields K) (himax : 3 ≤ imax) (hjmax : 3 ≤ jmax) (i : Int)
    (hi : 0 ≤ i ∧ i ≤ imax - 1) :
    (BoundaryConditions imax jmax params s).u.Get i (jmax - 1) =
      params.a_inf * params.M_inf ∧
    (BoundaryConditions imax jmax params s).v.Get i (jmax - 1) = 0 ∧
    (BoundaryConditions imax jmax params s).P.Get i (jmax - 1) = params.P_inf ∧
    (BoundaryConditions imax jmax params s).T.Get i (jmax - 1) = params.T_inf ∧
    (BoundaryConditions imax jmax params s).rho.Get i (jmax - 1) =
      params.P_inf / params.R / params.T_inf ∧
    (BoundaryConditions imax jmax params s).e.Get i (jmax - 1) =
      params.T_inf * params.cv := by
  simp only [Array2D.Get_apply]
  by_cases hlast : i = imax - 1
  · subst hlast
    obtain ⟨o1, o2, o3, o4, o5, o6⟩ :=
      BoundaryConditions_outflow imax jmax params s (jmax - 1) (by omega)
    obtain ⟨a1, a2, a3, a4, a5, a6⟩ :=
      afterWall_far imax jmax params s (imax - 2) (by omega) (by omega)
    obtain ⟨b1, b2, b3, b4, b5, b6⟩ :=
      afterWall_far imax jmax params s (imax - 3) (by omega) (by omega)
    rw [o1, o2, o3, o4, o5, o6, a1, a2, a3, a4, a5, a6, b1, b2, b3, b4, b5, b6]
    refine ⟨?_, ?_, ?_, ?_, ?_, ?_⟩ <;> ring
  · obtain ⟨o1, o2, o3, o4, o5, o6⟩ :=
      BoundaryConditions_frame imax jmax params s i (jmax - 1) (Or.inl hlast)
    obtain ⟨a1, a2, a3, a4, a5, a6⟩ :=
      afterWall_far imax jmax params s i (by omega) (by omega)
    rw [o1, o2, o3, o4, o5, o6, a1, a2, a3, a4, a5, a6]
    exact ⟨rfl, rfl, rfl, rfl, rfl, rfl⟩

/-- Wall nodes after `BoundaryConditions`: `u = 0`, `v = 0`, `T = T_wall` at
`(i, 0)` for `1 ≤ i ≤ imax - 1`, when `imax ≥ 4` and `jmax ≥ 3`. -/
theorem BoundaryConditions_wall_aux (imax jmax : Int) (params : FlowParameters K)
    (s : Fields K) (himax : 4 ≤ imax) (hjmax : 3 ≤ jmax) (i : Int)
    (hi : 1 ≤ i ∧ i ≤ imax - 1) :
    (BoundaryConditions imax jmax params s).u.Get i 0 = 0 ∧
    (BoundaryConditions imax jmax params s).v.Get i 0 = 0 ∧
    (BoundaryConditions imax jmax params s).T.Get i 0 = params.T_wall := by
  simp only [Array2D.Get_apply]
  by_cases hlast : i = imax - 1
  · subst hlast
    obtain ⟨o1, o2, -, -, o5, -⟩ := BoundaryConditions_outflow imax jmax params s 0 (by omega)
    obtain ⟨a1, a2, -, -, a5, -⟩ := afterWall_wall imax jmax params s (imax - 2) (by omega)
    obtain ⟨b1, b2, -, -, b5, -⟩ := afterWall_wall imax jmax params s (imax - 3) (by omega)
    rw [o1, o2, o5, a1, a2, a5, b1, b2, b5]
    refine ⟨?_, ?_, ?_⟩ <;> ring
  · obtain ⟨o1, o2, -, -, o5, -⟩ :=
      BoundaryConditions_frame imax jmax params s i 0 (Or.inl hlast)
    obtain ⟨a1, a2, -, -, a5, -⟩ := afterWall_wall imax jmax params s i (by omega)
    rw [o1, o2, o5, a1, a2, a5]
    exact ⟨rfl, rfl, rfl⟩

/-- C7: for `imax ≥ 3` and `jmax ≥ 3`, column `i = 0` holds, after the inflow
loop and after each later pass (far field, wall, outflow, the last being the
returned grid): at `(0, 0)` zero velocity with free-stream `P`, `T`, `rho`,
`e`; at every `(0, j)`, `1 ≤ j ≤ jmax-1`, the free-stream state with
`u = a_inf*M_inf`, `v = 0`. -/
theorem BoundaryConditions_inflow_column (imax jmax : Int) (params : FlowParameters K)
    (s : Fields K) (himax : 3 ≤ imax) (hjmax : 3 ≤ jmax) :
    ∀ g ∈ [afterInflow jmax params s, afterFarField imax jmax params s,
        afterWall imax jmax params s, BoundaryConditions imax jmax params s],
      (g.u.Get 0 0 = 0 ∧
       g.v.Get 0 0 = 0 ∧
       g.P.Get 0 0 = params.P_inf ∧
       g.T.Get 0 0 = params.T_inf ∧
       g.rho.Get 0 0 = params.P_inf / params.R / params.T_inf ∧
       g.e.Get 0 0 = params.T_inf * params.cv) ∧
      ∀ j : Int, 1 ≤ j → j ≤ jmax - 1 →
        (g.u.Get 0 j = params.a_inf * params.M_inf ∧
         g.v.Get 0 j = 0 ∧
         g.P.Get 0 j = params.P_inf ∧
         g.T.Get 0 j = params.T_inf ∧
         g.rho.Get 0 j = params.P_inf / params.R / params.T_inf ∧
         g.e.Get 0 j = params.T_inf * params.cv) := by
  have hI0 := afterInflow_leadingEdge jmax params s
  have hW0 := afterWall_leadingEdge imax jmax params s (by omega)
  have hF0 := afterFarField_frame imax jmax params s 0 0 (Or.inl (by omega))
  have hO0 := BoundaryConditions_frame imax jmax params s 0 0 (Or.inl (by omega))
  intro g hg
  simp only [List.mem_cons, List.mem_singleton, List.not_mem_nil, or_false] at hg
  simp only [Array2D.Get_apply]
  rcases hg with rfl | rfl | rfl | rfl
  · refine ⟨?_, fun j h1 h2 => ?_⟩
    · obtain ⟨c1, c2, c3, c4, c5, c6⟩ := hI0
      exact ⟨c1, c2, c4, c5, c3, c6⟩
    · obtain ⟨c1, c2, c3, c4, c5, c6⟩ := afterInflow_inflow jmax params s j (by omega)
      exact ⟨c1, c2, c4, c5, c3, c6⟩
  · refine ⟨?_, fun j h1 h2 => ?_⟩
    · obtain ⟨b1, b2, b3, b4, b5, b6⟩ := hF0
      obtain ⟨c1, c2, c3, c4, c5, c6⟩ := hI0
      exact ⟨b1.trans c1, b2.trans c2, b4.trans c4, b5.trans c5, b3.trans c3, b6.trans c6⟩
    · obtain ⟨c1, c2, c3, c4, c5, c6⟩ := afterInflow_inflow jmax params s j (by omega)
      by_cases hfar : j = jmax - 1
      · subst hfar
        obtain ⟨b1, b2, b3, b4, b5, b6⟩ :=
          afterFarField_far imax jmax params s 0 (by omega)
        exact ⟨b1, b2, b4, b5, b3, b6⟩
      · obtain ⟨b1, b2, b3, b4, b5, b6⟩ :=
          afterFarField_frame imax jmax params s 0 j (Or.inl hfar)
        exact ⟨b1.trans c1, b2.trans c2, b4.trans c4, b5.trans c5, b3.trans c3,
          b6.trans c6⟩
  · refine ⟨?_, fun j h1 h2 => ?_⟩
    · obtain ⟨c1, c2, c3, c4, c5, c6⟩ := hW0
      exact ⟨c1, c2, c4, c5, c3, c6⟩
    · obtain ⟨c1, c2, c3, c4, c5, c6⟩ := afterWall_inflow imax jmax params s j (by omega)
      exact ⟨c1, c2, c4, c5, c3, c6⟩
  · refine ⟨?_, fun j h1 h2 => ?_⟩
    · obtain ⟨b1, b2, b3, b4, b5, b6⟩ := hO0
      obtain ⟨c1, c2, c3, c4, c5, c6⟩ := hW0
      exact ⟨b1.trans c1, b2.trans c2, b4.trans c4, b5.trans c5, b3.trans c3, b6.trans c6⟩
    · obtain ⟨b1, b2, b3, b4, b5, b6⟩ :=
        BoundaryConditions_frame imax jmax params s 0 j (Or.inl (by omega))
      obtain ⟨c1, c2, c3, c4, c5, c6⟩ := afterWall_inflow imax jmax params s j (by omega)
      exact ⟨b1.trans c1, b2.trans c2, b4.trans c4, b5.trans c5, b3.trans c3, b6.trans c6⟩

end BoundaryClaims

/-! ## Claims on the grid steps, the convergence check and the driver loop -/

section DriverClaims

variable {K S : Type} [LinearOrderedField K]

/-- C3: for `imax ≥ 4` and `jmax ≥ 3`, every wall node `(i, 0)`,
`1 ≤ i ≤ imax-1` (the outflow corner included), has `u = 0`, `v = 0` and
`T = T_wall` in the output of `BoundaryConditions`, hence at the end of an
iteration of `Run`, when the loop of `Run` is left after at least one
iteration, and when `Run` returns (`maxit ≥ 1`). -/
theorem wall_noslip_isothermal (env : Collaborators K S) (p : SupersonicPlate K S)
    (himax : 4 ≤ p.imax_) (hjmax : 3 ≤ p.jmax_) (hmaxit : 1 ≤ p.maxit) (s : Fields K)
    (mod : Int) (n : Nat) (it : Int) (out : List (ConsoleEvent K)) :
    ∀ g ∈ [BoundaryConditions p.imax_ p.jmax_ p.flow_parameters_ s,
        (RunIteration env p).1.fields,
        (RunLoop env mod (n + 1) it p out).plate.fields,
        (Run env p).1.plate.fields],
      ∀ i : Int, 1 ≤ i → i ≤ p.imax_ - 1 →
        g.u.Get i 0 = 0 ∧ g.v.Get i 0 = 0 ∧ g.T.Get i 0 = p.flow_parameters_.T_wall := by
  intro g hg i hi1 hi2
  simp only [List.mem_cons, List.mem_singleton, List.not_mem_nil, or_false] at hg
  rcases hg with rfl | rfl | rfl | rfl
  · exact BoundaryConditions_wall_aux _ _ _ s himax hjmax i ⟨hi1, hi2⟩
  · obtain ⟨-, -, -, -, ⟨s', hs'⟩, -⟩ := RunIteration_spec env p
    rw [hs']
    exact BoundaryConditions_wall_aux _ _ _ s' himax hjmax i ⟨hi1, hi2⟩
  · obtain ⟨s', hs'⟩ := RunLoop_exit_fields env mod n it p out
    rw [hs']
    exact BoundaryConditions_wall_aux _ _ _ s' himax hjmax i ⟨hi1, hi2⟩
  · obtain ⟨c1, c2, c3, c4⟩ := InitializeFlowFliedVariables_config p
    obtain ⟨m, hm⟩ : ∃ m : Nat, ((InitializeFlowFliedVariables p).maxit - 0).toNat = m + 1 :=
      ⟨(p.maxit - 1).toNat, by rw [c4]; omega⟩
    obtain ⟨s', hs'⟩ :=
      RunLoop_exit_fields env 1 m 0 (InitializeFlowFliedVariables p) []
    have hrun : (Run env p).1.plate.fields =
        BoundaryConditions p.imax_ p.jmax_ p.flow_parameters_ s' := by
      rw [← c1, ← c2, ← c3, ← hs', ← hm]
      rfl
    rw [hrun]
    exact BoundaryConditions_wall_aux _ _ _ s' himax hjmax i ⟨hi1, hi2⟩

/-- C8: for a positive node count, `CalcXStep(params, imax) * imax` is the
plate length and `CalcYStep(params, jmax) * jmax` is `5 * delta` with
`delta = 5 * plate_length / sqrt(Re)`, `Re = rho * u * plate_length / mu`,
`rho = P_inf / (T_inf * R)`, `u = M_inf * a_inf` (exact arithmetic, any
square-root function). -/
theorem CalcStep_times_size (sqrt : K → K) (params : FlowParameters K) (imax jmax : Int)
    (himax : 0 < imax) (hjmax : 0 < jmax) :
    CalcXStep params imax * (imax : K) = params.plate_length ∧
    CalcYStep sqrt params jmax * (jmax : K) =
      5 * (5 * params.plate_length /
        sqrt (params.P_inf / (params.T_inf * params.R) * (params.M_inf * params.a_inf) *
          params.plate_length / params.mu)) := by
  have hi : (imax : K) ≠ 0 := by exact_mod_cast himax.ne'
  have hj : (jmax : K) ≠ 0 := by exact_mod_cast hjmax.ne'
  exact ⟨div_mul_cancel₀ _ hi, div_mul_cancel₀ _ hj⟩

/-- The convergence check in exact arithmetic, on finite densities: called
with `diff = 0` on a grid with at least one node, `CheckConvergence` leaves in
`diff` the maximum over all nodes of `|rho - rho_old|` (an upper bound that
some node attains), and returns true iff that maximum is below `1e-8`, i.e.
iff every node's absolute density change is below `1e-8`. -/
theorem CheckConvergence_max (imax_ jmax_ : Int) (rho_ rho_old_ : Array2D K)
    (himax : 0 < imax_) (hjmax : 0 < jmax_) :
    (∀ i j : Int, 0 ≤ i → i < imax_ → 0 ≤ j → j < jmax_ →
      |rho_.Get i j - rho_old_.Get i j| ≤
        (CheckConvergence imax_ jmax_ rho_ rho_old_ 0).2) ∧
    (∃ i j : Int, 0 ≤ i ∧ i < imax_ ∧ 0 ≤ j ∧ j < jmax_ ∧
      (CheckConvergence imax_ jmax_ rho_ rho_old_ 0).2 =
        |rho_.Get i j - rho_old_.Get i j|) ∧
    ((CheckConvergence imax_ jmax_ rho_ rho_old_ 0).1 = true ↔
      (CheckConvergence imax_ jmax_ rho_ rho_old_ 0).2 < 1.0e-8) ∧
    ((CheckConvergence imax_ jmax_ rho_ rho_old_ 0).1 = true ↔
      ∀ i j : Int, 0 ≤ i → i < imax_ → 0 ≤ j → j < jmax_ →
        |rho_.Get i j - rho_old_.Get i j| < 1.0e-8) := by
  obtain ⟨-, hub, hatt⟩ := CheckConvergence_diff_spec imax_ jmax_ rho_ rho_old_ 0
  have hres := CheckConvergence_result imax_ jmax_ rho_ rho_old_ 0
  have hex : ∃ i j : Int, 0 ≤ i ∧ i < imax_ ∧ 0 ≤ j ∧ j < jmax_ ∧
      (CheckConvergence imax_ jmax_ rho_ rho_old_ 0).2 =
        |rho_.Get i j - rho_old_.Get i j| := by
    rcases hatt with h0 | h
    · refine ⟨0, 0, le_refl 0, himax, le_refl 0, hjmax, ?_⟩
      have h1 := hub 0 0 (le_refl 0) himax (le_refl 0) hjmax
      rw [h0] at h1 ⊢
      exact le_antisymm (abs_nonneg _) h1
    · exact h
  refine ⟨hub, hex, hres, hres.trans ⟨fun h i j hi0 hi1 hj0 hj1 => ?_, fun h => ?_⟩⟩
  · exact lt_of_le_of_lt (hub i j hi0 hi1 hj0 hj1) h
  · obtain ⟨i, j, hi0, hi1, hj0, hj1, heq⟩ := hex
    rw [heq]
    exact h i j hi0 hi1 hj0 hj1

/-- C10: if the density after predictor, `BoundaryConditions`, corrector and
`BoundaryConditions` equals the density at the start of the iteration at
every node, the first convergence check computes `diff = 0` and returns
true, and the loop of `Run` (`maxit ≥ 1`) is left during iteration `0`:
the only console output is `Iteration 0` and no second iteration starts. -/
theorem Run_fixed_point_converges (env : Collaborators K S) (p : SupersonicPlate K S)
    (hmaxit : 1 ≤ p.maxit)
    (hfix : ∀ i j : Int, 0 ≤ i → i < p.imax_ → 0 ≤ j → j < p.jmax_ →
      (RunIteration env p).1.fields.rho.Get i j = p.fields.rho.Get i j) :
    (RunIteration env p).2 = (true, 0) ∧
    RunLoop env 1 (p.maxit - 0).toNat 0 p [] =
      { plate := (RunIteration env p).1
        console := [ConsoleEvent.iteration 0]
        it := 0
        converged := true } ∧
    ∀ p0 : SupersonicPlate K S, InitializeFlowFliedVariables p0 = p →
      (Run env p0).1 =
        { plate := (RunIteration env p).1
          console := [ConsoleEvent.iteration 0]
          it := 0
          converged := true } := by
  obtain ⟨-, -, -, -, -, hcc⟩ := RunIteration_spec env p
  obtain ⟨-, -, hatt⟩ := CheckConvergence_diff_spec p.imax_ p.jmax_
    (RunIteration env p).1.fields.rho p.fields.rho 0
  have hres := CheckConvergence_result p.imax_ p.jmax_
    (RunIteration env p).1.fields.rho p.fields.rho 0
  rw [← hcc] at hatt hres
  have hdiff : (RunIteration env p).2.2 = 0 := by
    rcases hatt with h | ⟨i, j, hi0, hi1, hj0, hj1, h⟩
    · exact h
    · rw [h, hfix i j hi0 hi1 hj0 hj1, sub_self, abs_zero]
  have hconv : (RunIteration env p).2.1 = true := by
    rw [hres, hdiff]
    norm_num
  obtain ⟨m, hm⟩ : ∃ m : Nat, (p.maxit - 0).toNat = m + 1 :=
    ⟨(p.maxit - 1).toNat, by omega⟩
  have hloop : RunLoop env 1 (p.maxit - 0).toNat 0 p [] =
      { plate := (RunIteration env p).1
        console := [ConsoleEvent.iteration 0]
        it := 0
        converged := true } := by
    rw [hm, RunLoop_break env 1 m 0 p [] hconv]
    simp
  refine ⟨Prod.ext hconv hdiff, hloop, fun p0 hp0 => ?_⟩
  rw [← hloop, ← hp0]
  rfl

end DriverClaims

/-! ## Instances of the theorems at sample inputs -/

section Witnesses

/-- Instance of C1 on a `4 x 3` grid at the interior node `(2, 1)`. -/
theorem BoundaryConditions_interior_witness :
    (3 : Int) ≤ 4 ∧ (3 : Int) ≤ 3 ∧
    (BoundaryConditions 4 3 (sampleParams ℚ) sampleFields).u.Get 2 1 = sampleFields.u.Get 2 1 ∧
    (BoundaryConditions 4 3 (sampleParams ℚ) sampleFields).v.Get 2 1 = sampleFields.v.Get 2 1 ∧
    (BoundaryConditions 4 3 (sampleParams ℚ) sampleFields).rho.Get 2 1 = sampleFields.rho.Get 2 1 ∧
    (BoundaryConditions 4 3 (sampleParams ℚ) sampleFields).P.Get 2 1 = sampleFields.P.Get 2 1 ∧
    (BoundaryConditions 4 3 (sampleParams ℚ) sampleFields).T.Get 2 1 = sampleFields.T.Get 2 1 ∧
    (BoundaryConditions 4 3 (sampleParams ℚ) sampleFields).e.Get 2 1 = sampleFields.e.Get 2 1 :=
  ⟨by decide, by decide,
    BoundaryConditions_interior 4 3 (sampleParams ℚ) sampleFields (by decide) (by decide)
      2 1 (by decide) (by decide)⟩

/-- Instance of C2 on a `4 x 3` grid at the outflow corner `i = 3`. -/
theorem BoundaryConditions_wall_pressure_witness :
    (3 : Int) ≤ 4 ∧ (3 : Int) ≤ 3 ∧
    (BoundaryConditions 4 3 (sampleParams ℚ) sampleFields).P.Get 3 0 =
      2 * (BoundaryConditions 4 3 (sampleParams ℚ) sampleFields).P.Get 3 1 -
        (BoundaryConditions 4 3 (sampleParams ℚ) sampleFields).P.Get 3 2 :=
  ⟨by decide, by decide,
    BoundaryConditions_wall_pressure 4 3 (sampleParams ℚ) sampleFields (by decide)
      (by decide) 3 (by decide)⟩

/-- Instance of C3 on the `4 x 3` sample object, at the outflow corner `i = 3`
after one iteration. -/
theorem wall_noslip_isothermal_witness :
    (4 : Int) ≤ samplePlate.imax_ ∧ (3 : Int) ≤ samplePlate.jmax_ ∧
    (1 : Int) ≤ samplePlate.maxit ∧
    (RunIteration idleCollaborators samplePlate).1.fields.u.Get 3 0 = 0 ∧
    (RunIteration idleCollaborators samplePlate).1.fields.v.Get 3 0 = 0 ∧
    (RunIteration idleCollaborators samplePlate).1.fields.T.Get 3 0 =
      samplePlate.flow_parameters_.T_wall :=
  ⟨by decide, by decide, by decide,
    wall_noslip_isothermal idleCollaborators samplePlate (by decide) (by decide) (by decide)
      sampleFields 1 0 0 [] (RunIteration idleCollaborators samplePlate).1.fields
      (by simp) 3 (by decide) (by decide)⟩

/-- Instance of C4 on a `4 x 3` grid at the outflow corner `i = 3`. -/
theorem BoundaryConditions_wall_density_witness :
    (4 : Int) ≤ 4 ∧ (3 : Int) ≤ 3 ∧
    (BoundaryConditions 4 3 (sampleParams ℚ) sampleFields).rho.Get 3 0 =
      (BoundaryConditions 4 3 (sampleParams ℚ) sampleFields).P.Get 3 0 /
        (sampleParams ℚ).R / (sampleParams ℚ).T_wall ∧
    (BoundaryConditions 4 3 (sampleParams ℚ) sampleFields).e.Get 3 0 =
      (sampleParams ℚ).T_wall * (sampleParams ℚ).cv :=
  ⟨by decide, by decide,
    BoundaryConditions_wall_density 4 3 (sampleParams ℚ) sampleFields (by decide)
      (by decide) 3 (by decide)⟩

/-- Instance of C5 on a `4 x 3` grid at the far-field row `j = 2`. -/
theorem BoundaryConditions_outflow_extrapolation_witness :
    (3 : Int) ≤ 4 ∧ (3 : Int) ≤ 3 ∧
    (BoundaryConditions 4 3 (sampleParams ℚ) sampleFields).u.Get (4 - 1) 2 =
      2 * (BoundaryConditions 4 3 (sampleParams ℚ) sampleFields).u.Get (4 - 2) 2 -
        (BoundaryConditions 4 3 (sampleParams ℚ) sampleFields).u.Get (4 - 3) 2 ∧
    (BoundaryConditions 4 3 (sampleParams ℚ) sampleFields).v.Get (4 - 1) 2 =
      2 * (BoundaryConditions 4 3 (sampleParams ℚ) sampleFields).v.Get (4 - 2) 2 -
        (BoundaryConditions 4 3 (sampleParams ℚ) sampleFields).v.Get (4 - 3) 2 ∧
    (BoundaryConditions 4 3 (sampleParams ℚ) sampleFields).P.Get (4 - 1) 2 =
      2 * (BoundaryConditions 4 3 (sampleParams ℚ) sampleFields).P.Get (4 - 2) 2 -
        (BoundaryConditions 4 3 (sampleParams ℚ) sampleFields).P.Get (4 - 3) 2 ∧
    (BoundaryConditions 4 3 (sampleParams ℚ) sampleFields).T.Get (4 - 1) 2 =
      2 * (BoundaryConditions 4 3 (sampleParams ℚ) sampleFields).T.Get (4 - 2) 2 -
        (BoundaryConditions 4 3 (sampleParams ℚ) sampleFields).T.Get (4 - 3) 2 ∧
    (BoundaryConditions 4 3 (sampleParams ℚ) sampleFields).rho.Get (4 - 1) 2 =
      2 * (BoundaryConditions 4 3 (sampleParams ℚ) sampleFields).rho.Get (4 - 2) 2 -
        (BoundaryConditions 4 3 (sampleParams ℚ) sampleFields).rho.Get (4 - 3) 2 ∧
    (BoundaryConditions 4 3 (sampleParams ℚ) sampleFields).e.Get (4 - 1) 2 =
      2 * (BoundaryConditions 4 3 (sampleParams ℚ) sampleFields).e.Get (4 - 2) 2 -
        (BoundaryConditions 4 3 (sampleParams ℚ) sampleFields).e.Get (4 - 3) 2 :=
  ⟨by decide, by decide,
    BoundaryConditions_outflow_extrapolation 4 3 (sampleParams ℚ) sampleFields (by decide)
      (by decide) 2 (by decide)⟩

/-- Instance of C6 on a `4 x 3` grid at the outflow corner `(3, 2)`. -/
theorem BoundaryConditions_far_field_witness :
    (3 : Int) ≤ 4 ∧ (3 : Int) ≤ 3 ∧
    (BoundaryConditions 4 3 (sampleParams ℚ) sampleFields).u.Get 3 (3 - 1) =
      (sampleParams ℚ).a_inf * (sampleParams ℚ).M_inf ∧
    (BoundaryConditions 4 3 (sampleParams ℚ) sampleFields).v.Get 3 (3 - 1) = 0 ∧
    (BoundaryConditions 4 3 (sampleParams ℚ) sampleFields).P.Get 3 (3 - 1) = (sampleParams ℚ).P_inf ∧
    (BoundaryConditions 4 3 (sampleParams ℚ) sampleFields).T.Get 3 (3 - 1) = (sampleParams ℚ).T_inf ∧
    (BoundaryConditions 4 3 (sampleParams ℚ) sampleFields).rho.Get 3 (3 - 1) =
      (sampleParams ℚ).P_inf / (sampleParams ℚ).R / (sampleParams ℚ).T_inf ∧
    (BoundaryConditions 4 3 (sampleParams ℚ) sampleFields).e.Get 3 (3 - 1) =
      (sampleParams ℚ).T_inf * (sampleParams ℚ).cv :=
  ⟨by decide, by decide,
    BoundaryConditions_far_field 4 3 (sampleParams ℚ) sampleFields (by decide) (by decide)
      3 (by decide)⟩

/-- Instance of C7 on a `4 x 3` grid: the velocity `u` of the returned grid at
the leading edge `(0, 0)` and at the inflow node `(0, 1)`. -/
theorem BoundaryConditions_inflow_column_witness :
    (3 : Int) ≤ 4 ∧ (3 : Int) ≤ 3 ∧
    (BoundaryConditions 4 3 (sampleParams ℚ) sampleFields).u.Get 0 0 = 0 ∧
    (BoundaryConditions 4 3 (sampleParams ℚ) sampleFields).u.Get 0 1 =
      (sampleParams ℚ).a_inf * (sampleParams ℚ).M_inf :=
  ⟨by decide, by decide,
    (BoundaryConditions_inflow_column 4 3 (sampleParams ℚ) sampleFields (by decide)
      (by decide) (BoundaryConditions 4 3 (sampleParams ℚ) sampleFields) (by simp)).1.1,
    ((BoundaryConditions_inflow_column 4 3 (sampleParams ℚ) sampleFields (by decide)
      (by decide) (BoundaryConditions 4 3 (sampleParams ℚ) sampleFields) (by simp)).2 1
        (by decide) (by decide)).1⟩

/-- Instance of C8 over the reals with the real square root, on the `70 x 70`
grid of the reference configuration. -/
theorem CalcStep_times_size_witness :
    (0 : Int) < 70 ∧
    CalcXStep (sampleParams ℝ) 70 * ((70 : Int) : ℝ) = (sampleParams ℝ).plate_length ∧
    CalcYStep Real.sqrt (sampleParams ℝ) 70 * ((70 : Int) : ℝ) =
      5 * (5 * (sampleParams ℝ).plate_length /
        Real.sqrt ((sampleParams ℝ).P_inf / ((sampleParams ℝ).T_inf * (sampleParams ℝ).R) *
          ((sampleParams ℝ).M_inf * (sampleParams ℝ).a_inf) *
            (sampleParams ℝ).plate_length / (sampleParams ℝ).mu)) :=
  ⟨by decide,
    CalcStep_times_size Real.sqrt (sampleParams ℝ) 70 70 (by decide) (by decide)⟩

/-- Instance of the exact-arithmetic convergence check on a `4 x 3` grid,
comparing two of the sample fields. -/
theorem CheckConvergence_max_witness :
    (0 : Int) < 4 ∧ (0 : Int) < 3 ∧
    (∃ i j : Int, 0 ≤ i ∧ i < 4 ∧ 0 ≤ j ∧ j < 3 ∧
      (CheckConvergence 4 3 sampleFields.rho uniformFields.rho 0).2 =
        |sampleFields.rho.Get i j - uniformFields.rho.Get i j|) :=
  ⟨by decide, by decide,
    (CheckConvergence_max 4 3 sampleFields.rho uniformFields.rho (by decide)
      (by decide)).2.1⟩

/-- The sample object is a fixed point of one iteration with idle
collaborators: the density is unchanged at every node. -/
theorem samplePlate_fixed (i j : Int) (_hi0 : 0 ≤ i) (hi1 : i < samplePlate.imax_)
    (_hj0 : 0 ≤ j) (hj1 : j < samplePlate.jmax_) :
    (RunIteration idleCollaborators samplePlate).1.fields.rho.Get i j =
      samplePlate.fields.rho.Get i j := by
  have hi1 : i < 4 := hi1
  have hj1 : j < 3 := hj1
  simp only [RunIteration, idleCollaborators, samplePlate, BoundaryConditions, afterWall,
    afterFarField, afterInflow, outflow_range, wall_range, farField_range, inflow_range,
    leadingEdge, Array2D.Set_apply, Array2D.Get_apply, uniformFields, sampleParams]
  interval_cases i <;> interval_cases j <;> norm_num

/-- Instance of C10 on the `4 x 3` sample object, which is a fixed point. -/
theorem Run_fixed_point_converges_witness :
    (1 : Int) ≤ samplePlate.maxit ∧
    (RunIteration idleCollaborators samplePlate).2 = (true, 0) ∧
    RunLoop idleCollaborators 1 (samplePlate.maxit - 0).toNat 0 samplePlate [] =
      { plate := (RunIteration idleCollaborators samplePlate).1
        console := [ConsoleEvent.iteration 0]
        it := 0
        converged := true } :=
  ⟨by decide,
    (Run_fixed_point_converges idleCollaborators samplePlate (by decide)
      samplePlate_fixed).1,
    (Run_fixed_point_converges idleCollaborators samplePlate (by decide)
      samplePlate_fixed).2.1⟩

end Witnesses

/-! ## Termination of the driver loop -/

section Termination

variable {K S : Type} [LinearOrderedField K]

/-- How the loop of `Run` is left when at most `n` iterations are allowed,
starting with the counter at `it0`: after `k ≤ n` iterations whose check
failed, either in iteration `it0 + k` whose check succeeded (with `k < n`), or
with `k = n` and the counter at `it0 + n`. -/
theorem RunLoop_exit_spec (env : Collaborators K S) (mod : Int) (n : Nat) (it0 : Int)
    (p : SupersonicPlate K S) (out : List (ConsoleEvent K)) :
    ∃ k : Nat, k ≤ n ∧ (RunLoop env mod n it0 p out).it = it0 + k ∧
      (∀ k' : Nat, k' < k →
        (RunIteration env ((fun q => (RunIteration env q).1)^[k'] p)).2.1 = false) ∧
      (((RunLoop env mod n it0 p out).converged = true ∧ k < n ∧
          (RunIteration env ((fun q => (RunIteration env q).1)^[k] p)).2.1 = true ∧
          (RunLoop env mod n it0 p out).plate =
            (RunIteration env ((fun q => (RunIteration env q).1)^[k] p)).1) ∨
        ((RunLoop env mod n it0 p out).converged = false ∧ k = n ∧
          (RunLoop env mod n it0 p out).plate =
            (fun q => (RunIteration env q).1)^[n] p)) := by
  induction n generalizing it0 p out with
  | zero =>
    refine ⟨0, le_refl 0, ?_, fun k' hk' => absurd hk' (Nat.not_lt_zero k'), Or.inr ?_⟩
    · simp [RunLoop]
    · exact ⟨rfl, rfl, rfl⟩
  | succ n ih =>
    cases hc : (RunIteration env p).2.1
    · rw [RunLoop_continue env mod n it0 p out hc]
      obtain ⟨k, hk, hit, hbefore, hcase⟩ := ih (it0 + 1) (RunIteration env p).1
        (if it0.tmod mod = 0 then
          (if it0.tmod mod = 0 then out ++ [ConsoleEvent.iteration it0] else out) ++
            [ConsoleEvent.diff (RunIteration env p).2.2]
         else if it0.tmod mod = 0 then out ++ [ConsoleEvent.iteration it0] else out)
      refine ⟨k + 1, Nat.succ_le_succ hk, ?_, ?_, ?_⟩
      · rw [hit]
        push_cast
        ring
      · intro k' hk'
        cases k' with
        | zero => exact hc
        | succ m =>
          rw [Function.iterate_succ_apply]
          exact hbefore m (Nat.lt_of_succ_lt_succ hk')
      · simp only [Function.iterate_succ_apply]
        rcases hcase with ⟨h1, h2, h3, h4⟩ | ⟨h1, h2, h3⟩
        · exact Or.inl ⟨h1, Nat.succ_lt_succ h2, h3, h4⟩
        · exact Or.inr ⟨h1, by omega, h3⟩
    · rw [RunLoop_break env mod n it0 p out hc]
      refine ⟨0, Nat.zero_le _, ?_, fun k' hk' => absurd hk' (Nat.not_lt_zero k'), Or.inl ?_⟩
      · simp
      · exact ⟨rfl, Nat.succ_pos n, hc, rfl⟩

/-- C11: the loop of `Run` always terminates, after at most `maxit`
iterations: it is left in the first iteration `k` whose convergence check
returns true (`k < maxit`, every earlier check false, `converged = true`),
and otherwise after exactly `maxit` iterations with every check false
(`converged = false`); the constructor sets `maxit = 100000`.  Predictor,
corrector and time step are arbitrary functions. -/
theorem Run_terminates (env : Collaborators K S) (p : SupersonicPlate K S) :
    (∃ k : Nat, k ≤ p.maxit.toNat ∧ (Run env p).1.it = k ∧
      (∀ k' : Nat, k' < k →
        (RunIteration env ((fun q => (RunIteration env q).1)^[k']
          (InitializeFlowFliedVariables p))).2.1 = false) ∧
      (((Run env p).1.converged = true ∧ k < p.maxit.toNat ∧
          (RunIteration env ((fun q => (RunIteration env q).1)^[k]
            (InitializeFlowFliedVariables p))).2.1 = true ∧
          (Run env p).1.plate =
            (RunIteration env ((fun q => (RunIteration env q).1)^[k]
              (InitializeFlowFliedVariables p))).1) ∨
        ((Run env p).1.converged = false ∧ k = p.maxit.toNat ∧
          (Run env p).1.plate =
            (fun q => (RunIteration env q).1)^[p.maxit.toNat]
              (InitializeFlowFliedVariables p)))) ∧
    ∀ (sqrt : K → K) (ViscositySutherlandLaw : FlowParameters K → K → K)
      (fp0 : FlowParameters K) (newArray : Int → Int → Array2D K) (solver0 : S)
      (rho_old0 : Array2D K),
      (SupersonicPlate.construct sqrt ViscositySutherlandLaw fp0 newArray solver0
        rho_old0).maxit = 100000 := by
  refine ⟨?_, fun _ _ _ _ _ _ => rfl⟩
  have hn : ((InitializeFlowFliedVariables p).maxit - 0).toNat = p.maxit.toNat := by
    rw [(InitializeFlowFliedVariables_config p).2.2.2, sub_zero]
  have hrun : (Run env p).1 =
      RunLoop env 1 p.maxit.toNat 0 (InitializeFlowFliedVariables p) [] := by
    rw [← hn]
    rfl
  obtain ⟨k, hk, hit, hbefore, hcase⟩ :=
    RunLoop_exit_spec env 1 p.maxit.toNat 0 (InitializeFlowFliedVariables p) []
  rw [← hrun] at hit hcase
  exact ⟨k, hk, by rw [hit, zero_add], hbefore, hcase⟩

end Termination

/-! ## Initialization -/

/-- Two solver objects are equal when all their members are. -/
theorem SupersonicPlate.eq_of_members {K S : Type} (p q : SupersonicPlate K S)
    (h1 : p.imax_ = q.imax_) (h2 : p.jmax_ = q.jmax_) (h3 : p.maxit = q.maxit)
    (h4 : p.flow_parameters_ = q.flow_parameters_) (h5 : p.deltax_ = q.deltax_)
    (h6 : p.deltay_ = q.deltay_) (h7 : p.fields = q.fields) (h8 : p.M_ = q.M_)
    (h9 : p.rho_old_ = q.rho_old_) (h10 : p.solver = q.solver) : p = q := by
  cases p
  cases q
  simp only at h1 h2 h3 h4 h5 h6 h7 h8 h9 h10
  subst h1 h2 h3 h4 h5 h6 h7 h8 h9 h10
  rfl

section Initialization

variable {K S : Type} [LinearOrderedField K]

/-- `InitializeFlowFliedVariables` as the three passes with named bodies. -/
theorem InitializeFlowFliedVariables_eq (p : SupersonicPlate K S) :
    InitializeFlowFliedVariables p =
      initLeadingEdge
        (forRange 1
          (forRange 0 p.imax_ (fun i q =>
            forRange 0 q.jmax_ (initNodeBody p.flow_parameters_ i) q) p).imax_
          (initWallBody p.flow_parameters_)
          (forRange 0 p.imax_ (fun i q =>
            forRange 0 q.jmax_ (initNodeBody p.flow_parameters_ i) q) p)) := rfl

/-- Closed form of the inner loop of the initialization in column `c`, run
from `lo` for `n` iterations. -/
theorem initNode_loop (fp : FlowParameters K) (c : Int) (n : Nat) (lo : Int)
    (p : SupersonicPlate K S) :
    forLoop (initNodeBody fp c) n lo p =
      { p with
        fields :=
          { T := fun i j => if i = c ∧ lo ≤ j ∧ j < lo + n then fp.T_inf
                            else p.fields.T i j
            P := fun i j => if i = c ∧ lo ≤ j ∧ j < lo + n then fp.P_inf
                            else p.fields.P i j
            rho := fun i j => if i = c ∧ lo ≤ j ∧ j < lo + n
                              then fp.P_inf / fp.T_inf / fp.R else p.fields.rho i j
            u := fun i j => if i = c ∧ lo ≤ j ∧ j < lo + n then fp.M_inf * fp.a_inf
                            else p.fields.u i j
            v := fun i j => if i = c ∧ lo ≤ j ∧ j < lo + n then 0 else p.fields.v i j
            e := fun i j => if i = c ∧ lo ≤ j ∧ j < lo + n then fp.cv * fp.T_inf
                            else p.fields.e i j }
        M_ := fun i j => if i = c ∧ lo ≤ j ∧ j < lo + n then fp.M_inf else p.M_ i j } := by
  induction n generalizing lo p with
  | zero =>
    simp only [forLoop]
    apply SupersonicPlate.eq_of_members <;> try rfl
    · ext : 1 <;> funext i j <;> simp only [Nat.cast_zero, add_zero] <;>
        split_ifs <;> first | rfl | omega
    · funext i j
      simp only [Nat.cast_zero, add_zero]
      split_ifs <;> first | rfl | omega
  | succ n ih =>
    simp only [forLoop, ih, initNodeBody]
    apply SupersonicPlate.eq_of_members <;> try rfl
    · ext : 1 <;> funext i j <;>
        simp only [Array2D.Set_apply, Nat.cast_add, Nat.cast_one] <;>
        split_ifs <;> first | rfl | omega
    · funext i j
      simp only [Array2D.Set_apply, Nat.cast_add, Nat.cast_one]
      split_ifs <;> first | rfl | omega

/-- Closed form of the inner loop `for (int j = 0; j < jmax_; j++)` of the
initialization in column `c`. -/
theorem initNode_range (fp : FlowParameters K) (c : Int) (p : SupersonicPlate K S) :
    forRange 0 p.jmax_ (initNodeBody fp c) p =
      { p with
        fields :=
          { T := fun i j => if i = c ∧ 0 ≤ j ∧ j < p.jmax_ then fp.T_inf
                            else p.fields.T i j
            P := fun i j => if i = c ∧ 0 ≤ j ∧ j < p.jmax_ then fp.P_inf
                            else p.fields.P i j
            rho := fun i j => if i = c ∧ 0 ≤ j ∧ j < p.jmax_
                              then fp.P_inf / fp.T_inf / fp.R else p.fields.rho i j
            u := fun i j => if i = c ∧ 0 ≤ j ∧ j < p.jmax_
                            then fp.M_inf * fp.a_inf else p.fields.u i j
            v := fun i j => if i = c ∧ 0 ≤ j ∧ j < p.jmax_ then 0 else p.fields.v i j
            e := fun i j => if i = c ∧ 0 ≤ j ∧ j < p.jmax_ then fp.cv * fp.T_inf
                            else p.fields.e i j }
        M_ := fun i j => if i = c ∧ 0 ≤ j ∧ j < p.jmax_ then fp.M_inf else p.M_ i j } := by
  rw [forRange, initNode_loop]
  apply SupersonicPlate.eq_of_members <;> try rfl
  · ext : 1 <;> funext i j <;> simp only <;> split_ifs <;> first | rfl | omega
  · funext i j
    simp only
    split_ifs <;> first | rfl | omega

/-- Closed form of the double loop of the initialization, the outer loop run
from `lo` for `n` iterations. -/
theorem initNode_rows_loop (fp : FlowParameters K) (n : Nat) (lo : Int)
    (p : SupersonicPlate K S) :
    forLoop (fun i q => forRange 0 q.jmax_ (initNodeBody fp i) q) n lo p =
      { p with
        fields :=
          { T := fun i j => if (lo ≤ i ∧ i < lo + n) ∧ 0 ≤ j ∧ j < p.jmax_ then fp.T_inf
                            else p.fields.T i j
            P := fun i j => if (lo ≤ i ∧ i < lo + n) ∧ 0 ≤ j ∧ j < p.jmax_ then fp.P_inf
                            else p.fields.P i j
            rho := fun i j => if (lo ≤ i ∧ i < lo + n) ∧ 0 ≤ j ∧ j < p.jmax_
                              then fp.P_inf / fp.T_inf / fp.R else p.fields.rho i j
            u := fun i j => if (lo ≤ i ∧ i < lo + n) ∧ 0 ≤ j ∧ j < p.jmax_
                            then fp.M_inf * fp.a_inf else p.fields.u i j
            v := fun i j => if (lo ≤ i ∧ i < lo + n) ∧ 0 ≤ j ∧ j < p.jmax_ then 0 else p.fields.v i j
            e := fun i j => if (lo ≤ i ∧ i < lo + n) ∧ 0 ≤ j ∧ j < p.jmax_ then fp.cv * fp.T_inf
                            else p.fields.e i j }
        M_ := fun i j => if (lo ≤ i ∧ i < lo + n) ∧ 0 ≤ j ∧ j < p.jmax_ then fp.M_inf else p.M_ i j } := by
  induction n generalizing lo p with
  | zero =>
    simp only [forLoop]
    apply SupersonicPlate.eq_of_members <;> try rfl
    · ext : 1 <;> funext i j <;> simp only [Nat.cast_zero, add_zero] <;>
        split_ifs <;> first | rfl | omega
    · funext i j
      simp only [Nat.cast_zero, add_zero]
      split_ifs <;> first | rfl | omega
  | succ n ih =>
    rw [forLoop, ih, initNode_range]
    apply SupersonicPlate.eq_of_members <;> try rfl
    · ext : 1 <;> funext i j <;> simp only [Nat.cast_add, Nat.cast_one] <;>
        split_ifs <;> first | rfl | omega
    · funext i j
      simp only [Nat.cast_add, Nat.cast_one]
      split_ifs <;> first | rfl | omega

/-- Closed form of the double loop of the initialization (lines 118-128):
every node of the grid holds the free-stream state. -/
theorem initNode_rows (fp : FlowParameters K) (p : SupersonicPlate K S) :
    forRange 0 p.imax_ (fun i q => forRange 0 q.jmax_ (initNodeBody fp i) q) p =
      { p with
        fields :=
          { T := fun i j => if (0 ≤ i ∧ i < p.imax_) ∧ 0 ≤ j ∧ j < p.jmax_ then fp.T_inf
                            else p.fields.T i j
            P := fun i j => if (0 ≤ i ∧ i < p.imax_) ∧ 0 ≤ j ∧ j < p.jmax_ then fp.P_inf
                            else p.fields.P i j
            rho := fun i j => if (0 ≤ i ∧ i < p.imax_) ∧ 0 ≤ j ∧ j < p.jmax_
                              then fp.P_inf / fp.T_inf / fp.R else p.fields.rho i j
            u := fun i j => if (0 ≤ i ∧ i < p.imax_) ∧ 0 ≤ j ∧ j < p.jmax_
                            then fp.M_inf * fp.a_inf else p.fields.u i j
            v := fun i j => if (0 ≤ i ∧ i < p.imax_) ∧ 0 ≤ j ∧ j < p.jmax_ then 0 else p.fields.v i j
            e := fun i j => if (0 ≤ i ∧ i < p.imax_) ∧ 0 ≤ j ∧ j < p.jmax_ then fp.cv * fp.T_inf
                            else p.fields.e i j }
        M_ := fun i j => if (0 ≤ i ∧ i < p.imax_) ∧ 0 ≤ j ∧ j < p.jmax_ then fp.M_inf else p.M_ i j } := by
  rw [forRange, initNode_rows_loop]
  apply SupersonicPlate.eq_of_members <;> try rfl
  · ext : 1 <;> funext i j <;> simp only <;> split_ifs <;> first | rfl | omega
  · funext i j
    simp only
    split_ifs <;> first | rfl | omega

/-- Closed form of the wall loop of the initialization, run from `lo` for `n`
iterations; the pressure is not written. -/
theorem initWall_loop (fp : FlowParameters K) (n : Nat) (lo : Int)
    (p : SupersonicPlate K S) :
    forLoop (initWallBody fp) n lo p =
      { p with
        fields :=
          { T := fun i j => if j = 0 ∧ lo ≤ i ∧ i < lo + n then fp.T_wall
                            else p.fields.T i j
            P := p.fields.P
            rho := fun i j => if j = 0 ∧ lo ≤ i ∧ i < lo + n
                              then fp.P_inf / fp.T_wall / fp.R else p.fields.rho i j
            u := fun i j => if j = 0 ∧ lo ≤ i ∧ i < lo + n then 0 else p.fields.u i j
            v := fun i j => if j = 0 ∧ lo ≤ i ∧ i < lo + n then 0 else p.fields.v i j
            e := fun i j => if j = 0 ∧ lo ≤ i ∧ i < lo + n then fp.cv * fp.T_wall
                            else p.fields.e i j }
        M_ := fun i j => if j = 0 ∧ lo ≤ i ∧ i < lo + n then 0 else p.M_ i j } := by
  induction n generalizing lo p with
  | zero =>
    simp only [forLoop]
    apply SupersonicPlate.eq_of_members <;> try rfl
    · ext : 1 <;> funext i j <;> simp only [Nat.cast_zero, add_zero] <;>
        split_ifs <;> first | rfl | omega
    · funext i j
      simp only [Nat.cast_zero, add_zero]
      split_ifs <;> first | rfl | omega
  | succ n ih =>
    simp only [forLoop, ih, initWallBody]
    apply SupersonicPlate.eq_of_members <;> try rfl
    · ext : 1 <;> funext i j <;>
        simp only [Array2D.Set_apply, Array2D.Get_apply, Nat.cast_add, Nat.cast_one,
          and_self, if_true] <;>
        split_ifs <;> first | rfl | omega
    · funext i j
      simp only [Array2D.Set_apply, Nat.cast_add, Nat.cast_one]
      split_ifs <;> first | rfl | omega

/-- Closed form of the wall loop `for (int i = 1; i < imax_; i++)` of the
initialization. -/
theorem initWall_range (fp : FlowParameters K) (imax : Int) (p : SupersonicPlate K S) :
    forRange 1 imax (initWallBody fp) p =
      { p with
        fields :=
          { T := fun i j => if j = 0 ∧ 1 ≤ i ∧ i < imax then fp.T_wall
                            else p.fields.T i j
            P := p.fields.P
            rho := fun i j => if j = 0 ∧ 1 ≤ i ∧ i < imax
                              then fp.P_inf / fp.T_wall / fp.R else p.fields.rho i j
            u := fun i j => if j = 0 ∧ 1 ≤ i ∧ i < imax then 0 else p.fields.u i j
            v := fun i j => if j = 0 ∧ 1 ≤ i ∧ i < imax then 0 else p.fields.v i j
            e := fun i j => if j = 0 ∧ 1 ≤ i ∧ i < imax then fp.cv * fp.T_wall
                            else p.fields.e i j }
        M_ := fun i j => if j = 0 ∧ 1 ≤ i ∧ i < imax then 0 else p.M_ i j } := by
  rw [forRange, initWall_loop]
  apply SupersonicPlate.eq_of_members <;> try rfl
  · ext : 1 <;> funext i j <;> simp only <;> split_ifs <;> first | rfl | omega
  · funext i j
    simp only
    split_ifs <;> first | rfl | omega

/-- C12: after `InitializeFlowFliedVariables` on a grid with `imax ≥ 1` and
`jmax ≥ 1`, every node with `j ≥ 1` holds the free-stream state (`T = T_inf`,
`P = P_inf`, `rho = P_inf/T_inf/R`, `u = M_inf*a_inf`, `v = 0`, `M = M_inf`,
`e = cv*T_inf`); every wall node `(i, 0)`, `i ≥ 1`, holds `u = v = M = 0`,
`T = T_wall`, `P = P_inf`, `rho = P_inf/T_wall/R`, `e = cv*T_wall`; and the
leading-edge node `(0, 0)` holds `u = v = M = 0` with free-stream `T`, `P`,
`rho` and `e`. -/
theorem InitializeFlowFliedVariables_values (p : SupersonicPlate K S)
    (himax : 1 ≤ p.imax_) (hjmax : 1 ≤ p.jmax_) :
    (∀ i j : Int, 0 ≤ i → i < p.imax_ → 1 ≤ j → j < p.jmax_ →
      (InitializeFlowFliedVariables p).fields.T.Get i j = p.flow_parameters_.T_inf ∧
      (InitializeFlowFliedVariables p).fields.P.Get i j = p.flow_parameters_.P_inf ∧
      (InitializeFlowFliedVariables p).fields.rho.Get i j =
        p.flow_parameters_.P_inf / p.flow_parameters_.T_inf / p.flow_parameters_.R ∧
      (InitializeFlowFliedVariables p).fields.u.Get i j =
        p.flow_parameters_.M_inf * p.flow_parameters_.a_inf ∧
      (InitializeFlowFliedVariables p).fields.v.Get i j = 0 ∧
      (InitializeFlowFliedVariables p).M_.Get i j = p.flow_parameters_.M_inf ∧
      (InitializeFlowFliedVariables p).fields.e.Get i j =
        p.flow_parameters_.cv * p.flow_parameters_.T_inf) ∧
    (∀ i : Int, 1 ≤ i → i < p.imax_ →
      (InitializeFlowFliedVariables p).fields.u.Get i 0 = 0 ∧
      (InitializeFlowFliedVariables p).fields.v.Get i 0 = 0 ∧
      (InitializeFlowFliedVariables p).M_.Get i 0 = 0 ∧
      (InitializeFlowFliedVariables p).fields.T.Get i 0 = p.flow_parameters_.T_wall ∧
      (InitializeFlowFliedVariables p).fields.P.Get i 0 = p.flow_parameters_.P_inf ∧
      (InitializeFlowFliedVariables p).fields.rho.Get i 0 =
        p.flow_parameters_.P_inf / p.flow_parameters_.T_wall / p.flow_parameters_.R ∧
      (InitializeFlowFliedVariables p).fields.e.Get i 0 =
        p.flow_parameters_.cv * p.flow_parameters_.T_wall) ∧
    ((InitializeFlowFliedVariables p).fields.u.Get 0 0 = 0 ∧
      (InitializeFlowFliedVariables p).fields.v.Get 0 0 = 0 ∧
      (InitializeFlowFliedVariables p).M_.Get 0 0 = 0 ∧
      (InitializeFlowFliedVariables p).fields.T.Get 0 0 = p.flow_parameters_.T_inf ∧
      (InitializeFlowFliedVariables p).fields.P.Get 0 0 = p.flow_parameters_.P_inf ∧
      (InitializeFlowFliedVariables p).fields.rho.Get 0 0 =
        p.flow_parameters_.P_inf / p.flow_parameters_.T_inf / p.flow_parameters_.R ∧
      (InitializeFlowFliedVariables p).fields.e.Get 0 0 =
        p.flow_parameters_.cv * p.flow_parameters_.T_inf) := by
  rw [InitializeFlowFliedVariables_eq, initNode_rows, initWall_range]
  simp only [initLeadingEdge, Array2D.Set_apply, Array2D.Get_apply]
  refine ⟨fun i j hi0 hi1 hj0 hj1 => ?_, fun i hi0 hi1 => ?_, ?_⟩
  · refine ⟨?_, ?_, ?_, ?_, ?_, ?_, ?_⟩ <;> split_ifs <;> first | rfl | omega
  · refine ⟨?_, ?_, ?_, ?_, ?_, ?_, ?_⟩ <;> split_ifs <;>
      first | rfl | omega | (exfalso; simp_all)
  · refine ⟨?_, ?_, ?_, ?_, ?_, ?_, ?_⟩ <;> split_ifs <;>
      first | rfl | omega | (exfalso; simp_all)

end Initialization

/-! ## The initial state and the boundary enforcer -/

section InitialState

variable {K : Type} [Field K]

/-- A state that holds the values written by the initialization on the nodes
of a grid with `imax ≥ 4` and `jmax ≥ 3` is left unchanged by
`BoundaryConditions` at every node. -/
theorem BoundaryConditions_fixed_of_values (imax jmax : Int) (params : FlowParameters K)
    (s : Fields K) (himax : 4 ≤ imax) (hjmax : 3 ≤ jmax)
    (h_fs : ∀ i j : Int, 0 ≤ i → i < imax → 1 ≤ j → j < jmax →
      s.u i j = params.M_inf * params.a_inf ∧
      s.v i j = 0 ∧
      s.rho i j = params.P_inf / params.T_inf / params.R ∧
      s.P i j = params.P_inf ∧
      s.T i j = params.T_inf ∧
      s.e i j = params.cv * params.T_inf)
    (h_wall : ∀ i : Int, 1 ≤ i → i < imax →
      s.u i 0 = 0 ∧
      s.v i 0 = 0 ∧
      s.rho i 0 = params.P_inf / params.T_wall / params.R ∧
      s.P i 0 = params.P_inf ∧
      s.T i 0 = params.T_wall ∧
      s.e i 0 = params.cv * params.T_wall)
    (h_le :
      s.u 0 0 = 0 ∧
      s.v 0 0 = 0 ∧
      s.rho 0 0 = params.P_inf / params.T_inf / params.R ∧
      s.P 0 0 = params.P_inf ∧
      s.T 0 0 = params.T_inf ∧
      s.e 0 0 = params.cv * params.T_inf) :
    ∀ i j : Int, 0 ≤ i → i < imax → 0 ≤ j → j < jmax →
      (BoundaryConditions imax jmax params s).u i j = s.u i j ∧
      (BoundaryConditions imax jmax params s).v i j = s.v i j ∧
      (BoundaryConditions imax jmax params s).rho i j = s.rho i j ∧
      (BoundaryConditions imax jmax params s).P i j = s.P i j ∧
      (BoundaryConditions imax jmax params s).T i j = s.T i j ∧
      (BoundaryConditions imax jmax params s).e i j = s.e i j := by
  have hI : ∀ i j : Int, 0 ≤ i → i < imax → 0 ≤ j → j < jmax →
      (afterInflow jmax params s).u i j = s.u i j ∧
      (afterInflow jmax params s).v i j = s.v i j ∧
      (afterInflow jmax params s).rho i j = s.rho i j ∧
      (afterInflow jmax params s).P i j = s.P i j ∧
      (afterInflow jmax params s).T i j = s.T i j ∧
      (afterInflow jmax params s).e i j = s.e i j := by
    intro i j hi0 hi1 hj0 hj1
    by_cases hi : i = 0
    · subst hi
      by_cases hj : j = 0
      · subst hj
        obtain ⟨a1, a2, a3, a4, a5, a6⟩ := afterInflow_leadingEdge jmax params s
        obtain ⟨b1, b2, b3, b4, b5, b6⟩ := h_le
        rw [a1, a2, a3, a4, a5, a6, b1, b2, b3, b4, b5, b6]
        refine ⟨?_, ?_, ?_, ?_, ?_, ?_⟩ <;> ring
      · obtain ⟨a1, a2, a3, a4, a5, a6⟩ := afterInflow_inflow jmax params s j (by omega)
        obtain ⟨b1, b2, b3, b4, b5, b6⟩ := h_fs 0 j (le_refl 0) hi1 (by omega) hj1
        rw [a1, a2, a3, a4, a5, a6, b1, b2, b3, b4, b5, b6]
        refine ⟨?_, ?_, ?_, ?_, ?_, ?_⟩ <;> ring
    · exact afterInflow_frame jmax params s i j (Or.inl hi)
  have hF : ∀ i j : Int, 0 ≤ i → i < imax → 0 ≤ j → j < jmax →
      (afterFarField imax jmax params s).u i j = s.u i j ∧
      (afterFarField imax jmax params s).v i j = s.v i j ∧
      (afterFarField imax jmax params s).rho i j = s.rho i j ∧
      (afterFarField imax jmax params s).P i j = s.P i j ∧
      (afterFarField imax jmax params s).T i j = s.T i j ∧
      (afterFarField imax jmax params s).e i j = s.e i j := by
    intro i j hi0 hi1 hj0 hj1
    by_cases hj : j = jmax - 1
    · subst hj
      obtain ⟨a1, a2, a3, a4, a5, a6⟩ := afterFarField_far imax jmax params s i ⟨hi0, hi1⟩
      obtain ⟨b1, b2, b3, b4, b5, b6⟩ := h_fs i (jmax - 1) hi0 hi1 (by omega) hj1
      rw [a1, a2, a3, a4, a5, a6, b1, b2, b3, b4, b5, b6]
      refine ⟨?_, ?_, ?_, ?_, ?_, ?_⟩ <;> ring
    · obtain ⟨a1, a2, a3, a4, a5, a6⟩ := afterFarField_frame imax jmax params s i j (Or.inl hj)
      obtain ⟨b1, b2, b3, b4, b5, b6⟩ := hI i j hi0 hi1 hj0 hj1
      exact ⟨a1.trans b1, a2.trans b2, a3.trans b3, a4.trans b4, a5.trans b5, a6.trans b6⟩
  have hW : ∀ i j : Int, 0 ≤ i → i < imax → 0 ≤ j → j < jmax →
      (afterWall imax jmax params s).u i j = s.u i j ∧
      (afterWall imax jmax params s).v i j = s.v i j ∧
      (afterWall imax jmax params s).rho i j = s.rho i j ∧
      (afterWall imax jmax params s).P i j = s.P i j ∧
      (afterWall imax jmax params s).T i j = s.T i j ∧
      (afterWall imax jmax params s).e i j = s.e i j := by
    intro i j hi0 hi1 hj0 hj1
    by_cases hw : j = 0 ∧ 1 ≤ i
    · obtain ⟨hj, hi⟩ := hw
      subst hj
      obtain ⟨a1, a2, a3, a4, a5, a6⟩ := afterWall_wall imax jmax params s i ⟨hi, hi1⟩
      obtain ⟨b1, b2, b3, b4, b5, b6⟩ := h_wall i hi hi1
      have e1 := (hF i 1 hi0 hi1 (by omega) (by omega)).2.2.2.1
      have e2 := (hF i 2 hi0 hi1 (by omega) (by omega)).2.2.2.1
      have f1 := (h_fs i 1 hi0 hi1 (by omega) (by omega)).2.2.2.1
      have f2 := (h_fs i 2 hi0 hi1 (by omega) (by omega)).2.2.2.1
      rw [a1, a2, a3, a4, a5, a6, b1, b2, b3, b4, b5, b6, e1, e2, f1, f2]
      refine ⟨?_, ?_, ?_, ?_, ?_, ?_⟩ <;> ring
    · obtain ⟨a1, a2, a3, a4, a5, a6⟩ := afterWall_frame imax jmax params s i j (by omega)
      obtain ⟨b1, b2, b3, b4, b5, b6⟩ := hF i j hi0 hi1 hj0 hj1
      exact ⟨a1.trans b1, a2.trans b2, a3.trans b3, a4.trans b4, a5.trans b5, a6.trans b6⟩
  intro i j hi0 hi1 hj0 hj1
  by_cases hlast : i = imax - 1
  · subst hlast
    obtain ⟨a1, a2, a3, a4, a5, a6⟩ := BoundaryConditions_outflow imax jmax params s j ⟨hj0, hj1⟩
    obtain ⟨b1, b2, b3, b4, b5, b6⟩ := hW (imax - 2) j (by omega) (by omega) hj0 hj1
    obtain ⟨c1, c2, c3, c4, c5, c6⟩ := hW (imax - 3) j (by omega) (by omega) hj0 hj1
    rw [a1, a2, a3, a4, a5, a6, b1, b2, b3, b4, b5, b6, c1, c2, c3, c4, c5, c6]
    by_cases hj : j = 0
    · subst hj
      obtain ⟨a1, a2, a3, a4, a5, a6⟩ := h_wall (imax - 1) (by omega) (by omega)
      obtain ⟨b1, b2, b3, b4, b5, b6⟩ := h_wall (imax - 2) (by omega) (by omega)
      obtain ⟨c1, c2, c3, c4, c5, c6⟩ := h_wall (imax - 3) (by omega) (by omega)
      rw [a1, a2, a3, a4, a5, a6, b1, b2, b3, b4, b5, b6, c1, c2, c3, c4, c5, c6]
      refine ⟨?_, ?_, ?_, ?_, ?_, ?_⟩ <;> ring
    · obtain ⟨a1, a2, a3, a4, a5, a6⟩ := h_fs (imax - 1) j (by omega) (by omega) (by omega) hj1
      obtain ⟨b1, b2, b3, b4, b5, b6⟩ := h_fs (imax - 2) j (by omega) (by omega) (by omega) hj1
      obtain ⟨c1, c2, c3, c4, c5, c6⟩ := h_fs (imax - 3) j (by omega) (by omega) (by omega) hj1
      rw [a1, a2, a3, a4, a5, a6, b1, b2, b3, b4, b5, b6, c1, c2, c3, c4, c5, c6]
      refine ⟨?_, ?_, ?_, ?_, ?_, ?_⟩ <;> ring
  · obtain ⟨a1, a2, a3, a4, a5, a6⟩ := BoundaryConditions_frame imax jmax params s i j (Or.inl hlast)
    obtain ⟨b1, b2, b3, b4, b5, b6⟩ := hW i j hi0 hi1 hj0 hj1
    exact ⟨a1.trans b1, a2.trans b2, a3.trans b3, a4.trans b4, a5.trans b5, a6.trans b6⟩

end InitialState

section InitialStateDriver

variable {K S : Type} [LinearOrderedField K]

/-- The six fields written by the initialization, node by node. -/
theorem InitializeFlowFliedVariables_fields (p : SupersonicPlate K S)
    (himax : 1 ≤ p.imax_) (hjmax : 1 ≤ p.jmax_) :
    (∀ i j : Int, 0 ≤ i → i < p.imax_ → 1 ≤ j → j < p.jmax_ →
      (InitializeFlowFliedVariables p).fields.u i j =
        p.flow_parameters_.M_inf * p.flow_parameters_.a_inf ∧
      (InitializeFlowFliedVariables p).fields.v i j =
        0 ∧
      (InitializeFlowFliedVariables p).fields.rho i j =
        p.flow_parameters_.P_inf / p.flow_parameters_.T_inf / p.flow_parameters_.R ∧
      (InitializeFlowFliedVariables p).fields.P i j =
        p.flow_parameters_.P_inf ∧
      (InitializeFlowFliedVariables p).fields.T i j =
        p.flow_parameters_.T_inf ∧
      (InitializeFlowFliedVariables p).fields.e i j =
        p.flow_parameters_.cv * p.flow_parameters_.T_inf) ∧
    (∀ i : Int, 1 ≤ i → i < p.imax_ →
      (InitializeFlowFliedVariables p).fields.u i 0 =
        0 ∧
      (InitializeFlowFliedVariables p).fields.v i 0 =
        0 ∧
      (InitializeFlowFliedVariables p).fields.rho i 0 =
        p.flow_parameters_.P_inf / p.flow_parameters_.T_wall / p.flow_parameters_.R ∧
      (InitializeFlowFliedVariables p).fields.P i 0 =
        p.flow_parameters_.P_inf ∧
      (InitializeFlowFliedVariables p).fields.T i 0 =
        p.flow_parameters_.T_wall ∧
      (InitializeFlowFliedVariables p).fields.e i 0 =
        p.flow_parameters_.cv * p.flow_parameters_.T_wall) ∧
    ((InitializeFlowFliedVariables p).fields.u 0 0 =
        0 ∧
      (InitializeFlowFliedVariables p).fields.v 0 0 =
        0 ∧
      (InitializeFlowFliedVariables p).fields.rho 0 0 =
        p.flow_parameters_.P_inf / p.flow_parameters_.T_inf / p.flow_parameters_.R ∧
      (InitializeFlowFliedVariables p).fields.P 0 0 =
        p.flow_parameters_.P_inf ∧
      (InitializeFlowFliedVariables p).fields.T 0 0 =
        p.flow_parameters_.T_inf ∧
      (InitializeFlowFliedVariables p).fields.e 0 0 =
        p.flow_parameters_.cv * p.flow_parameters_.T_inf) := by
  rw [InitializeFlowFliedVariables_eq, initNode_rows, initWall_range]
  simp only [initLeadingEdge, Array2D.Set_apply]
  refine ⟨fun i j hi0 hi1 hj0 hj1 => ?_, fun i hi0 hi1 => ?_, ?_⟩
  · refine ⟨?_, ?_, ?_, ?_, ?_, ?_⟩ <;> split_ifs <;> first | rfl | omega
  · refine ⟨?_, ?_, ?_, ?_, ?_, ?_⟩ <;> split_ifs <;>
      first | rfl | omega | (exfalso; simp_all)
  · refine ⟨?_, ?_, ?_, ?_, ?_, ?_⟩ <;> split_ifs <;>
      first | rfl | omega | (exfalso; simp_all)

/-- The Mach-number field written by the initialization, node by node. -/
theorem InitializeFlowFliedVariables_M (p : SupersonicPlate K S) :
    (∀ i j : Int, 0 ≤ i → i < p.imax_ → 1 ≤ j → j < p.jmax_ →
      (InitializeFlowFliedVariables p).M_ i j = p.flow_parameters_.M_inf) ∧
    (∀ i : Int, 0 ≤ i → i < p.imax_ → (InitializeFlowFliedVariables p).M_ i 0 = 0) := by
  rw [InitializeFlowFliedVariables_eq, initNode_rows, initWall_range]
  simp only [initLeadingEdge, Array2D.Set_apply]
  refine ⟨fun i j hi0 hi1 hj0 hj1 => ?_, fun i hi0 hi1 => ?_⟩
  · split_ifs <;> first | rfl | omega
  · split_ifs <;> first | rfl | omega | (exfalso; simp_all; omega)

/-- C14: for `imax ≥ 4` and `jmax ≥ 3` and any flow parameters, applying
`BoundaryConditions` to the state produced by `InitializeFlowFliedVariables`
leaves `u`, `v`, `rho`, `P`, `T` and `e` unchanged at every node. -/
theorem BoundaryConditions_initial_fixed (p : SupersonicPlate K S)
    (himax : 4 ≤ p.imax_) (hjmax : 3 ≤ p.jmax_) (i j : Int)
    (hi : 0 ≤ i ∧ i < p.imax_) (hj : 0 ≤ j ∧ j < p.jmax_) :
    (BoundaryConditions p.imax_ p.jmax_ p.flow_parameters_
        (InitializeFlowFliedVariables p).fields).u.Get i j =
      (InitializeFlowFliedVariables p).fields.u.Get i j ∧
    (BoundaryConditions p.imax_ p.jmax_ p.flow_parameters_
        (InitializeFlowFliedVariables p).fields).v.Get i j =
      (InitializeFlowFliedVariables p).fields.v.Get i j ∧
    (BoundaryConditions p.imax_ p.jmax_ p.flow_parameters_
        (InitializeFlowFliedVariables p).fields).rho.Get i j =
      (InitializeFlowFliedVariables p).fields.rho.Get i j ∧
    (BoundaryConditions p.imax_ p.jmax_ p.flow_parameters_
        (InitializeFlowFliedVariables p).fields).P.Get i j =
      (InitializeFlowFliedVariables p).fields.P.Get i j ∧
    (BoundaryConditions p.imax_ p.jmax_ p.flow_parameters_
        (InitializeFlowFliedVariables p).fields).T.Get i j =
      (InitializeFlowFliedVariables p).fields.T.Get i j ∧
    (BoundaryConditions p.imax_ p.jmax_ p.flow_parameters_
        (InitializeFlowFliedVariables p).fields).e.Get i j =
      (InitializeFlowFliedVariables p).fields.e.Get i j := by
  obtain ⟨h_fs, h_wall, h_le⟩ :=
    InitializeFlowFliedVariables_fields p (by omega) (by omega)
  exact BoundaryConditions_fixed_of_values p.imax_ p.jmax_ p.flow_parameters_
    (InitializeFlowFliedVariables p).fields himax hjmax h_fs h_wall h_le i j
    hi.1 hi.2 hj.1 hj.2

/-- The loop of `Run` never writes the Mach-number field. -/
theorem RunLoop_M (env : Collaborators K S) (mod : Int) (n : Nat) (it : Int)
    (q : SupersonicPlate K S) (out : List (ConsoleEvent K)) :
    (RunLoop env mod n it q out).plate.M_ = q.M_ := by
  induction n generalizing it q out with
  | zero => rfl
  | succ n ih =>
    cases hc : (RunIteration env q).2.1
    · rw [RunLoop_continue env mod n it q out hc, ih]
      rfl
    · rw [RunLoop_break env mod n it q out hc]
      rfl

/-- C16: the Mach-number field is never updated after the initialization:
an iteration of `Run` and the whole loop leave `M_` as it is (the
collaborators and `BoundaryConditions` receive only `u`, `v`, `rho`, `P`,
`T`, `e`), so when `Run` returns `M = M_inf` at every node with `j ≥ 1` and
`M = 0` on the wall row and the leading edge, whatever the collaborators do. -/
theorem Mach_never_updated (env : Collaborators K S) (p : SupersonicPlate K S) :
    (∀ q : SupersonicPlate K S, (RunIteration env q).1.M_ = q.M_) ∧
    (∀ (mod : Int) (n : Nat) (it : Int) (q : SupersonicPlate K S)
      (out : List (ConsoleEvent K)), (RunLoop env mod n it q out).plate.M_ = q.M_) ∧
    (Run env p).1.plate.M_ = (InitializeFlowFliedVariables p).M_ ∧
    (∀ i j : Int, 0 ≤ i → i < p.imax_ → 1 ≤ j → j < p.jmax_ →
      (Run env p).1.plate.M_.Get i j = p.flow_parameters_.M_inf) ∧
    (∀ i : Int, 0 ≤ i → i < p.imax_ → (Run env p).1.plate.M_.Get i 0 = 0) := by
  have hrun : (Run env p).1.plate.M_ = (InitializeFlowFliedVariables p).M_ :=
    RunLoop_M env 1 _ 0 (InitializeFlowFliedVariables p) []
  obtain ⟨h1, h2⟩ := InitializeFlowFliedVariables_M p
  refine ⟨fun _ => rfl, RunLoop_M env, hrun, fun i j hi0 hi1 hj0 hj1 => ?_,
    fun i hi0 hi1 => ?_⟩
  · rw [hrun]
    exact h1 i j hi0 hi1 hj0 hj1
  · rw [hrun]
    exact h2 i hi0 hi1

end InitialStateDriver

/-! ## The constructor -/

section ConstructorClaims

variable {K S : Type} [LinearOrderedField K]

/-- C13: the flow parameters built by the constructor have non-dimensional
free-stream pressure `P_inf = 1` and temperature `T_inf = 1` (each dimensional
value divided by itself), for every non-zero dimensional `P_inf` and `T_inf`,
hence `T_wall = 1`; in particular for the constants `101325` and `288.16` of
the constructor. -/
theorem constructor_unit_free_stream (sqrt : K → K)
    (ViscositySutherlandLaw : FlowParameters K → K → K) (fp0 : FlowParameters K)
    (M_inf a_inf plate_length R P_inf T_inf : K) (hP : P_inf ≠ 0) (hT : T_inf ≠ 0) :
    ((constructFlowParameters sqrt ViscositySutherlandLaw fp0 M_inf a_inf plate_length R
        P_inf T_inf).P_inf = 1 ∧
      (constructFlowParameters sqrt ViscositySutherlandLaw fp0 M_inf a_inf plate_length R
        P_inf T_inf).T_inf = 1 ∧
      (constructFlowParameters sqrt ViscositySutherlandLaw fp0 M_inf a_inf plate_length R
        P_inf T_inf).T_wall = 1) ∧
    ∀ (newArray : Int → Int → Array2D K) (solver0 : S) (rho_old0 : Array2D K),
      (SupersonicPlate.construct sqrt ViscositySutherlandLaw fp0 newArray solver0
        rho_old0).flow_parameters_.P_inf = 1 ∧
      (SupersonicPlate.construct sqrt ViscositySutherlandLaw fp0 newArray solver0
        rho_old0).flow_parameters_.T_inf = 1 ∧
      (SupersonicPlate.construct sqrt ViscositySutherlandLaw fp0 newArray solver0
        rho_old0).flow_parameters_.T_wall = 1 := by
  constructor
  · simp only [constructFlowParameters]
    exact ⟨div_self hP, div_self hT, div_self hT⟩
  · intro newArray solver0 rho_old0
    simp only [SupersonicPlate.construct, constructFlowParameters]
    have h1 : (101325 : K) ≠ 0 := by norm_num
    have h2 : (288.16 : K) ≠ 0 := by norm_num
    exact ⟨div_self h1, div_self h2, div_self h2⟩

end ConstructorClaims

/-! ## Dependence of the boundary enforcer on its input -/

section Dependence

variable {K : Type} [Field K]

/-- A node `(i, j)` with `i ≥ 1` and `1 ≤ j ≤ jmax - 2` is as in the input
after the wall pass. -/
theorem afterWall_interior (imax jmax : Int) (params : FlowParameters K) (s : Fields K)
    (i j : Int) (hi : 1 ≤ i) (hj : 1 ≤ j ∧ j ≤ jmax - 2) :
    (afterWall imax jmax params s).u i j = (s).u i j ∧
      (afterWall imax jmax params s).v i j = (s).v i j ∧
      (afterWall imax jmax params s).rho i j = (s).rho i j ∧
      (afterWall imax jmax params s).P i j = (s).P i j ∧
      (afterWall imax jmax params s).T i j = (s).T i j ∧
      (afterWall imax jmax params s).e i j = (s).e i j := by
  obtain ⟨a1, a2, a3, a4, a5, a6⟩ := afterWall_frame imax jmax params s i j (Or.inl (by omega))
  obtain ⟨b1, b2, b3, b4, b5, b6⟩ := afterFarField_frame imax jmax params s i j (Or.inl (by omega))
  obtain ⟨c1, c2, c3, c4, c5, c6⟩ := afterInflow_frame jmax params s i j (Or.inl (by omega))
  exact ⟨a1.trans (b1.trans c1), a2.trans (b2.trans c2), a3.trans (b3.trans c3),
    a4.trans (b4.trans c4), a5.trans (b5.trans c5), a6.trans (b6.trans c6)⟩

/-- The pressure in rows `1` and `2` after the far-field pass, in a column
`1 ≤ i ≤ imax - 2`, depends only on the interior of the input (`jmax ≥ 3`). -/
theorem afterFarField_P_congr (imax jmax : Int) (params : FlowParameters K)
    (s t : Fields K) (hjmax : 3 ≤ jmax)
    (hst : ∀ i j : Int, 1 ≤ i → i ≤ imax - 2 → 1 ≤ j → j ≤ jmax - 2 →
      s.u i j = t.u i j ∧ s.v i j = t.v i j ∧ s.rho i j = t.rho i j ∧
      s.P i j = t.P i j ∧ s.T i j = t.T i j ∧ s.e i j = t.e i j)
    (i : Int) (hi : 1 ≤ i ∧ i ≤ imax - 2) :
    (afterFarField imax jmax params s).P i 1 = (afterFarField imax jmax params t).P i 1 ∧
    (afterFarField imax jmax params s).P i 2 = (afterFarField imax jmax params t).P i 2 := by
  constructor
  · rw [(afterFarField_frame imax jmax params s i 1 (Or.inl (by omega))).2.2.2.1,
      (afterFarField_frame imax jmax params t i 1 (Or.inl (by omega))).2.2.2.1,
      (afterInflow_frame jmax params s i 1 (Or.inl (by omega))).2.2.2.1,
      (afterInflow_frame jmax params t i 1 (Or.inl (by omega))).2.2.2.1]
    exact (hst i 1 hi.1 hi.2 (le_refl 1) (by omega)).2.2.2.1
  · by_cases h3 : jmax = 3
    · have h2 : (2 : Int) = jmax - 1 := by omega
      rw [h2, (afterFarField_far imax jmax params s i (by omega)).2.2.2.1,
        (afterFarField_far imax jmax params t i (by omega)).2.2.2.1]
    · rw [(afterFarField_frame imax jmax params s i 2 (Or.inl (by omega))).2.2.2.1,
        (afterFarField_frame imax jmax params t i 2 (Or.inl (by omega))).2.2.2.1,
        (afterInflow_frame jmax params s i 2 (Or.inl (by omega))).2.2.2.1,
        (afterInflow_frame jmax params t i 2 (Or.inl (by omega))).2.2.2.1]
      exact (hst i 2 hi.1 hi.2 (by omega) (by omega)).2.2.2.1

/-- After the wall pass, every node in columns `0 .. imax - 2` depends only on
the interior of the input and on the parameters (`jmax ≥ 3`). -/
theorem afterWall_congr (imax jmax : Int) (params : FlowParameters K)
    (s t : Fields K) (hjmax : 3 ≤ jmax)
    (hst : ∀ i j : Int, 1 ≤ i → i ≤ imax - 2 → 1 ≤ j → j ≤ jmax - 2 →
      s.u i j = t.u i j ∧ s.v i j = t.v i j ∧ s.rho i j = t.rho i j ∧
      s.P i j = t.P i j ∧ s.T i j = t.T i j ∧ s.e i j = t.e i j)
    (i j : Int) (hi : 0 ≤ i ∧ i ≤ imax - 2) (hj : 0 ≤ j ∧ j < jmax) :
    (afterWall imax jmax params s).u i j = (afterWall imax jmax params t).u i j ∧
      (afterWall imax jmax params s).v i j = (afterWall imax jmax params t).v i j ∧
      (afterWall imax jmax params s).rho i j = (afterWall imax jmax params t).rho i j ∧
      (afterWall imax jmax params s).P i j = (afterWall imax jmax params t).P i j ∧
      (afterWall imax jmax params s).T i j = (afterWall imax jmax params t).T i j ∧
      (afterWall imax jmax params s).e i j = (afterWall imax jmax params t).e i j := by
  by_cases hi0 : i = 0
  · subst hi0
    by_cases hj0 : j = 0
    · subst hj0
      obtain ⟨a1, a2, a3, a4, a5, a6⟩ := afterWall_leadingEdge imax jmax params s (by omega)
      obtain ⟨b1, b2, b3, b4, b5, b6⟩ := afterWall_leadingEdge imax jmax params t (by omega)
      rw [a1, a2, a3, a4, a5, a6, b1, b2, b3, b4, b5, b6]
      exact ⟨rfl, rfl, rfl, rfl, rfl, rfl⟩
    · obtain ⟨a1, a2, a3, a4, a5, a6⟩ := afterWall_inflow imax jmax params s j (by omega)
      obtain ⟨b1, b2, b3, b4, b5, b6⟩ := afterWall_inflow imax jmax params t j (by omega)
      rw [a1, a2, a3, a4, a5, a6, b1, b2, b3, b4, b5, b6]
      exact ⟨rfl, rfl, rfl, rfl, rfl, rfl⟩
  · by_cases hfar : j = jmax - 1
    · subst hfar
      obtain ⟨a1, a2, a3, a4, a5, a6⟩ := afterWall_far imax jmax params s i (by omega) (by omega)
      obtain ⟨b1, b2, b3, b4, b5, b6⟩ := afterWall_far imax jmax params t i (by omega) (by omega)
      rw [a1, a2, a3, a4, a5, a6, b1, b2, b3, b4, b5, b6]
      exact ⟨rfl, rfl, rfl, rfl, rfl, rfl⟩
    · by_cases hj0 : j = 0
      · subst hj0
        obtain ⟨a1, a2, a3, a4, a5, a6⟩ := afterWall_wall imax jmax params s i (by omega)
        obtain ⟨b1, b2, b3, b4, b5, b6⟩ := afterWall_wall imax jmax params t i (by omega)
        obtain ⟨e1, e2⟩ := afterFarField_P_congr imax jmax params s t hjmax hst i (by omega)
        rw [a1, a2, a3, a4, a5, a6, b1, b2, b3, b4, b5, b6, e1, e2]
        exact ⟨rfl, rfl, rfl, rfl, rfl, rfl⟩
      · obtain ⟨a1, a2, a3, a4, a5, a6⟩ := afterWall_interior imax jmax params s i j (by omega) (by omega)
        obtain ⟨b1, b2, b3, b4, b5, b6⟩ := afterWall_interior imax jmax params t i j (by omega) (by omega)
        obtain ⟨c1, c2, c3, c4, c5, c6⟩ := hst i j (by omega) hi.2 (by omega) (by omega)
        rw [a1, a2, a3, a4, a5, a6, b1, b2, b3, b4, b5, b6]
        exact ⟨c1, c2, c3, c4, c5, c6⟩

/-- The output of `BoundaryConditions` at every node depends only on the
interior of the input and on the parameters (`imax ≥ 3`, `jmax ≥ 3`). -/
theorem BoundaryConditions_congr (imax jmax : Int) (params : FlowParameters K)
    (s t : Fields K) (himax : 3 ≤ imax) (hjmax : 3 ≤ jmax)
    (hst : ∀ i j : Int, 1 ≤ i → i ≤ imax - 2 → 1 ≤ j → j ≤ jmax - 2 →
      s.u i j = t.u i j ∧ s.v i j = t.v i j ∧ s.rho i j = t.rho i j ∧
      s.P i j = t.P i j ∧ s.T i j = t.T i j ∧ s.e i j = t.e i j)
    (i j : Int) (hi : 0 ≤ i ∧ i < imax) (hj : 0 ≤ j ∧ j < jmax) :
    (BoundaryConditions imax jmax params s).u i j =
        (BoundaryConditions imax jmax params t).u i j ∧
      (BoundaryConditions imax jmax params s).v i j =
        (BoundaryConditions imax jmax params t).v i j ∧
      (BoundaryConditions imax jmax params s).rho i j =
        (BoundaryConditions imax jmax params t).rho i j ∧
      (BoundaryConditions imax jmax params s).P i j =
        (BoundaryConditions imax jmax params t).P i j ∧
      (BoundaryConditions imax jmax params s).T i j =
        (BoundaryConditions imax jmax params t).T i j ∧
      (BoundaryConditions imax jmax params s).e i j =
        (BoundaryConditions imax jmax params t).e i j := by
  by_cases hlast : i = imax - 1
  · subst hlast
    obtain ⟨a1, a2, a3, a4, a5, a6⟩ := BoundaryConditions_outflow imax jmax params s j hj
    obtain ⟨b1, b2, b3, b4, b5, b6⟩ := BoundaryConditions_outflow imax jmax params t j hj
    obtain ⟨c1, c2, c3, c4, c5, c6⟩ :=
      afterWall_congr imax jmax params s t hjmax hst (imax - 2) j (by omega) hj
    obtain ⟨d1, d2, d3, d4, d5, d6⟩ :=
      afterWall_congr imax jmax params s t hjmax hst (imax - 3) j (by omega) hj
    rw [a1, a2, a3, a4, a5, a6, b1, b2, b3, b4, b5, b6, c1, c2, c3, c4, c5, c6,
      d1, d2, d3, d4, d5, d6]
    exact ⟨rfl, rfl, rfl, rfl, rfl, rfl⟩
  · obtain ⟨a1, a2, a3, a4, a5, a6⟩ := BoundaryConditions_frame imax jmax params s i j (Or.inl hlast)
    obtain ⟨b1, b2, b3, b4, b5, b6⟩ := BoundaryConditions_frame imax jmax params t i j (Or.inl hlast)
    obtain ⟨c1, c2, c3, c4, c5, c6⟩ := afterWall_congr imax jmax params s t hjmax hst i j (by omega) hj
    rw [a1, a2, a3, a4, a5, a6, b1, b2, b3, b4, b5, b6]
    exact ⟨c1, c2, c3, c4, c5, c6⟩

/-- C15: for `imax ≥ 3` and `jmax ≥ 3`, two input grids that agree at every
interior node (`1 ≤ i ≤ imax-2`, `1 ≤ j ≤ jmax-2`) give, with the same
parameters, outputs of `BoundaryConditions` that are identical at every node
in all six fields; as a consequence applying it twice equals applying it
once. -/
theorem BoundaryConditions_interior_only (imax jmax : Int) (params : FlowParameters K)
    (s t : Fields K) (himax : 3 ≤ imax) (hjmax : 3 ≤ jmax)
    (hst : ∀ i j : Int, 1 ≤ i → i ≤ imax - 2 → 1 ≤ j → j ≤ jmax - 2 →
      s.u.Get i j = t.u.Get i j ∧ s.v.Get i j = t.v.Get i j ∧
      s.rho.Get i j = t.rho.Get i j ∧ s.P.Get i j = t.P.Get i j ∧
      s.T.Get i j = t.T.Get i j ∧ s.e.Get i j = t.e.Get i j) :
    (∀ i j : Int, 0 ≤ i → i < imax → 0 ≤ j → j < jmax →
      (BoundaryConditions imax jmax params s).u.Get i j =
        (BoundaryConditions imax jmax params t).u.Get i j ∧
      (BoundaryConditions imax jmax params s).v.Get i j =
        (BoundaryConditions imax jmax params t).v.Get i j ∧
      (BoundaryConditions imax jmax params s).rho.Get i j =
        (BoundaryConditions imax jmax params t).rho.Get i j ∧
      (BoundaryConditions imax jmax params s).P.Get i j =
        (BoundaryConditions imax jmax params t).P.Get i j ∧
      (BoundaryConditions imax jmax params s).T.Get i j =
        (BoundaryConditions imax jmax params t).T.Get i j ∧
      (BoundaryConditions imax jmax params s).e.Get i j =
        (BoundaryConditions imax jmax params t).e.Get i j) ∧
    (∀ i j : Int, 0 ≤ i → i < imax → 0 ≤ j → j < jmax →
      (BoundaryConditions imax jmax params
          (BoundaryConditions imax jmax params s)).u.Get i j =
        (BoundaryConditions imax jmax params s).u.Get i j ∧
      (BoundaryConditions imax jmax params
          (BoundaryConditions imax jmax params s)).v.Get i j =
        (BoundaryConditions imax jmax params s).v.Get i j ∧
      (BoundaryConditions imax jmax params
          (BoundaryConditions imax jmax params s)).rho.Get i j =
        (BoundaryConditions imax jmax params s).rho.Get i j ∧
      (BoundaryConditions imax jmax params
          (BoundaryConditions imax jmax params s)).P.Get i j =
        (BoundaryConditions imax jmax params s).P.Get i j ∧
      (BoundaryConditions imax jmax params
          (BoundaryConditions imax jmax params s)).T.Get i j =
        (BoundaryConditions imax jmax params s).T.Get i j ∧
      (BoundaryConditions imax jmax params
          (BoundaryConditions imax jmax params s)).e.Get i j =
        (BoundaryConditions imax jmax params s).e.Get i j) := by
  simp only [Array2D.Get_apply] at hst ⊢
  refine ⟨fun i j hi0 hi1 hj0 hj1 => ?_, fun i j hi0 hi1 hj0 hj1 => ?_⟩
  · exact BoundaryConditions_congr imax jmax params s t himax hjmax hst i j
      ⟨hi0, hi1⟩ ⟨hj0, hj1⟩
  · refine BoundaryConditions_congr imax jmax params _ s himax hjmax ?_ i j
      ⟨hi0, hi1⟩ ⟨hj0, hj1⟩
    intro a b ha0 ha1 hb0 hb1
    obtain ⟨a1, a2, a3, a4, a5, a6⟩ :=
      BoundaryConditions_frame imax jmax params s a b (Or.inl (by omega))
    obtain ⟨b1, b2, b3, b4, b5, b6⟩ :=
      afterWall_interior imax jmax params s a b ha0 ⟨hb0, hb1⟩
    exact ⟨a1.trans b1, a2.trans b2, a3.trans b3, a4.trans b4, a5.trans b5, a6.trans b6⟩

end Dependence

/-! ## Index safety of the boundary enforcer -/

section IndexSafety

/-- The calls logged by a loop that appends the calls of each iteration. -/
theorem mem_forLoop_append {α : Type} (f : Int → List α) (a : α) (n : Nat) (lo : Int)
    (tr : List α) :
    a ∈ forLoop (fun i tr => tr ++ f i) n lo tr ↔
      a ∈ tr ∨ ∃ i : Int, lo ≤ i ∧ i < lo + n ∧ a ∈ f i := by
  induction n generalizing lo tr with
  | zero =>
    simp only [forLoop, Nat.cast_zero, add_zero]
    constructor
    · exact Or.inl
    · rintro (h | ⟨i, h1, h2, -⟩)
      · exact h
      · omega
  | succ n ih =>
    rw [forLoop, ih, List.mem_append]
    constructor
    · rintro ((h | h) | ⟨i, h1, h2, h3⟩)
      · exact Or.inl h
      · exact Or.inr ⟨lo, le_refl lo, by push_cast; omega, h⟩
      · exact Or.inr ⟨i, by omega, by push_cast; omega, h3⟩
    · rintro (h | ⟨i, h1, h2, h3⟩)
      · exact Or.inl (Or.inl h)
      · by_cases hi : i = lo
        · subst hi
          exact Or.inl (Or.inr h3)
        · exact Or.inr ⟨i, by omega, by push_cast at h2; omega, h3⟩

/-- The calls logged by `for (int i = lo; i < hi; i++)`. -/
theorem mem_forRange_append {α : Type} (f : Int → List α) (a : α) (lo hi : Int)
    (tr : List α) :
    a ∈ forRange lo hi (fun i tr => tr ++ f i) tr ↔
      a ∈ tr ∨ ∃ i : Int, lo ≤ i ∧ i < hi ∧ a ∈ f i := by
  rw [forRange, mem_forLoop_append]
  constructor
  · rintro (h | ⟨i, h1, h2, h3⟩)
    · exact Or.inl h
    · exact Or.inr ⟨i, h1, by omega, h3⟩
  · rintro (h | ⟨i, h1, h2, h3⟩)
    · exact Or.inl h
    · exact Or.inr ⟨i, h1, by omega, h3⟩

/-- The calls of `BoundaryConditions`, pass by pass. -/
theorem mem_BoundaryConditionsAccesses (imax jmax : Int) (a : Access) :
    a ∈ BoundaryConditionsAccesses imax jmax ↔
      ((((a ∈ leadingEdgeAccesses ∨
        ∃ j : Int, 1 ≤ j ∧ j < jmax ∧ a ∈ inflowAccesses j) ∨
        ∃ i : Int, 0 ≤ i ∧ i < imax ∧ a ∈ farFieldAccesses jmax i) ∨
        ∃ i : Int, 1 ≤ i ∧ i < imax ∧ a ∈ wallAccesses i) ∨
        ∃ j : Int, 0 ≤ j ∧ j < jmax ∧ a ∈ outflowAccesses imax j) := by
  simp only [BoundaryConditionsAccesses, mem_forRange_append]

/-- The logged calls cover every write of `BoundaryConditions`: a cell that
no logged call addresses holds its input value in all six arrays. -/
theorem BoundaryConditions_unchanged_of_not_accessed {K : Type} [Field K]
    (imax jmax : Int) (params : FlowParameters K) (s : Fields K) (i j : Int)
    (h : ∀ a ∈ BoundaryConditionsAccesses imax jmax, ¬(a.i = i ∧ a.j = j)) :
    (BoundaryConditions imax jmax params s).u i j = s.u i j ∧
    (BoundaryConditions imax jmax params s).v i j = s.v i j ∧
    (BoundaryConditions imax jmax params s).rho i j = s.rho i j ∧
    (BoundaryConditions imax jmax params s).P i j = s.P i j ∧
    (BoundaryConditions imax jmax params s).T i j = s.T i j ∧
    (BoundaryConditions imax jmax params s).e i j = s.e i j := by
  have hout : i ≠ imax - 1 ∨ j < 0 ∨ jmax ≤ j := by
    by_contra hc
    refine h ⟨FieldName.u, imax - 1, j⟩ ?_ (by constructor <;> first | rfl | (simp only; omega))
    rw [mem_BoundaryConditionsAccesses]
    exact Or.inr ⟨j, by omega, by omega, by simp [outflowAccesses]⟩
  have hwall : j ≠ 0 ∨ i < 1 ∨ imax ≤ i := by
    by_contra hc
    refine h ⟨FieldName.u, i, 0⟩ ?_ (by constructor <;> first | rfl | (simp only; omega))
    rw [mem_BoundaryConditionsAccesses]
    exact Or.inl (Or.inr ⟨i, by omega, by omega, by simp [wallAccesses]⟩)
  have hfar : j ≠ jmax - 1 ∨ i < 0 ∨ imax ≤ i := by
    by_contra hc
    refine h ⟨FieldName.u, i, jmax - 1⟩ ?_ (by constructor <;> first | rfl | (simp only; omega))
    rw [mem_BoundaryConditionsAccesses]
    exact Or.inl (Or.inl (Or.inr ⟨i, by omega, by omega, by simp [farFieldAccesses]⟩))
  have hin : i ≠ 0 ∨ j < 0 ∨ (1 ≤ j ∧ jmax ≤ j) := by
    by_contra hc
    by_cases hj : j = 0
    · refine h ⟨FieldName.u, 0, 0⟩ ?_ (by constructor <;> simp only <;> omega)
      rw [mem_BoundaryConditionsAccesses]
      exact Or.inl (Or.inl (Or.inl (Or.inl (by simp [leadingEdgeAccesses]))))
    · refine h ⟨FieldName.u, 0, j⟩ ?_ (by constructor <;> first | rfl | (simp only; omega))
      rw [mem_BoundaryConditionsAccesses]
      exact Or.inl (Or.inl (Or.inl (Or.inr
        ⟨j, by omega, by omega, by simp [inflowAccesses]⟩)))
  obtain ⟨a1, a2, a3, a4, a5, a6⟩ := BoundaryConditions_frame imax jmax params s i j hout
  obtain ⟨b1, b2, b3, b4, b5, b6⟩ := afterWall_frame imax jmax params s i j hwall
  obtain ⟨c1, c2, c3, c4, c5, c6⟩ := afterFarField_frame imax jmax params s i j hfar
  obtain ⟨d1, d2, d3, d4, d5, d6⟩ := afterInflow_frame jmax params s i j hin
  exact ⟨a1.trans (b1.trans (c1.trans d1)), a2.trans (b2.trans (c2.trans d2)),
    a3.trans (b3.trans (c3.trans d3)), a4.trans (b4.trans (c4.trans d4)),
    a5.trans (b5.trans (c5.trans d5)), a6.trans (b6.trans (c6.trans d6))⟩

/-- C17: for `imax ≥ 3` and `jmax ≥ 3` every `Get` and `Set` performed by
`BoundaryConditions` addresses an index pair with `0 ≤ i < imax` and
`0 ≤ j < jmax`; for `imax < 3` or `jmax < 3` some access falls outside the
grid. -/
theorem BoundaryConditions_index_safety (imax jmax : Int) :
    (3 ≤ imax → 3 ≤ jmax → ∀ a ∈ BoundaryConditionsAccesses imax jmax,
      0 ≤ a.i ∧ a.i < imax ∧ 0 ≤ a.j ∧ a.j < jmax) ∧
    (imax < 3 ∨ jmax < 3 → ∃ a ∈ BoundaryConditionsAccesses imax jmax,
      ¬(0 ≤ a.i ∧ a.i < imax ∧ 0 ≤ a.j ∧ a.j < jmax)) := by
  constructor
  · intro himax hjmax a ha
    rw [mem_BoundaryConditionsAccesses] at ha
    rcases ha with (((h | ⟨j, h1, h2, h⟩) | ⟨i, h1, h2, h⟩) | ⟨i, h1, h2, h⟩) |
      ⟨j, h1, h2, h⟩
    · simp only [leadingEdgeAccesses, List.mem_cons, List.mem_singleton,
        List.not_mem_nil, or_false] at h
      rcases h with rfl | rfl | rfl | rfl | rfl | rfl <;> simp only <;> omega
    · simp only [inflowAccesses, List.mem_cons, List.mem_singleton,
        List.not_mem_nil, or_false] at h
      rcases h with rfl | rfl | rfl | rfl | rfl | rfl <;> simp only <;> omega
    · simp only [farFieldAccesses, List.mem_cons, List.mem_singleton,
        List.not_mem_nil, or_false] at h
      rcases h with rfl | rfl | rfl | rfl | rfl | rfl <;> simp only <;> omega
    · simp only [wallAccesses, List.mem_cons, List.mem_singleton,
        List.not_mem_nil, or_false] at h
      rcases h with rfl | rfl | rfl | rfl | rfl | rfl | rfl | rfl <;> simp only <;> omega
    · simp only [outflowAccesses, List.mem_cons, List.mem_singleton,
        List.not_mem_nil, or_false] at h
      rcases h with rfl | rfl | rfl | rfl | rfl | rfl | rfl | rfl | rfl | rfl | rfl | rfl |
        rfl | rfl | rfl | rfl | rfl | rfl <;> simp only <;> omega
  · intro hsmall
    by_cases hempty : imax ≤ 0 ∨ jmax ≤ 0
    · refine ⟨⟨FieldName.u, 0, 0⟩, ?_, ?_⟩
      · rw [mem_BoundaryConditionsAccesses]
        exact Or.inl (Or.inl (Or.inl (Or.inl (by simp [leadingEdgeAccesses]))))
      · simp only
        omega
    · by_cases him : imax < 3
      · refine ⟨⟨FieldName.u, imax - 3, 0⟩, ?_, ?_⟩
        · rw [mem_BoundaryConditionsAccesses]
          exact Or.inr ⟨0, le_refl 0, by omega, by simp [outflowAccesses]⟩
        · simp only
          omega
      · refine ⟨⟨FieldName.P, 1, 2⟩, ?_, ?_⟩
        · rw [mem_BoundaryConditionsAccesses]
          exact Or.inl (Or.inr ⟨1, le_refl 1, by omega, by simp [wallAccesses]⟩)
        · simp only
          omega

end IndexSafety

/-! ## The convergence check on an arbitrary incoming `diff` -/

section Accumulation

variable {K : Type} [LinearOrderedField K]

/-- C18: `CheckConvergence` accumulates into its in/out argument: for every
incoming value `d`, the final `diff` is the maximum of `d` and of all
`|rho - rho_old|` over the nodes (the greatest element of these values), so
it is at least `d`; and the function returns false whenever `d ≥ 1e-8`,
whatever the density fields, also when `rho` equals `rho_old` everywhere. -/
theorem CheckConvergence_accumulates (imax_ jmax_ : Int) (rho_ rho_old_ : Array2D K)
    (d : K) :
    IsGreatest
      {x | x = d ∨ ∃ i j : Int, 0 ≤ i ∧ i < imax_ ∧ 0 ≤ j ∧ j < jmax_ ∧
        x = |rho_.Get i j - rho_old_.Get i j|}
      (CheckConvergence imax_ jmax_ rho_ rho_old_ d).2 ∧
    d ≤ (CheckConvergence imax_ jmax_ rho_ rho_old_ d).2 ∧
    ((1.0e-8 : K) ≤ d → (CheckConvergence imax_ jmax_ rho_ rho_old_ d).1 = false) ∧
    ((1.0e-8 : K) ≤ d → (CheckConvergence imax_ jmax_ rho_ rho_ d) = (false, d)) := by
  obtain ⟨hd, hub, hatt⟩ := CheckConvergence_diff_spec imax_ jmax_ rho_ rho_old_ d
  have hres := CheckConvergence_result imax_ jmax_ rho_ rho_old_ d
  refine ⟨⟨?_, ?_⟩, hd, fun h => ?_, fun h => ?_⟩
  · rcases hatt with h | ⟨i, j, h⟩
    · exact Or.inl h
    · exact Or.inr ⟨i, j, h⟩
  · rintro x (hx | ⟨i, j, hi0, hi1, hj0, hj1, hx⟩)
    · rw [hx]
      exact hd
    · rw [hx]
      exact hub i j hi0 hi1 hj0 hj1
  · cases hb : (CheckConvergence imax_ jmax_ rho_ rho_old_ d).1
    · rfl
    · exact absurd (lt_of_le_of_lt (le_trans h hd) (hres.mp hb)) (lt_irrefl _)
  · obtain ⟨hd', -, hatt'⟩ := CheckConvergence_diff_spec imax_ jmax_ rho_ rho_ d
    have hres' := CheckConvergence_result imax_ jmax_ rho_ rho_ d
    have hpos : (0 : K) < 1.0e-8 := by norm_num
    have hval : (CheckConvergence imax_ jmax_ rho_ rho_ d).2 = d := by
      rcases hatt' with h' | ⟨i, j, -, -, -, -, h'⟩
      · exact h'
      · rw [sub_self, abs_zero] at h'
        rw [h'] at hd'
        exact absurd (lt_of_lt_of_le hpos h) (not_lt.mpr hd')
    refine Prod.ext ?_ hval
    cases hb : (CheckConvergence imax_ jmax_ rho_ rho_ d).1
    · rfl
    · exact absurd (lt_of_le_of_lt (le_trans h hd') (hres'.mp hb)) (lt_irrefl _)

end Accumulation

/-! ## The Dirichlet boundary -/

section Dirichlet

variable {K B BT M Sol : Type}

/-- C19: for every in-range `(x, y)`, with `ns` the node `last_state[y][x]`,
`DirichletBoundary::calcState` returns a `NodeState` with the size and the
stored values of `ns` (its boundary members too) and `done = true`; the
result is the same for every `cur_state`, `solver` and `delta_t`; and
`last_state`, `solver` and `cur_state` are left as they were. -/
theorem DirichletBoundary_calcState_holds (x y : Int) (last_state cur_state : State K B BT M)
    (solver : Sol) (delta_t : K) (ns : NodeState K B BT)
    (hrange : last_state.index y x = some ns) :
    ∃ r : NodeState K B BT,
      DirichletBoundary.calcState x y last_state solver cur_state delta_t =
        some (r, last_state, solver, cur_state) ∧
      r.size = ns.size ∧ r.vals = ns.vals ∧ r.done = true ∧
      r.boundary_ = ns.boundary_ ∧ r.boundaryType_ = ns.boundaryType_ ∧
      ∀ (cur_state' : State K B BT M) (solver' : Sol) (delta_t' : K),
        (DirichletBoundary.calcState x y last_state solver' cur_state' delta_t').map
          (fun res => res.1) = some r := by
  refine ⟨{ ns with done := true }, ?_, rfl, rfl, rfl, rfl, rfl, fun _ _ _ => ?_⟩
  · simp only [DirichletBoundary.calcState, hrange]
  · simp only [DirichletBoundary.calcState, hrange, Option.map_some']

end Dirichlet

/-! ## Instances of the later theorems at sample inputs -/

section LaterWitnesses

/-- Instance of C12 on the `4 x 3` sample object: the leading-edge node. -/
theorem InitializeFlowFliedVariables_values_witness :
    (1 : Int) ≤ samplePlate.imax_ ∧ (1 : Int) ≤ samplePlate.jmax_ ∧
    (InitializeFlowFliedVariables samplePlate).fields.u.Get 0 0 = 0 ∧
    (InitializeFlowFliedVariables samplePlate).fields.v.Get 0 0 = 0 ∧
    (InitializeFlowFliedVariables samplePlate).M_.Get 0 0 = 0 ∧
    (InitializeFlowFliedVariables samplePlate).fields.T.Get 0 0 = samplePlate.flow_parameters_.T_inf ∧
    (InitializeFlowFliedVariables samplePlate).fields.P.Get 0 0 = samplePlate.flow_parameters_.P_inf ∧
    (InitializeFlowFliedVariables samplePlate).fields.rho.Get 0 0 =
      samplePlate.flow_parameters_.P_inf / samplePlate.flow_parameters_.T_inf /
        samplePlate.flow_parameters_.R ∧
    (InitializeFlowFliedVariables samplePlate).fields.e.Get 0 0 =
      samplePlate.flow_parameters_.cv * samplePlate.flow_parameters_.T_inf :=
  ⟨by decide, by decide,
    (InitializeFlowFliedVariables_values samplePlate (by decide) (by decide)).2.2⟩

/-- Instance of C13 at the dimensional constants of the constructor. -/
theorem constructor_unit_free_stream_witness :
    (101325 : ℚ) ≠ 0 ∧ (28816 / 100 : ℚ) ≠ 0 ∧
    (constructFlowParameters (fun x => x) (fun _ T => T) (sampleParams ℚ) 4 (34028 / 100)
        (1 / 100000) 287 101325 (28816 / 100)).P_inf = 1 ∧
    (constructFlowParameters (fun x => x) (fun _ T => T) (sampleParams ℚ) 4 (34028 / 100)
        (1 / 100000) 287 101325 (28816 / 100)).T_inf = 1 ∧
    (constructFlowParameters (fun x => x) (fun _ T => T) (sampleParams ℚ) 4 (34028 / 100)
        (1 / 100000) 287 101325 (28816 / 100)).T_wall = 1 :=
  ⟨by norm_num, by norm_num,
    (@constructor_unit_free_stream ℚ Unit _ (fun x => x) (fun _ T => T) (sampleParams ℚ) 4
      (34028 / 100) (1 / 100000) 287 101325 (28816 / 100) (by norm_num) (by norm_num)).1⟩

/-- Instance of C14 on the `4 x 3` sample object, at the outflow corner
`(3, 0)`. -/
theorem BoundaryConditions_initial_fixed_witness :
    (4 : Int) ≤ samplePlate.imax_ ∧ (3 : Int) ≤ samplePlate.jmax_ ∧
    (BoundaryConditions samplePlate.imax_ samplePlate.jmax_ samplePlate.flow_parameters_
        (InitializeFlowFliedVariables samplePlate).fields).u.Get 3 0 =
      (InitializeFlowFliedVariables samplePlate).fields.u.Get 3 0 ∧
    (BoundaryConditions samplePlate.imax_ samplePlate.jmax_ samplePlate.flow_parameters_
        (InitializeFlowFliedVariables samplePlate).fields).v.Get 3 0 =
      (InitializeFlowFliedVariables samplePlate).fields.v.Get 3 0 ∧
    (BoundaryConditions samplePlate.imax_ samplePlate.jmax_ samplePlate.flow_parameters_
        (InitializeFlowFliedVariables samplePlate).fields).rho.Get 3 0 =
      (InitializeFlowFliedVariables samplePlate).fields.rho.Get 3 0 ∧
    (BoundaryConditions samplePlate.imax_ samplePlate.jmax_ samplePlate.flow_parameters_
        (InitializeFlowFliedVariables samplePlate).fields).P.Get 3 0 =
      (InitializeFlowFliedVariables samplePlate).fields.P.Get 3 0 ∧
    (BoundaryConditions samplePlate.imax_ samplePlate.jmax_ samplePlate.flow_parameters_
        (InitializeFlowFliedVariables samplePlate).fields).T.Get 3 0 =
      (InitializeFlowFliedVariables samplePlate).fields.T.Get 3 0 ∧
    (BoundaryConditions samplePlate.imax_ samplePlate.jmax_ samplePlate.flow_parameters_
        (InitializeFlowFliedVariables samplePlate).fields).e.Get 3 0 =
      (InitializeFlowFliedVariables samplePlate).fields.e.Get 3 0 :=
  ⟨by decide, by decide,
    BoundaryConditions_initial_fixed samplePlate (by decide) (by decide) 3 0
      (by decide) (by decide)⟩

/-- The two sample inputs agree at the interior nodes of a `4 x 3` grid. -/
theorem sampleFields_agree (i j : Int) (_hi0 : 1 ≤ i) (_hi1 : i ≤ 4 - 2) (hj0 : 1 ≤ j)
    (hj1 : j ≤ 3 - 2) :
    sampleFields.u.Get i j = sampleFieldsInterior.u.Get i j ∧
    sampleFields.v.Get i j = sampleFieldsInterior.v.Get i j ∧
    sampleFields.rho.Get i j = sampleFieldsInterior.rho.Get i j ∧
    sampleFields.P.Get i j = sampleFieldsInterior.P.Get i j ∧
    sampleFields.T.Get i j = sampleFieldsInterior.T.Get i j ∧
    sampleFields.e.Get i j = sampleFieldsInterior.e.Get i j := by
  have hj : j = 1 := by omega
  subst hj
  simp [sampleFields, sampleFieldsInterior, Array2D.Get]

/-- Instance of C15 on a `4 x 3` grid, at the outflow corner `(3, 0)`, for two
inputs that differ outside the interior. -/
theorem BoundaryConditions_interior_only_witness :
    (3 : Int) ≤ 4 ∧ (3 : Int) ≤ 3 ∧
    (BoundaryConditions 4 3 (sampleParams ℚ) sampleFields).u.Get 3 0 =
      (BoundaryConditions 4 3 (sampleParams ℚ) sampleFieldsInterior).u.Get 3 0 ∧
    (BoundaryConditions 4 3 (sampleParams ℚ) sampleFields).v.Get 3 0 =
      (BoundaryConditions 4 3 (sampleParams ℚ) sampleFieldsInterior).v.Get 3 0 ∧
    (BoundaryConditions 4 3 (sampleParams ℚ) sampleFields).rho.Get 3 0 =
      (BoundaryConditions 4 3 (sampleParams ℚ) sampleFieldsInterior).rho.Get 3 0 ∧
    (BoundaryConditions 4 3 (sampleParams ℚ) sampleFields).P.Get 3 0 =
      (BoundaryConditions 4 3 (sampleParams ℚ) sampleFieldsInterior).P.Get 3 0 ∧
    (BoundaryConditions 4 3 (sampleParams ℚ) sampleFields).T.Get 3 0 =
      (BoundaryConditions 4 3 (sampleParams ℚ) sampleFieldsInterior).T.Get 3 0 ∧
    (BoundaryConditions 4 3 (sampleParams ℚ) sampleFields).e.Get 3 0 =
      (BoundaryConditions 4 3 (sampleParams ℚ) sampleFieldsInterior).e.Get 3 0 :=
  ⟨by decide, by decide,
    (BoundaryConditions_interior_only 4 3 (sampleParams ℚ) sampleFields sampleFieldsInterior
      (by decide) (by decide) sampleFields_agree).1 3 0 (by decide) (by decide)
      (by decide) (by decide)⟩

/-- Instance of C17: a `4 x 3` grid is accessed in range, a `2 x 3` grid is
not. -/
theorem BoundaryConditions_index_safety_witness :
    ((3 : Int) ≤ 4 ∧ (3 : Int) ≤ 3 ∧
      ∀ a ∈ BoundaryConditionsAccesses 4 3, 0 ≤ a.i ∧ a.i < 4 ∧ 0 ≤ a.j ∧ a.j < 3) ∧
    ((2 : Int) < 3 ∧
      ∃ a ∈ BoundaryConditionsAccesses 2 3, ¬(0 ≤ a.i ∧ a.i < 2 ∧ 0 ≤ a.j ∧ a.j < 3)) :=
  ⟨⟨by decide, by decide,
      (BoundaryConditions_index_safety 4 3).1 (by decide) (by decide)⟩,
    ⟨by decide, (BoundaryConditions_index_safety 2 3).2 (Or.inl (by decide))⟩⟩

/-- Instance of C18 on a `4 x 3` grid with incoming `diff = 1`. -/
theorem CheckConvergence_accumulates_witness :
    (1.0e-8 : ℚ) ≤ 1 ∧
    (CheckConvergence 4 3 sampleFields.rho uniformFields.rho 1).1 = false ∧
    CheckConvergence 4 3 sampleFields.rho sampleFields.rho 1 = (false, 1) :=
  ⟨by norm_num,
    (CheckConvergence_accumulates 4 3 sampleFields.rho uniformFields.rho 1).2.2.1
      (by norm_num),
    (CheckConvergence_accumulates 4 3 sampleFields.rho uniformFields.rho 1).2.2.2
      (by norm_num)⟩

/-- Instance of C19 at the second node of the sample state. -/
theorem DirichletBoundary_calcState_holds_witness :
    sampleState.index 0 1 = some { sampleNode with size_ := 2 } ∧
    ∃ r : NodeState ℚ Unit Unit,
      DirichletBoundary.calcState 1 0 sampleState () sampleState (1 : ℚ) =
        some (r, sampleState, (), sampleState) ∧
      r.size = NodeState.size { sampleNode with size_ := 2 } ∧
      r.vals = NodeState.vals { sampleNode with size_ := 2 } ∧ r.done = true ∧
      r.boundary_ = NodeState.boundary_ { sampleNode with size_ := 2 } ∧
      r.boundaryType_ = NodeState.boundaryType_ { sampleNode with size_ := 2 } ∧
      ∀ (cur_state' : State ℚ Unit Unit Unit) (solver' : Unit) (delta_t' : ℚ),
        (DirichletBoundary.calcState 1 0 sampleState solver' cur_state' delta_t').map
          (fun res => res.1) = some r :=
  ⟨rfl, DirichletBoundary_calcState_holds 1 0 sampleState sampleState () (1 : ℚ)
    { sampleNode with size_ := 2 } rfl⟩

end LaterWitnesses

/-! ## The convergence check on doubles with special values -/

section DoubleConvergence

variable {K : Type} [LinearOrderedField K]

/-- No double is below itself. -/
theorem Double.lt_self (a : Double K) : Double.lt a a = false := by
  cases a <;> simp [Double.lt]

/-- If `b < a` then not `a < b`. -/
theorem Double.lt_asymm (a b : Double K) (h : Double.lt a b = true) :
    Double.lt b a = false := by
  cases a <;> cases b <;> simp_all [Double.lt]
  exact le_of_lt h

/-- Transitivity of "not above" through a double that is not NaN. -/
theorem Double.not_lt_trans (a b c : Double K) (hb : b.isNaN = false)
    (h1 : Double.lt c b = false) (h2 : Double.lt b a = false) : Double.lt c a = false := by
  cases a <;> cases b <;> cases c <;> simp_all [Double.lt, Double.isNaN]
  exact le_trans h2 h1

/-- A double that is not NaN and not above `r` is below whatever `r` is
below. -/
theorem Double.lt_of_not_lt_of_lt (x r c : Double K) (hx : x.isNaN = false)
    (h1 : Double.lt r x = false) (h2 : Double.lt r c = true) : Double.lt x c = true := by
  cases x <;> cases r <;> cases c <;> simp_all [Double.lt, Double.isNaN]
  exact lt_of_le_of_lt h1 h2

/-- An absolute value that is not NaN and not above `0` is `0`. -/
theorem Double.abs_eq_zero_of_not_lt (x : Double K) (hx : (Double.abs x).isNaN = false)
    (h : Double.lt (Double.fin 0) (Double.abs x) = false) : Double.abs x = Double.fin 0 := by
  cases x <;> simp_all [Double.lt, Double.isNaN, Double.abs]

/-- `std::max(a, b)` is one of its arguments. -/
theorem Double.max_choice (a b : Double K) : Double.max a b = a ∨ Double.max a b = b := by
  unfold Double.max
  split_ifs
  · exact Or.inr rfl
  · exact Or.inl rfl

/-- `std::max(a, b)` is not below `a`. -/
theorem Double.max_not_lt_left (a b : Double K) : Double.lt (Double.max a b) a = false := by
  unfold Double.max
  split_ifs with h
  · exact Double.lt_asymm a b h
  · exact Double.lt_self a

/-- `std::max(a, b)` is not below `b`. -/
theorem Double.max_not_lt_right (a b : Double K) : Double.lt (Double.max a b) b = false := by
  unfold Double.max
  split_ifs with h
  · exact Double.lt_self b
  · simpa using h

/-- `std::max(a, b)` is not NaN when neither argument is. -/
theorem Double.max_isNaN (a b : Double K) (ha : a.isNaN = false) (hb : b.isNaN = false) :
    (Double.max a b).isNaN = false := by
  rcases Double.max_choice a b with h | h <;> rw [h] <;> assumption

/-- A loop that only ever raises an accumulator, never NaN, to one of the
candidate values `A i` of its index, none of them NaN, computes a value that
no candidate is above, which is the initial value or one of the candidates. -/
theorem forLoop_double_max_spec (A : Int → Double K → Prop)
    (body : Int → Double K → Double K) (n : Nat) (lo : Int) (d : Double K)
    (hd : d.isNaN = false)
    (hbody : ∀ i d, lo ≤ i → i < lo + n → d.isNaN = false →
      (body i d).isNaN = false ∧ Double.lt (body i d) d = false ∧
      (∀ x, A i x → Double.lt (body i d) x = false) ∧ (body i d = d ∨ A i (body i d))) :
    (forLoop body n lo d).isNaN = false ∧
    Double.lt (forLoop body n lo d) d = false ∧
    (∀ i x, lo ≤ i → i < lo + n → A i x → Double.lt (forLoop body n lo d) x = false) ∧
    (forLoop body n lo d = d ∨ ∃ i, lo ≤ i ∧ i < lo + n ∧ A i (forLoop body n lo d)) := by
  induction n generalizing lo d with
  | zero =>
    refine ⟨hd, Double.lt_self d, fun i x h1 h2 _ => ?_, Or.inl rfl⟩
    simp only [Nat.cast_zero, add_zero] at h2
    omega
  | succ n ih =>
    obtain ⟨b0, b1, b2, b3⟩ := hbody lo d (le_refl lo) (by push_cast; omega) hd
    obtain ⟨r0, r1, r2, r3⟩ := ih (lo + 1) (body lo d) b0
      (fun i d h1 h2 h3 => hbody i d (by omega) (by push_cast; omega) h3)
    simp only [forLoop]
    refine ⟨r0, Double.not_lt_trans _ _ _ b0 r1 b1, fun i x h1 h2 hx => ?_, ?_⟩
    · by_cases hlo : i = lo
      · subst hlo
        exact Double.not_lt_trans _ _ _ b0 r1 (b2 x hx)
      · exact r2 i x (by omega) (by push_cast at h2; omega) hx
    · rcases r3 with r3 | ⟨i, h1, h2, hA⟩
      · rcases b3 with b3 | b3
        · exact Or.inl (r3.trans b3)
        · refine Or.inr ⟨lo, le_refl lo, by push_cast; omega, ?_⟩
          rw [r3]
          exact b3
      · exact Or.inr ⟨i, by omega, by push_cast; omega, hA⟩

/-- The value `CheckConvergence` leaves in `diff` on doubles, for an incoming
`diff` that is not NaN and density fields none of whose node changes is NaN:
it is not NaN, not below the incoming value, not below any node's absolute
density change, and equal to the incoming value or to the change at some
node. -/
theorem CheckConvergenceDouble_diff_spec (imax_ jmax_ : Int)
    (rho_ rho_old_ : Array2D (Double K)) (d : Double K) (hd : d.isNaN = false)
    (hnan : ∀ i j : Int, 0 ≤ i → i < imax_ → 0 ≤ j → j < jmax_ →
      (Double.abs (Double.sub (rho_.Get i j) (rho_old_.Get i j))).isNaN = false) :
    (CheckConvergenceDouble imax_ jmax_ rho_ rho_old_ d).2.isNaN = false ∧
    Double.lt (CheckConvergenceDouble imax_ jmax_ rho_ rho_old_ d).2 d = false ∧
    (∀ i j : Int, 0 ≤ i → i < imax_ → 0 ≤ j → j < jmax_ →
      Double.lt (CheckConvergenceDouble imax_ jmax_ rho_ rho_old_ d).2
        (Double.abs (Double.sub (rho_.Get i j) (rho_old_.Get i j))) = false) ∧
    ((CheckConvergenceDouble imax_ jmax_ rho_ rho_old_ d).2 = d ∨
      ∃ i j : Int, 0 ≤ i ∧ i < imax_ ∧ 0 ≤ j ∧ j < jmax_ ∧
        (CheckConvergenceDouble imax_ jmax_ rho_ rho_old_ d).2 =
          Double.abs (Double.sub (rho_.Get i j) (rho_old_.Get i j))) := by
  have inner : ∀ (i : Int) (d : Double K), 0 ≤ i → i < 0 + ((imax_ - 0).toNat : Int) →
      d.isNaN = false →
      (forRange 0 jmax_
          (fun j diff => Double.max diff (Double.abs (Double.sub (rho_.Get i j) (rho_old_.Get i j)))) d).isNaN = false ∧
      Double.lt (forRange 0 jmax_
          (fun j diff => Double.max diff (Double.abs (Double.sub (rho_.Get i j) (rho_old_.Get i j)))) d) d = false ∧
      (∀ x, (∃ j : Int, 0 ≤ j ∧ j < jmax_ ∧ x = Double.abs (Double.sub (rho_.Get i j) (rho_old_.Get i j))) →
        Double.lt (forRange 0 jmax_
          (fun j diff => Double.max diff (Double.abs (Double.sub (rho_.Get i j) (rho_old_.Get i j)))) d) x = false) ∧
      (forRange 0 jmax_
          (fun j diff => Double.max diff (Double.abs (Double.sub (rho_.Get i j) (rho_old_.Get i j)))) d = d ∨
        ∃ j : Int, 0 ≤ j ∧ j < jmax_ ∧
          forRange 0 jmax_
          (fun j diff => Double.max diff (Double.abs (Double.sub (rho_.Get i j) (rho_old_.Get i j)))) d =
            Double.abs (Double.sub (rho_.Get i j) (rho_old_.Get i j))) := by
    intro i d hi0 hi1 hd
    obtain ⟨h0, h1, h2, h3⟩ := forLoop_double_max_spec
      (fun j x => x = Double.abs (Double.sub (rho_.Get i j) (rho_old_.Get i j)))
      (fun j diff => Double.max diff (Double.abs (Double.sub (rho_.Get i j) (rho_old_.Get i j))))
      (jmax_ - 0).toNat 0 d hd
      (fun j d hj0 hj1 hd => ⟨Double.max_isNaN _ _ hd
          (hnan i j hi0 (by omega) hj0 (by omega)),
        Double.max_not_lt_left _ _, fun x hx => hx ▸ Double.max_not_lt_right _ _,
        Double.max_choice _ _⟩)
    refine ⟨h0, h1, ?_, ?_⟩
    · rintro x ⟨j, hj0, hj1, hx⟩
      exact h2 j x hj0 (by omega) hx
    · rcases h3 with h3 | ⟨j, hj0, hj1, hx⟩
      · exact Or.inl h3
      · exact Or.inr ⟨j, hj0, by omega, hx⟩
  obtain ⟨h0, h1, h2, h3⟩ := forLoop_double_max_spec
    (fun i x => ∃ j : Int, 0 ≤ j ∧ j < jmax_ ∧ x = Double.abs (Double.sub (rho_.Get i j) (rho_old_.Get i j)))
    (fun i diff =>
      forRange 0 jmax_ (fun j diff => Double.max diff (Double.abs (Double.sub (rho_.Get i j) (rho_old_.Get i j)))) diff)
    (imax_ - 0).toNat 0 d hd inner
  refine ⟨h0, h1, ?_, ?_⟩
  · intro i j hi0 hi1 hj0 hj1
    exact h2 i _ hi0 (by omega) ⟨j, hj0, hj1, rfl⟩
  · rcases h3 with h3 | ⟨i, hi0, hi1, j, hj0, hj1, hx⟩
    · exact Or.inl h3
    · exact Or.inr ⟨i, j, hi0, by omega, hj0, hj1, hx⟩

/-- On finite values the convergence check on doubles is the convergence
check in exact arithmetic. -/
theorem CheckConvergenceDouble_fin (imax_ jmax_ : Int) (rho_ rho_old_ : Array2D K)
    (d : K) :
    CheckConvergenceDouble imax_ jmax_ (fun i j => Double.fin (rho_ i j))
        (fun i j => Double.fin (rho_old_ i j)) (Double.fin d) =
      ((CheckConvergence imax_ jmax_ rho_ rho_old_ d).1,
        Double.fin (CheckConvergence imax_ jmax_ rho_ rho_old_ d).2) := by
  have step : ∀ (x t : K), Double.max (Double.fin x) (Double.fin t) = Double.fin (max x t) := by
    intro x t
    simp only [Double.max, Double.lt, decide_eq_true_eq]
    split_ifs with h
    · rw [max_eq_right (le_of_lt h)]
    · rw [max_eq_left (not_lt.mp h)]
  have fuse : ∀ (body' : Int → Double K → Double K) (body : Int → K → K),
      (∀ i x, body' i (Double.fin x) = Double.fin (body i x)) →
      ∀ (n : Nat) (lo : Int) (x : K),
        forLoop body' n lo (Double.fin x) = Double.fin (forLoop body n lo x) := by
    intro body' body h n
    induction n with
    | zero => intro lo x; rfl
    | succ n ih => intro lo x; rw [forLoop, forLoop, h, ih]
  have hloop := fuse
    (fun i diff => forRange 0 jmax_ (fun j diff => Double.max diff
      (Double.abs (Double.sub (Double.fin (rho_ i j)) (Double.fin (rho_old_ i j))))) diff)
    (fun i diff => forRange 0 jmax_ (fun j diff => max diff |rho_ i j - rho_old_ i j|) diff)
    (fun i x => fuse _ (fun j diff => max diff |rho_ i j - rho_old_ i j|)
      (fun j x => step x _) (jmax_ - 0).toNat 0 x)
    (imax_ - 0).toNat 0 d
  simp only [CheckConvergenceDouble, CheckConvergence, Array2D.Get, forRange] at hloop ⊢
  rw [hloop]
  simp only [Double.lt]

/-- C9, as stated, fails on a NaN density: on the `2 x 2` grid whose density
is NaN at node `(1, 1)` and unchanged elsewhere, `CheckConvergence` called with
`diff = 0` returns true and leaves `diff = 0`, although the absolute density
change of node `(1, 1)` is not below `1e-8`; so "true iff every node's change
is below `1e-8`" is false there. -/
theorem CheckConvergence_NaN_counterexample :
    (CheckConvergenceDouble 2 2 nanDensity unitDensity (Double.fin 0)) = (true, Double.fin 0) ∧
    Double.lt (Double.abs (Double.sub (nanDensity.Get 1 1) (unitDensity.Get 1 1)))
      (Double.fin 1.0e-8) = false ∧
    ¬((CheckConvergenceDouble 2 2 nanDensity unitDensity (Double.fin 0)).1 = true ↔
      ∀ i j : Int, 0 ≤ i → i < 2 → 0 ≤ j → j < 2 →
        Double.lt (Double.abs (Double.sub (nanDensity.Get i j) (unitDensity.Get i j)))
          (Double.fin 1.0e-8) = true) := by
  have hval : (CheckConvergenceDouble 2 2 nanDensity unitDensity (Double.fin 0)) = (true, Double.fin 0) := by
    norm_num [CheckConvergenceDouble, forRange, forLoop, nanDensity, unitDensity,
      Array2D.Get, Double.max, Double.lt, Double.abs, Double.sub]
  have hnode : Double.lt (Double.abs (Double.sub (nanDensity.Get 1 1) (unitDensity.Get 1 1)))
      (Double.fin 1.0e-8) = false := by
    simp [nanDensity, unitDensity, Array2D.Get, Double.lt, Double.abs, Double.sub]
  refine ⟨hval, hnode, fun h => ?_⟩
  have hall := h.mp (by rw [hval])
  rw [hall 1 1 (by decide) (by decide) (by decide) (by decide)] at hnode
  exact Bool.noConfusion hnode

/-- C9, amended: called with `diff = 0` on a grid with at least one node and
density fields none of whose node changes `|rho - rho_old|` is NaN
(arithmetic on finite values exact), `CheckConvergence` leaves in `diff` the
maximum over all nodes of `|rho - rho_old|` (no node's change is above it and
some node attains it), and returns true iff that maximum is below `1e-8`,
i.e. iff every node's absolute density change is below `1e-8`. -/
theorem CheckConvergenceDouble_max (imax_ jmax_ : Int)
    (rho_ rho_old_ : Array2D (Double K)) (himax : 0 < imax_) (hjmax : 0 < jmax_)
    (hnan : ∀ i j : Int, 0 ≤ i → i < imax_ → 0 ≤ j → j < jmax_ →
      (Double.abs (Double.sub (rho_.Get i j) (rho_old_.Get i j))).isNaN = false) :
    (∀ i j : Int, 0 ≤ i → i < imax_ → 0 ≤ j → j < jmax_ →
      Double.lt (CheckConvergenceDouble imax_ jmax_ rho_ rho_old_ (Double.fin 0)).2
        (Double.abs (Double.sub (rho_.Get i j) (rho_old_.Get i j))) = false) ∧
    (∃ i j : Int, 0 ≤ i ∧ i < imax_ ∧ 0 ≤ j ∧ j < jmax_ ∧
      (CheckConvergenceDouble imax_ jmax_ rho_ rho_old_ (Double.fin 0)).2 =
        Double.abs (Double.sub (rho_.Get i j) (rho_old_.Get i j))) ∧
    ((CheckConvergenceDouble imax_ jmax_ rho_ rho_old_ (Double.fin 0)).1 = true ↔
      Double.lt (CheckConvergenceDouble imax_ jmax_ rho_ rho_old_ (Double.fin 0)).2
        (Double.fin 1.0e-8) = true) ∧
    ((CheckConvergenceDouble imax_ jmax_ rho_ rho_old_ (Double.fin 0)).1 = true ↔
      ∀ i j : Int, 0 ≤ i → i < imax_ → 0 ≤ j → j < jmax_ →
        Double.lt (Double.abs (Double.sub (rho_.Get i j) (rho_old_.Get i j))) (Double.fin 1.0e-8) = true) := by
  obtain ⟨-, -, hub, hatt⟩ :=
    CheckConvergenceDouble_diff_spec imax_ jmax_ rho_ rho_old_ (Double.fin 0) rfl hnan
  have hres : (CheckConvergenceDouble imax_ jmax_ rho_ rho_old_ (Double.fin 0)).1 = true ↔
      Double.lt (CheckConvergenceDouble imax_ jmax_ rho_ rho_old_ (Double.fin 0)).2
        (Double.fin 1.0e-8) = true := Iff.rfl
  have hex : ∃ i j : Int, 0 ≤ i ∧ i < imax_ ∧ 0 ≤ j ∧ j < jmax_ ∧
      (CheckConvergenceDouble imax_ jmax_ rho_ rho_old_ (Double.fin 0)).2 =
        Double.abs (Double.sub (rho_.Get i j) (rho_old_.Get i j)) := by
    rcases hatt with h0 | h
    · refine ⟨0, 0, le_refl 0, himax, le_refl 0, hjmax, ?_⟩
      have h1 := hub 0 0 (le_refl 0) himax (le_refl 0) hjmax
      rw [h0] at h1 ⊢
      exact (Double.abs_eq_zero_of_not_lt _
        (hnan 0 0 (le_refl 0) himax (le_refl 0) hjmax) h1).symm
    · exact h
  refine ⟨hub, hex, hres, hres.trans ⟨fun h i j hi0 hi1 hj0 hj1 => ?_, fun h => ?_⟩⟩
  · exact Double.lt_of_not_lt_of_lt _ _ _ (hnan i j hi0 hi1 hj0 hj1)
      (hub i j hi0 hi1 hj0 hj1) h
  · obtain ⟨i, j, hi0, hi1, hj0, hj1, heq⟩ := hex
    rw [heq]
    exact h i j hi0 hi1 hj0 hj1

/-- No node change of the sample field with an infinite density is NaN. -/
theorem infDensity_changes (i j : Int) (_hi0 : 0 ≤ i) (_hi1 : i < 2) (_hj0 : 0 ≤ j)
    (_hj1 : j < 2) :
    (Double.abs (Double.sub (infDensity.Get i j) (unitDensity.Get i j))).isNaN = false := by
  simp only [infDensity, unitDensity, Array2D.Get]
  split_ifs <;> rfl

/-- Instance of the amended C9 on a `2 x 2` grid whose density is infinite at
node `(0, 0)`: the check returns true iff every node's change is below
`1e-8`. -/
theorem CheckConvergenceDouble_max_witness :
    (0 : Int) < 2 ∧
    ((CheckConvergenceDouble 2 2 infDensity unitDensity (Double.fin 0)).1 = true ↔
      ∀ i j : Int, 0 ≤ i → i < 2 → 0 ≤ j → j < 2 →
        Double.lt (Double.abs (Double.sub (infDensity.Get i j) (unitDensity.Get i j)))
          (Double.fin 1.0e-8) = true) :=
  ⟨by decide,
    (CheckConvergenceDouble_max 2 2 infDensity unitDensity (by decide) (by decide)
      infDensity_changes).2.2.2⟩

end DoubleConvergence

end supersonic_plate
